import Mathlib

/-!
ColorMagic: colour value types

A shallow embedding of the colour value classes of ColorMagic
(`spaces/icolor.h`, `spaces/rgb_deepcolor.cpp`, `spaces/hsv.cpp`) and of the
conversion entry points declared in `manipulation/color_converter.h`,
followed by the properties proved about them.

Conventions of the embedding:

* a C++ `float` is a value of `F`: not-a-number, the two infinities, or a
  finite value carried as an exact rational.  `fminf`, `fmaxf`, the
  comparisons and the `(int)` cast never round, so they are exact on this
  carrier; the two signed zeros are identified (they compare equal in C++);
* an object is the record of its data members; a member function takes the
  object and returns the updated object;
* `std::vector::operator[]` outside the vector and an `(int)` cast of a value
  that does not fit an `int` are undefined behaviour in C++: the embedding
  returns `none` there, so a result `some _` says that the call was defined;
* a C++ `throw` is an `Except.error`;
* the arithmetic `+ - * /` on floats is carried out on the rationals, without
  the rounding of the result;
* the bodies of the conversion functions and of the classes `rgb_truecolor`,
  `cmyk` and `hsl` are not among the sources: they are modelled from the
  specification and from the documentation of the header, and what neither
  gives (the hue formula, the remaining conversions) is a parameter,
  `color_converter.unmodelled`;
* the two gamma helpers raise a component to the powers 2.4 and 1/2.4, which
  have no value among the rationals: they are modelled on one component, a
  real number.
-/

namespace ColorMagic

/-! ## Floating-point values -/

/-- A C++ `float`: NaN, minus infinity, a finite value, plus infinity. -/
inductive F where
  | nan : F
  | ninf : F
  | fin (q : ℚ) : F
  | pinf : F
  deriving DecidableEq

namespace F

/-- The test `isnan(x)`. -/
def isnan (x : F) : Bool :=
  match x with
  | nan => true
  | ninf => false
  | fin _ => false
  | pinf => false

/-- The C++ comparison `a < b` on floats (false as soon as one side is NaN). -/
def lt (a b : F) : Bool :=
  match a with
  | nan => false
  | ninf =>
    match b with
    | nan => false
    | ninf => false
    | fin _ => true
    | pinf => true
  | fin x =>
    match b with
    | nan => false
    | ninf => false
    | fin y => decide (x < y)
    | pinf => true
  | pinf => false

/-- The C++ comparison `a <= b` on floats (false as soon as one side is NaN). -/
def le (a b : F) : Bool :=
  match a with
  | nan => false
  | ninf =>
    match b with
    | nan => false
    | ninf => true
    | fin _ => true
    | pinf => true
  | fin x =>
    match b with
    | nan => false
    | ninf => false
    | fin y => decide (x ≤ y)
    | pinf => true
  | pinf =>
    match b with
    | nan => false
    | ninf => false
    | fin _ => false
    | pinf => true

/-- The C++ comparison `a == b` on floats: exact, and false when a side is NaN. -/
def eq (a b : F) : Bool :=
  match a with
  | nan => false
  | ninf =>
    match b with
    | nan => false
    | ninf => true
    | fin _ => false
    | pinf => false
  | fin x =>
    match b with
    | nan => false
    | ninf => false
    | fin y => decide (x = y)
    | pinf => false
  | pinf =>
    match b with
    | nan => false
    | ninf => false
    | fin _ => false
    | pinf => true

/-- The C++ comparison `a != b` on floats, the negation of `a == b`. -/
def ne (a b : F) : Bool := !(eq a b)

/-- Truncation toward zero of a rational, the value of an `(int)` cast. -/
def trunc (q : ℚ) : Int := Int.tdiv q.num q.den

/-- The cast `(int)x` for a 32-bit `int`: the value truncated toward zero.
The cast is undefined (`none`) for NaN, for the infinities and when the
truncated value is not representable. -/
def toInt (x : F) : Option Int :=
  match x with
  | nan => none
  | ninf => none
  | fin q =>
    if -2147483648 ≤ trunc q ∧ trunc q ≤ 2147483647 then some (trunc q) else none
  | pinf => none

/-- The implicit conversion of an `int` to `float`.  It is exact for
magnitudes up to `2^24`, which covers every use below (remainders by 360). -/
def ofInt (n : Int) : F := fin (n : ℚ)

/-- The C++ division `a / b` on floats, without the rounding of the quotient.
A zero divisor is taken as `+0`, the two zeros being identified. -/
def div (a b : F) : F :=
  match a with
  | nan => nan
  | ninf =>
    match b with
    | nan => nan
    | ninf => nan
    | fin y => if y < 0 then pinf else ninf
    | pinf => nan
  | fin x =>
    match b with
    | nan => nan
    | ninf => fin 0
    | fin y =>
      if y = 0 then (if x = 0 then nan else if 0 < x then pinf else ninf) else fin (x / y)
    | pinf => fin 0
  | pinf =>
    match b with
    | nan => nan
    | ninf => nan
    | fin y => if y < 0 then ninf else pinf
    | pinf => nan

/-- The C++ negation `-a` on floats. -/
def neg (a : F) : F :=
  match a with
  | nan => nan
  | ninf => pinf
  | fin x => fin (-x)
  | pinf => ninf

/-- The C++ addition `a + b` on floats, without the rounding of the sum. -/
def add (a b : F) : F :=
  match a with
  | nan => nan
  | ninf =>
    match b with
    | nan => nan
    | ninf => ninf
    | fin _ => ninf
    | pinf => nan
  | fin x =>
    match b with
    | nan => nan
    | ninf => ninf
    | fin y => fin (x + y)
    | pinf => pinf
  | pinf =>
    match b with
    | nan => nan
    | ninf => nan
    | fin _ => pinf
    | pinf => pinf

/-- The C++ subtraction `a - b` on floats, without the rounding of the difference. -/
def sub (a b : F) : F := add a (neg b)

/-- The C++ multiplication `a * b` on floats, without the rounding of the product. -/
def mul (a b : F) : F :=
  match a with
  | nan => nan
  | ninf =>
    match b with
    | nan => nan
    | ninf => pinf
    | fin y => if y = 0 then nan else if y < 0 then pinf else ninf
    | pinf => ninf
  | fin x =>
    match b with
    | nan => nan
    | ninf => if x = 0 then nan else if x < 0 then pinf else ninf
    | fin y => fin (x * y)
    | pinf => if x = 0 then nan else if x < 0 then ninf else pinf
  | pinf =>
    match b with
    | nan => nan
    | ninf => ninf
    | fin y => if y = 0 then nan else if y < 0 then ninf else pinf
    | pinf => pinf

/-- The C library function `fabsf`. -/
def fabsf (a : F) : F :=
  match a with
  | nan => nan
  | ninf => pinf
  | fin x => fin |x|
  | pinf => pinf

/-- The C library function `fmodf(a, b)`: the remainder of the division
truncated toward zero, which is exact. -/
def fmodf (a b : F) : F :=
  match a with
  | nan => nan
  | ninf => nan
  | fin x =>
    match b with
    | nan => nan
    | ninf => fin x
    | fin y => if y = 0 then nan else fin (x - y * (trunc (x / y) : ℚ))
    | pinf => fin x
  | pinf => nan

/-- The value is a finite number inside the closed interval `[lo, hi]`. -/
def within (x : F) (lo hi : ℚ) : Prop := ∃ q : ℚ, x = fin q ∧ lo ≤ q ∧ q ≤ hi

/-- The value `y` is `x` clamped to `[0, 1]`, case by case: `x` itself when
`0 <= x <= 1`, `0` when `x < 0`, and `1` when `x > 1`. -/
def clamped_unit (x y : F) : Prop :=
  (le (fin 0) x = true → le x (fin 1) = true → y = x) ∧
    (lt x (fin 0) = true → y = fin 0) ∧ (lt (fin 1) x = true → y = fin 1)

/-- The value `y` is `x` clamped to `[lo, hi]`, case by case: `x` itself when
`lo <= x <= hi`, `lo` when `x < lo`, and `hi` when `x > hi`. -/
def clamped_to (x y : F) (lo hi : ℚ) : Prop :=
  (le (fin lo) x = true → le x (fin hi) = true → y = x) ∧
    (lt x (fin lo) = true → y = fin lo) ∧ (lt (fin hi) x = true → y = fin hi)

end F

/-- The C library function `fminf`: the smaller argument; when exactly one
argument is NaN the other one is returned. -/
def fminf (x y : F) : F :=
  if x.isnan then y else if y.isnan then x else if F.lt y x then y else x

/-- The C library function `fmaxf`: the larger argument; when exactly one
argument is NaN the other one is returned. -/
def fmaxf (x y : F) : F :=
  if x.isnan then y else if y.isnan then x else if F.lt x y then y else x

/-! ## Tags and the base class -/

/-- Modelled from the spec: `utils/color_type.h` is not among the sources.
The tags are the nine variants the spec lists, and `UNDEFINED`, which
`icolor::get_color_type` returns. -/
inductive color_type where
  | UNDEFINED | RGB_TRUE | RGB_DEEP | GREY_TRUE | GREY_DEEP | CMYK | HSV | HSL | XYZ | LAB
  deriving DecidableEq

/-- The struct `reference_white` of `color_converter.h`. -/
structure reference_white where
  x : F
  y : F
  z : F
  deriving DecidableEq

/-- The data members of a colour object.  `m_component_vector`, `m_max` and
`m_min` are the members of `icolor`; `color_base.h` is not among the sources,
and the two members that `rgb_deepcolor.cpp` and `hsv.cpp` use from it are
added here: the tag `m_type` (what `get_color_type` returns) and the
pointer `m_reference_white` (`none` for a null pointer). -/
structure color_base where
  m_type : color_type
  m_component_vector : List F
  m_max : F
  m_min : F
  m_reference_white : Option reference_white
  deriving DecidableEq

/-- The loop of the `icolor` constructor, `for (i = 0; i < component_count; ++i)
push_back(-1)`, run for at most `fuel` rounds from index `i`. -/
def push_back_loop (component_count : Int) : Nat → Int → List F → List F
  | 0, _, v => v
  | fuel + 1, i, v =>
    if i < component_count then
      push_back_loop component_count fuel (i + 1) (v ++ [F.fin (-1)])
    else v

/-- The constructor `icolor(component_count, component_max, component_min)`,
with the reference-white pointer that `color_base` takes in addition.  The tag
is `UNDEFINED` until a derived constructor sets `m_type`. -/
def color_base.ctor (ref_white : Option reference_white) (component_count : Int)
    (component_max component_min : F) : color_base :=
  { m_type := color_type.UNDEFINED
    m_component_vector := push_back_loop component_count component_count.toNat 0 []
    m_max := component_max
    m_min := component_min
    m_reference_white := ref_white }

/-- The default `component_max = 1.f` of the constructor. -/
def default_component_max : F := F.fin 1

/-- The default `component_min = 0.f` of the constructor. -/
def default_component_min : F := F.fin 0

namespace color_base

/-- The getter `get_color_type()`. -/
def get_color_type (c : color_base) : color_type := c.m_type

/-- The getter `get_component_max()`. -/
def get_component_max (c : color_base) : F := c.m_max

/-- The getter `get_component_min()`. -/
def get_component_min (c : color_base) : F := c.m_min

end color_base

/-- The helper `icolor::clamp(in_value, max, min)`. -/
def clamp (in_value max min : F) : F := fmaxf (fminf in_value max) min

/-- The write `m_component_vector[index] = value`, defined inside the vector only. -/
def store (c : color_base) (index : Nat) (value : F) : Option color_base :=
  if index < c.m_component_vector.length then
    some { c with m_component_vector := c.m_component_vector.set index value }
  else none

/-- The read `m_component_vector[index]`, defined inside the vector only. -/
def load (c : color_base) (index : Nat) : Option F := c.m_component_vector[index]?

/-- The setter `icolor::set_component(new_value, index)`, clamping with the
object's own `m_max` and `m_min`. -/
def set_component (c : color_base) (new_value : F) (index : Nat) : Option color_base :=
  store c index (clamp new_value c.m_max c.m_min)

/-- The setter `icolor::set_component(new_value, index, max, min)`. -/
def set_component_range (c : color_base) (new_value : F) (index : Nat) (max min : F) :
    Option color_base :=
  store c index (clamp new_value max min)

/-- The loop of `operator==` over the two component vectors, from index 0
upward, leaving with `false` at the first pair that differs.  It is only
entered with vectors of one length, so the right vector never ends first. -/
def components_equal : List F → List F → Bool
  | a :: l, b :: r => if F.ne a b then false else components_equal l r
  | [], _ => true
  | _ :: _, [] => true

/-- The friend `operator==(lhs, rhs)` of `icolor`. -/
def opEq (lhs rhs : color_base) : Bool :=
  let precondition :=
    decide (lhs.get_color_type = rhs.get_color_type) &&
      decide (lhs.m_component_vector.length = rhs.m_component_vector.length)
  if !precondition then false
  else components_equal lhs.m_component_vector rhs.m_component_vector

/-- The friend `operator!=(lhs, rhs)` of `icolor`. -/
def opNe (lhs rhs : color_base) : Bool := !(opEq lhs rhs)

/-- The colour `c1` differs from `c` at most in the component of index `i`: the
colour-type tag, the number of components, the max and min bounds and every
component of another index are those of `c`. -/
def frame_except (c c1 : color_base) (i : Nat) : Prop :=
  c1.get_color_type = c.get_color_type ∧
    c1.m_component_vector.length = c.m_component_vector.length ∧
    c1.get_component_max = c.get_component_max ∧
    c1.get_component_min = c.get_component_min ∧
    ∀ j : Nat, j ≠ i → load c1 j = load c j

/-- After the setter call `set c x` the getter `get` returns `x` clamped to
`[0, 1]`; in particular the setter call is defined. -/
def reads_back_clamped (set : color_base → F → Option color_base)
    (get : color_base → Option F) (c : color_base) (x : F) : Prop :=
  ∃ c1 y, set c x = some c1 ∧ get c1 = some y ∧ F.clamped_unit x y

/-- After the setter call `set c x` the getter `get` returns `x` clamped to
`[lo, hi]`; in particular the setter call is defined. -/
def reads_back_clamped_to (set : color_base → F → Option color_base)
    (get : color_base → Option F) (c : color_base) (x : F) (lo hi : ℚ) : Prop :=
  ∃ c1 y, set c x = some c1 ∧ get c1 = some y ∧ F.clamped_to x y lo hi

/-- A sample object: the members of `rgb_deepcolor(0.25, 0.5, 0.75, 1)`. -/
def sample_rgb_deepcolor : color_base :=
  { m_type := color_type.RGB_DEEP
    m_component_vector := [F.fin (1 / 4), F.fin (1 / 2), F.fin (3 / 4), F.fin 1]
    m_max := F.fin 1
    m_min := F.fin 0
    m_reference_white := none }

/-- A sample object: the members of `hsv(120, 0.5, 0.25)`. -/
def sample_hsv : color_base :=
  { m_type := color_type.HSV
    m_component_vector := [F.fin 120, F.fin (1 / 2), F.fin (1 / 4)]
    m_max := F.fin 1
    m_min := F.fin 0
    m_reference_white := none }

/-- A sample object: the members of `rgb_deepcolor(1, 0, 0, 1)`. -/
def sample_rgb_deep_red : color_base :=
  { m_type := color_type.RGB_DEEP
    m_component_vector := [F.fin 1, F.fin 0, F.fin 0, F.fin 1]
    m_max := F.fin 1
    m_min := F.fin 0
    m_reference_white := none }

/-- A sample object: the members of `rgb_truecolor(255, 0, 0, 255)`. -/
def sample_rgb_true_red : color_base :=
  { m_type := color_type.RGB_TRUE
    m_component_vector := [F.fin 255, F.fin 0, F.fin 0, F.fin 255]
    m_max := F.fin 255
    m_min := F.fin 0
    m_reference_white := none }

/-- The two colours have the same number of components, all finite, and the
components at each index differ by at most `eps`. -/
def components_close (x y : color_base) (eps : ℚ) : Prop :=
  List.Forall₂ (fun a b : F => ∃ p q : ℚ, a = F.fin p ∧ b = F.fin q ∧ |p - q| ≤ eps)
    x.m_component_vector y.m_component_vector

/-- A sample reference white, with three equal coordinates. -/
def sample_reference_white : reference_white :=
  { x := F.fin 100, y := F.fin 100, z := F.fin 100 }

/-- A sample object: the members of `rgb_deepcolor(0, 0, 0, 1)`, black. -/
def sample_rgb_deep_black : color_base :=
  { m_type := color_type.RGB_DEEP
    m_component_vector := [F.fin 0, F.fin 0, F.fin 0, F.fin 1]
    m_max := F.fin 1
    m_min := F.fin 0
    m_reference_white := none }

/-- A sample object: the members of `rgb_deepcolor(0.5, 0.5, 0.5, 1)`, mid-grey. -/
def sample_rgb_deep_grey : color_base :=
  { m_type := color_type.RGB_DEEP
    m_component_vector := [F.fin (1 / 2), F.fin (1 / 2), F.fin (1 / 2), F.fin 1]
    m_max := F.fin 1
    m_min := F.fin 0
    m_reference_white := none }

/-- A sample object: the members of `cmyk(0, 1, 1, 0)`, red. -/
def sample_cmyk_red : color_base :=
  { m_type := color_type.CMYK
    m_component_vector := [F.fin 0, F.fin 1, F.fin 1, F.fin 0]
    m_max := F.fin 1
    m_min := F.fin 0
    m_reference_white := none }

/-- A sample object: the members of `hsv(0, 0, 0)`, black. -/
def sample_hsv_black : color_base :=
  { m_type := color_type.HSV
    m_component_vector := [F.fin 0, F.fin 0, F.fin 0]
    m_max := F.fin 1
    m_min := F.fin 0
    m_reference_white := none }

/-- A sample object: the members of `hsv(0, 0, 0.5)`, mid-grey. -/
def sample_hsv_grey : color_base :=
  { m_type := color_type.HSV
    m_component_vector := [F.fin 0, F.fin 0, F.fin (1 / 2)]
    m_max := F.fin 1
    m_min := F.fin 0
    m_reference_white := none }

/-- A sample object: the members of `hsv(0, 1, 1)`, which `hsv(-30, 2, NaN)` builds
too. -/
def sample_hsv_red : color_base :=
  { m_type := color_type.HSV
    m_component_vector := [F.fin 0, F.fin 1, F.fin 1]
    m_max := F.fin 1
    m_min := F.fin 0
    m_reference_white := none }

/-- A sample object: a base value with the tag `RGB_DEEP` and four components, the
first of them NaN. -/
def sample_base_nan : color_base :=
  { m_type := color_type.RGB_DEEP
    m_component_vector := [F.nan, F.fin 0, F.fin 0, F.fin 1]
    m_max := F.fin 1
    m_min := F.fin 0
    m_reference_white := none }

/-- A sample object: a base value with the tag `RGB_DEEP` and four components, the
first of them, 5, outside `[0, 1]`. -/
def sample_base_out_of_range : color_base :=
  { m_type := color_type.RGB_DEEP
    m_component_vector := [F.fin 5, F.fin 0, F.fin 0, F.fin 1]
    m_max := F.fin 1
    m_min := F.fin 0
    m_reference_white := none }

/-- A sample object: a base value with the tag `RGB_DEEP`, the components
`(0, 0, 0, 1)` and the bounds `[0, 255]`. -/
def sample_base_wide : color_base :=
  { m_type := color_type.RGB_DEEP
    m_component_vector := [F.fin 0, F.fin 0, F.fin 0, F.fin 1]
    m_max := F.fin 255
    m_min := F.fin 0
    m_reference_white := none }

/-- A sample object: a base value with the tag `HSV`, the components `(0, 0, 0)`
and the bounds `[0, 255]`. -/
def sample_hsv_base_wide : color_base :=
  { m_type := color_type.HSV
    m_component_vector := [F.fin 0, F.fin 0, F.fin 0]
    m_max := F.fin 255
    m_min := F.fin 0
    m_reference_white := none }

/-- The exceptions thrown by the constructors.  The sources throw the
exception object by pointer (`throw new std::invalid_argument(...)`). -/
inductive cpp_exception where
  | invalid_argument (what : String) : cpp_exception
  deriving DecidableEq

/-! ## `rgb_deepcolor` -/

namespace rgb_deepcolor

/-- The getter `red()`. -/
def red (c : color_base) : Option F := load c 0

/-- The setter `red(new_red)`. -/
def set_red (c : color_base) (new_red : F) : Option color_base := set_component c new_red 0

/-- The getter `green()`. -/
def green (c : color_base) : Option F := load c 1

/-- The setter `green(new_green)`. -/
def set_green (c : color_base) (new_green : F) : Option color_base :=
  set_component c new_green 1

/-- The getter `blue()`. -/
def blue (c : color_base) : Option F := load c 2

/-- The setter `blue(new_blue)`. -/
def set_blue (c : color_base) (new_blue : F) : Option color_base := set_component c new_blue 2

/-- The getter `alpha()`. -/
def alpha (c : color_base) : Option F := load c 3

/-- The setter `alpha(new_alpha)`. -/
def set_alpha (c : color_base) (new_alpha : F) : Option color_base :=
  set_component c new_alpha 3

/-- The constructor `rgb_deepcolor(value, alpha, ref_white)`. -/
def ctor_value (value alpha : F) (ref_white : Option reference_white) : Option color_base := do
  let this : color_base :=
    { color_base.ctor ref_white 4 default_component_max default_component_min with
      m_type := color_type.RGB_DEEP }
  let this ← set_red this value
  let this ← set_green this value
  let this ← set_blue this value
  let this ← set_alpha this alpha
  pure this

/-- The constructor `rgb_deepcolor(r, g, b, a, ref_white)`. -/
def ctor (r g b a : F) (ref_white : Option reference_white) : Option color_base := do
  let this : color_base :=
    { color_base.ctor ref_white 4 default_component_max default_component_min with
      m_type := color_type.RGB_DEEP }
  let this ← set_red this r
  let this ← set_green this g
  let this ← set_blue this b
  let this ← set_alpha this a
  pure this

/-- The call `rgb_deepcolor()`: the header declares
`rgb_deepcolor(float value = 0.f, float alpha = 1.f)`. -/
def ctor_default (ref_white : Option reference_white) : Option color_base :=
  ctor_value (F.fin 0) (F.fin 1) ref_white

/-- The call `rgb_deepcolor(r, g, b)`: the header declares
`rgb_deepcolor(float r, float g, float b, float a = 1.f)`. -/
def ctor_rgb (r g b : F) (ref_white : Option reference_white) : Option color_base :=
  ctor r g b (F.fin 1) ref_white

/-- The copy constructor `rgb_deepcolor(const rgb_deepcolor& other)`. -/
def ctor_copy (other : color_base) : color_base :=
  { color_base.ctor other.m_reference_white 4 other.get_component_max
      other.get_component_min with
    m_type := other.get_color_type
    m_component_vector := other.m_component_vector }

/-- The constructor `rgb_deepcolor(const color_base& other)`. -/
def ctor_base (other : color_base) : Except cpp_exception color_base :=
  let this : color_base :=
    color_base.ctor other.m_reference_white 4 other.get_component_max other.get_component_min
  if other.get_color_type = color_type.RGB_DEEP ∧ other.m_component_vector.length = 4 then
    Except.ok
      { this with
        m_type := color_type.RGB_DEEP
        m_component_vector := other.m_component_vector }
  else
    Except.error (cpp_exception.invalid_argument
      "RGB Deep: Error while creating rgb deep class from base object. Base object and this derived class have different types.")

/-- The assignment `operator=(other)`, for the object `this`.  The guard
`this != &other` only skips the copy of an object onto itself, which would
store the values the object already holds. -/
def assign (this other : color_base) : color_base :=
  { this with
    m_type := other.get_color_type
    m_component_vector := other.m_component_vector
    m_max := other.get_component_max
    m_min := other.get_component_min }

/-- An `rgb_deepcolor` object with the declared range: tag `RGB_DEEP`, four
components, bounds `[0, 1]`. -/
def declared (c : color_base) : Prop :=
  c.m_type = color_type.RGB_DEEP ∧ c.m_component_vector.length = 4 ∧
    c.m_max = default_component_max ∧ c.m_min = default_component_min

/-- All four named getters are defined and return values within `[lo, hi]`. -/
def components_within (c : color_base) (lo hi : ℚ) : Prop :=
  (∃ x, red c = some x ∧ x.within lo hi) ∧ (∃ x, green c = some x ∧ x.within lo hi) ∧
    (∃ x, blue c = some x ∧ x.within lo hi) ∧ (∃ x, alpha c = some x ∧ x.within lo hi)

/-- The `rgb_deepcolor` objects a program obtains: from a constructor that
returns normally, then by setter calls and by assignments from other
`rgb_deepcolor` objects. -/
inductive obtained : color_base → Prop where
  | by_ctor_value (value alpha : F) (w : Option reference_white) (c : color_base) :
      ctor_value value alpha w = some c → obtained c
  | by_ctor (r g b a : F) (w : Option reference_white) (c : color_base) :
      ctor r g b a w = some c → obtained c
  | by_ctor_copy (other : color_base) : obtained other → obtained (ctor_copy other)
  | by_ctor_base (other c : color_base) : ctor_base other = Except.ok c → obtained c
  | by_set_red (c c1 : color_base) (x : F) : obtained c → set_red c x = some c1 → obtained c1
  | by_set_green (c c1 : color_base) (x : F) :
      obtained c → set_green c x = some c1 → obtained c1
  | by_set_blue (c c1 : color_base) (x : F) :
      obtained c → set_blue c x = some c1 → obtained c1
  | by_set_alpha (c c1 : color_base) (x : F) :
      obtained c → set_alpha c x = some c1 → obtained c1
  | by_assign (this other : color_base) :
      obtained this → obtained other → obtained (assign this other)

/-- Every named getter and setter indexes inside the component vector: the
four getters and the four setters (with any argument) are defined. -/
def accessors_in_bounds (c : color_base) : Prop :=
  (red c).isSome = true ∧ (green c).isSome = true ∧ (blue c).isSome = true ∧
    (alpha c).isSome = true ∧
    ∀ x : F, (set_red c x).isSome = true ∧ (set_green c x).isSome = true ∧
      (set_blue c x).isSome = true ∧ (set_alpha c x).isSome = true

/-- One call of a setter of `rgb_deepcolor`. -/
inductive setter_call where
  | red (x : F) : setter_call
  | green (x : F) : setter_call
  | blue (x : F) : setter_call
  | alpha (x : F) : setter_call

/-- Run one setter call on a colour. -/
def call (c : color_base) (s : setter_call) : Option color_base :=
  match s with
  | setter_call.red x => set_red c x
  | setter_call.green x => set_green c x
  | setter_call.blue x => set_blue c x
  | setter_call.alpha x => set_alpha c x

/-- Run a sequence of setter calls, first call first. -/
def calls (c : color_base) : List setter_call → Option color_base
  | [] => some c
  | s :: rest => (call c s).bind (fun c1 => calls c1 rest)

end rgb_deepcolor

/-! ## `hsv` -/

/-- Modelled from the spec: `m_degrees_max` is declared in a header that is not
among the sources; the spec gives the hue range as 0 to 360. -/
def m_degrees_max : F := F.fin 360

/-- Modelled from the spec: `m_degrees_min` is declared in a header that is not
among the sources; the spec gives the hue range as 0 to 360. -/
def m_degrees_min : F := F.fin 0

namespace hsv

/-- The getter `hue()`. -/
def hue (c : color_base) : Option F := load c 0

/-- The setter `hue(new_hue)`:
`set_component((int)new_hue % 360, 0, m_degrees_max, m_degrees_min)`.
The C++ `%` truncates, which is `Int.tmod`. -/
def set_hue (c : color_base) (new_hue : F) : Option color_base := do
  let i ← F.toInt new_hue
  set_component_range c (F.ofInt (Int.tmod i 360)) 0 m_degrees_max m_degrees_min

/-- The getter `saturation()`. -/
def saturation (c : color_base) : Option F := load c 1

/-- The setter `saturation(new_saturation)`. -/
def set_saturation (c : color_base) (new_saturation : F) : Option color_base :=
  set_component c new_saturation 1

/-- The getter `value()`. -/
def value (c : color_base) : Option F := load c 2

/-- The setter `value(new_value)`. -/
def set_value (c : color_base) (new_value : F) : Option color_base :=
  set_component c new_value 2

/-- The constructor `hsv(hue, saturation, value)`.  `hsv.cpp` calls
`color_base(3)`, without a reference white: the pointer is null. -/
def ctor (hue saturation value : F) : Option color_base := do
  let this : color_base :=
    { color_base.ctor none 3 default_component_max default_component_min with
      m_type := color_type.HSV }
  let this ← set_hue this hue
  let this ← set_saturation this saturation
  let this ← set_value this value
  pure this

/-- An `hsv` object with the declared range of saturation and value: tag
`HSV`, three components, bounds `[0, 1]`. -/
def declared (c : color_base) : Prop :=
  c.m_type = color_type.HSV ∧ c.m_component_vector.length = 3 ∧
    c.m_max = default_component_max ∧ c.m_min = default_component_min

/-- The copy constructor `hsv(const hsv& other)`. -/
def ctor_copy (other : color_base) : color_base :=
  { color_base.ctor none 3 other.get_component_max other.get_component_min with
    m_type := other.get_color_type
    m_component_vector := other.m_component_vector }

/-- The constructor `hsv(const color_base& other)`. -/
def ctor_base (other : color_base) : Except cpp_exception color_base :=
  let this : color_base :=
    color_base.ctor none 3 other.get_component_max other.get_component_min
  if other.get_color_type = color_type.HSV ∧ other.m_component_vector.length = 3 then
    Except.ok
      { this with
        m_type := color_type.HSV
        m_component_vector := other.m_component_vector }
  else
    Except.error (cpp_exception.invalid_argument
      "HSV: Error while creating hsv class from base object. Base object and this derived class have different types.")

/-- The assignment `operator=(other)`, for the object `this`.  The guard
`this != &other` only skips the copy of an object onto itself, which would
store the values the object already holds. -/
def assign (this other : color_base) : color_base :=
  { this with
    m_type := other.get_color_type
    m_component_vector := other.m_component_vector
    m_max := other.get_component_max
    m_min := other.get_component_min }

/-- The `hsv` objects a program obtains: from a constructor that returns
normally, then by setter calls and by assignments from other `hsv` objects. -/
inductive obtained : color_base → Prop where
  | by_ctor (h s v : F) (c : color_base) : ctor h s v = some c → obtained c
  | by_ctor_copy (other : color_base) : obtained other → obtained (ctor_copy other)
  | by_ctor_base (other c : color_base) : ctor_base other = Except.ok c → obtained c
  | by_set_hue (c c1 : color_base) (x : F) : obtained c → set_hue c x = some c1 → obtained c1
  | by_set_saturation (c c1 : color_base) (x : F) :
      obtained c → set_saturation c x = some c1 → obtained c1
  | by_set_value (c c1 : color_base) (x : F) :
      obtained c → set_value c x = some c1 → obtained c1
  | by_assign (this other : color_base) :
      obtained this → obtained other → obtained (assign this other)

/-- Every named getter and setter indexes inside the component vector: the
three getters are defined, the saturation and value setters are defined for
every argument, and the hue setter is defined whenever its `(int)` cast is. -/
def accessors_in_bounds (c : color_base) : Prop :=
  (hue c).isSome = true ∧ (saturation c).isSome = true ∧ (value c).isSome = true ∧
    ∀ x : F, (set_saturation c x).isSome = true ∧ (set_value c x).isSome = true ∧
      ((set_hue c x).isSome = true ↔ (F.toInt x).isSome = true)

end hsv

/-! ## `rgb_truecolor` and the conversion to `rgb_deepcolor` -/

namespace rgb_truecolor

/-- Modelled from the spec: the class `rgb_truecolor` is not among the sources.
The spec gives RGBTrue the fields of RGBDeep (red, green, blue, alpha) with
the range `[0, 255]`: this is the getter `red()`. -/
def red (c : color_base) : Option F := load c 0

/-- Modelled from the spec: the setter `red(new_red)` of the absent class
`rgb_truecolor`, clamping to the bounds of the object like every setter. -/
def set_red (c : color_base) (new_red : F) : Option color_base := set_component c new_red 0

/-- Modelled from the spec: the getter `green()` of the absent class `rgb_truecolor`. -/
def green (c : color_base) : Option F := load c 1

/-- Modelled from the spec: the setter `green(new_green)` of the absent class
`rgb_truecolor`. -/
def set_green (c : color_base) (new_green : F) : Option color_base :=
  set_component c new_green 1

/-- Modelled from the spec: the getter `blue()` of the absent class `rgb_truecolor`. -/
def blue (c : color_base) : Option F := load c 2

/-- Modelled from the spec: the setter `blue(new_blue)` of the absent class
`rgb_truecolor`. -/
def set_blue (c : color_base) (new_blue : F) : Option color_base := set_component c new_blue 2

/-- Modelled from the spec: the getter `alpha()` of the absent class `rgb_truecolor`. -/
def alpha (c : color_base) : Option F := load c 3

/-- Modelled from the spec: the setter `alpha(new_alpha)` of the absent class
`rgb_truecolor`. -/
def set_alpha (c : color_base) (new_alpha : F) : Option color_base :=
  set_component c new_alpha 3

/-- Modelled from the spec: the constructor `rgb_truecolor(r, g, b, a)` of the
absent class, as the test uses it: four components with the bounds
`[0, 255]`, the tag `RGB_TRUE`, each argument stored through its setter. -/
def ctor (r g b a : F) : Option color_base := do
  let this : color_base :=
    { color_base.ctor none 4 (F.fin 255) (F.fin 0) with m_type := color_type.RGB_TRUE }
  let this ← set_red this r
  let this ← set_green this g
  let this ← set_blue this b
  let this ← set_alpha this a
  pure this

end rgb_truecolor

namespace color_converter

/-- Modelled from the spec: `color_converter.cpp` is not among the sources; the
header declares `rgb_true_to_rgb_deep` and documents it as "Divides each
component by 255", and the spec says "divide/multiply each of r,g,b,a by
255".  The result is built by the four-argument constructor of
`rgb_deepcolor`, with a null reference white. -/
def rgb_true_to_rgb_deep (color : color_base) : Option color_base := do
  let r ← rgb_truecolor.red color
  let g ← rgb_truecolor.green color
  let b ← rgb_truecolor.blue color
  let a ← rgb_truecolor.alpha color
  rgb_deepcolor.ctor (F.div r (F.fin 255)) (F.div g (F.fin 255)) (F.div b (F.fin 255))
    (F.div a (F.fin 255)) none

end color_converter

/-! ## `cmyk` and `hsl` -/

namespace cmyk

/-- Modelled from the spec: the class `cmyk` is not among the sources.  The spec
gives CMYK the fields cyan, magenta, yellow and black, all in `[0, 1]`: this
is the getter `cyan()`. -/
def cyan (c : color_base) : Option F := load c 0

/-- Modelled from the spec: the setter `cyan(new_cyan)` of the absent class `cmyk`,
clamping to the bounds of the object like every setter. -/
def set_cyan (c : color_base) (new_cyan : F) : Option color_base := set_component c new_cyan 0

/-- Modelled from the spec: the getter `magenta()` of the absent class `cmyk`. -/
def magenta (c : color_base) : Option F := load c 1

/-- Modelled from the spec: the setter `magenta(new_magenta)` of the absent class
`cmyk`. -/
def set_magenta (c : color_base) (new_magenta : F) : Option color_base :=
  set_component c new_magenta 1

/-- Modelled from the spec: the getter `yellow()` of the absent class `cmyk`. -/
def yellow (c : color_base) : Option F := load c 2

/-- Modelled from the spec: the setter `yellow(new_yellow)` of the absent class
`cmyk`. -/
def set_yellow (c : color_base) (new_yellow : F) : Option color_base :=
  set_component c new_yellow 2

/-- Modelled from the spec: the getter `black()` of the absent class `cmyk`. -/
def black (c : color_base) : Option F := load c 3

/-- Modelled from the spec: the setter `black(new_black)` of the absent class
`cmyk`. -/
def set_black (c : color_base) (new_black : F) : Option color_base :=
  set_component c new_black 3

/-- Modelled from the spec: the constructor `cmyk(cyan, magenta, yellow, black)` of
the absent class: four components with the default bounds `[0, 1]`, the tag
`CMYK`, each argument stored through its clamping setter. -/
def ctor (cyan magenta yellow black : F) : Option color_base := do
  let this : color_base :=
    { color_base.ctor none 4 default_component_max default_component_min with
      m_type := color_type.CMYK }
  let this ← set_cyan this cyan
  let this ← set_magenta this magenta
  let this ← set_yellow this yellow
  let this ← set_black this black
  pure this

end cmyk

namespace hsl

/-- Modelled from the spec: `hsl.cpp` is not among the sources; the header
`ColorSpaces/hsl.h` declares the accessors of hue, saturation and lightness.
This is the getter `hue()`. -/
def hue (c : color_base) : Option F := load c 0

/-- Modelled from the spec: the setter `hue(new_hue)` of `hsl`, whose body is
absent.  The spec has every component "independently clamped to a [min,max]
range (default [0,1], overridden per-space, e.g. hue uses [0,360))": the hue
is clamped to the range of the degrees. -/
def set_hue (c : color_base) (new_hue : F) : Option color_base :=
  set_component_range c new_hue 0 m_degrees_max m_degrees_min

/-- Modelled from the spec: the getter `saturation()` of `hsl`, whose body is absent. -/
def saturation (c : color_base) : Option F := load c 1

/-- Modelled from the spec: the setter `saturation(new_saturation)` of `hsl`, whose
body is absent, clamping to the bounds of the object like every setter. -/
def set_saturation (c : color_base) (new_saturation : F) : Option color_base :=
  set_component c new_saturation 1

/-- Modelled from the spec: the getter `lightness()` of `hsl`, whose body is absent. -/
def lightness (c : color_base) : Option F := load c 2

/-- Modelled from the spec: the setter `lightness(new_lightness)` of `hsl`, whose
body is absent, clamping to the bounds of the object like every setter. -/
def set_lightness (c : color_base) (new_lightness : F) : Option color_base :=
  set_component c new_lightness 2

/-- Modelled from the spec: the constructor `hsl(hue, saturation, lightness)`
declared in `ColorSpaces/hsl.h`, whose body is absent: three components with
the default bounds `[0, 1]`, the tag `HSL`, each argument stored through its
setter, as the constructor of `hsv` does. -/
def ctor (hue saturation lightness : F) : Option color_base := do
  let this : color_base :=
    { color_base.ctor none 3 default_component_max default_component_min with
      m_type := color_type.HSL }
  let this ← set_hue this hue
  let this ← set_saturation this saturation
  let this ← set_lightness this lightness
  pure this

end hsl

/-! ## `grey_deepcolor` -/

namespace grey_deepcolor

/-- Modelled from the spec: `grey_deepcolor.cpp` is not among the sources; the
header `spaces/grey_deepcolor.h` declares the accessors of the grey value and
of alpha.  This is the getter `grey()`. -/
def grey (c : color_base) : Option F := load c 0

/-- Modelled from the spec: the setter `grey(new_grey)` of `grey_deepcolor`, whose
body is absent, clamping to the bounds of the object like every setter. -/
def set_grey (c : color_base) (new_grey : F) : Option color_base := set_component c new_grey 0

/-- Modelled from the spec: the getter `alpha()` of `grey_deepcolor`, whose body is
absent. -/
def alpha (c : color_base) : Option F := load c 1

/-- Modelled from the spec: the setter `alpha(new_alpha)` of `grey_deepcolor`, whose
body is absent, clamping to the bounds of the object like every setter. -/
def set_alpha (c : color_base) (new_alpha : F) : Option color_base :=
  set_component c new_alpha 1

/-- Modelled from the spec: the constructor `grey_deepcolor(value, alpha)` declared
in `spaces/grey_deepcolor.h`, whose body is absent: two components with the
default bounds `[0, 1]`, the tag `GREY_DEEP`, each argument stored through
its clamping setter, as the constructor of `rgb_deepcolor` does. -/
def ctor (value alpha : F) : Option color_base := do
  let this : color_base :=
    { color_base.ctor none 2 default_component_max default_component_min with
      m_type := color_type.GREY_DEEP }
  let this ← set_grey this value
  let this ← set_alpha this alpha
  pure this

end grey_deepcolor

/-! ## The conversions of `color_converter` -/

namespace color_converter

/-- Modelled from the spec: the parts of the absent `color_converter.cpp` for
which the spec gives no formula, kept as parameters.  `hue r g b` is the hue
of a colour that is not grey, of which the spec only says that it "depends on
which channel is max"; `convert source target` stands for the conversion
functions that are not modelled below, and `convert_lab source target` for
those to or from Lab, which take a reference white in the header. -/
structure unmodelled where
  hue : F → F → F → F
  convert : color_type → color_type → color_base → Option color_base
  convert_lab : color_type → color_type → color_base → reference_white → Option color_base

/-- Modelled from the spec: the edge-case policy "all divisions guard against
division-by-zero ... and substitute the documented fallback value (0)". -/
def guarded_div (x divisor : F) : F :=
  if F.eq divisor (F.fin 0) then F.fin 0 else F.div x divisor

/-- Modelled from the spec: `rgb_deep_to_rgb_true`, whose body is absent; the
header documents it as "Multiplies each component by 255" and the spec says
"divide/multiply each of r,g,b,a by 255".  The result is built by the
constructor of `rgb_truecolor`. -/
def rgb_deep_to_rgb_true (color : color_base) : Option color_base := do
  let r ← rgb_deepcolor.red color
  let g ← rgb_deepcolor.green color
  let b ← rgb_deepcolor.blue color
  let a ← rgb_deepcolor.alpha color
  rgb_truecolor.ctor (F.mul r (F.fin 255)) (F.mul g (F.fin 255)) (F.mul b (F.fin 255))
    (F.mul a (F.fin 255))

/-- Modelled from the spec: one of cyan, magenta, yellow in `rgb_deep_to_cmyk`:
"comp = (1 - rgb_comp - black) / (1 - black) (guard black==1 -> comp=0)". -/
def cmyk_component (rgb_comp black : F) : F :=
  if F.eq black (F.fin 1) then F.fin 0
  else F.div (F.sub (F.sub (F.fin 1) rgb_comp) black) (F.sub (F.fin 1) black)

/-- Modelled from the spec: `rgb_deep_to_cmyk`, whose body is absent:
"black = 1 - max(r,g,b)", then `cmyk_component` for each of r, g, b.  The
result is built by the constructor of `cmyk`. -/
def rgb_deep_to_cmyk (color : color_base) : Option color_base := do
  let r ← rgb_deepcolor.red color
  let g ← rgb_deepcolor.green color
  let b ← rgb_deepcolor.blue color
  let black := F.sub (F.fin 1) (fmaxf (fmaxf r g) b)
  cmyk.ctor (cmyk_component r black) (cmyk_component g black) (cmyk_component b black) black

/-- Modelled from the spec: `cmyk_to_rgb_deep`, whose body is absent:
"comp = (1 - cyan_or_magenta_or_yellow) x (1 - black)"; the header gives the
same three formulas.  The result is built by `rgb_deepcolor(r, g, b)`, with
the default alpha 1 and a null reference white. -/
def cmyk_to_rgb_deep (color : color_base) : Option color_base := do
  let c ← cmyk.cyan color
  let m ← cmyk.magenta color
  let y ← cmyk.yellow color
  let k ← cmyk.black color
  rgb_deepcolor.ctor_rgb (F.mul (F.sub (F.fin 1) c) (F.sub (F.fin 1) k))
    (F.mul (F.sub (F.fin 1) m) (F.sub (F.fin 1) k))
    (F.mul (F.sub (F.fin 1) y) (F.sub (F.fin 1) k)) none

/-- Modelled from the spec: `rgb_deep_to_hsv`, whose body is absent: "standard
max/min/delta hue-saturation-value derivation; if max==min, hue=0,
saturation=0, value=max; else hue depends on which channel is max,
saturation = delta/max".  The hue of a colour that is not grey is the
parameter `u.hue`.  The result is built by the constructor of `hsv`. -/
def rgb_deep_to_hsv (u : unmodelled) (color : color_base) : Option color_base := do
  let r ← rgb_deepcolor.red color
  let g ← rgb_deepcolor.green color
  let b ← rgb_deepcolor.blue color
  let max := fmaxf (fmaxf r g) b
  let min := fminf (fminf r g) b
  let delta := F.sub max min
  if F.eq max min then hsv.ctor (F.fin 0) (F.fin 0) max
  else hsv.ctor (u.hue r g b) (F.div delta max) max

/-- Modelled from the spec: `hsv_to_hsl`, whose body is absent.  The header
documents it: lightness is `(2 - saturation) * value`; saturation is
`saturation * value`, divided by the lightness if it is at most 1 and by
`2 - lightness` otherwise; finally the lightness is divided by 2; the hue
does not change.  The spec says the same ("saturation renormalized by
whether s.v <= 1") and makes the division a guarded one.  The result is
built by the constructor of `hsl`. -/
def hsv_to_hsl (color : color_base) : Option color_base := do
  let hue ← hsv.hue color
  let s ← hsv.saturation color
  let v ← hsv.value color
  let lightness := F.mul (F.sub (F.fin 2) s) v
  let saturation := F.mul s v
  let saturation :=
    guarded_div saturation
      (if F.le saturation (F.fin 1) then lightness else F.sub (F.fin 2) lightness)
  let lightness := F.div lightness (F.fin 2)
  hsl.ctor hue saturation lightness

/-- Modelled from the spec: `rgb_deep_to_hsl`, whose body is absent; the header
documents it as a wrapper that "first converts the input color to hsv and
afterwards the hsv color to hsl". -/
def rgb_deep_to_hsl (u : unmodelled) (color : color_base) : Option color_base :=
  (rgb_deep_to_hsv u color).bind hsv_to_hsl

/-- Modelled from the spec: `cmyk_to_hsl`, whose body is absent; the header
documents it as a wrapper that "first converts the input color to rgb deep
and afterwards the rgb deep color to hsl". -/
def cmyk_to_hsl (u : unmodelled) (color : color_base) : Option color_base :=
  (cmyk_to_rgb_deep color).bind (rgb_deep_to_hsl u)

/-- Modelled from the spec: the sector table of the formula that the header
of `hsv_to_rgb_deep` refers to (HSV to RGB): the triple `(R1, G1, B1)` for the
chroma `c`, the second largest component `x` and `h1 = hue / 60`. -/
def hsv_sector (c x h1 : F) : F × F × F :=
  if F.le (F.fin 0) h1 && F.lt h1 (F.fin 1) then (c, x, F.fin 0)
  else if F.le (F.fin 1) h1 && F.lt h1 (F.fin 2) then (x, c, F.fin 0)
  else if F.le (F.fin 2) h1 && F.lt h1 (F.fin 3) then (F.fin 0, c, x)
  else if F.le (F.fin 3) h1 && F.lt h1 (F.fin 4) then (F.fin 0, x, c)
  else if F.le (F.fin 4) h1 && F.lt h1 (F.fin 5) then (x, F.fin 0, c)
  else if F.le (F.fin 5) h1 && F.lt h1 (F.fin 6) then (c, F.fin 0, x)
  else (F.fin 0, F.fin 0, F.fin 0)

/-- Modelled from the spec: `hsv_to_rgb_deep`, whose body is absent: the
"standard sector-based formula" that the header refers to, with the chroma
`c = v * s`, `h1 = hue / 60`, `x = c * (1 - |h1 mod 2 - 1|)`, the sector table
and `m = v - c` added to each component.  The result is built by
`rgb_deepcolor(r, g, b)`, with the default alpha 1 and a null reference
white. -/
def hsv_to_rgb_deep (color : color_base) : Option color_base := do
  let hue ← hsv.hue color
  let s ← hsv.saturation color
  let v ← hsv.value color
  let c := F.mul v s
  let h1 := F.div hue (F.fin 60)
  let x := F.mul c (F.sub (F.fin 1) (F.fabsf (F.sub (F.fmodf h1 (F.fin 2)) (F.fin 1))))
  let rgb1 := hsv_sector c x h1
  let m := F.sub v c
  rgb_deepcolor.ctor_rgb (F.add rgb1.1 m) (F.add rgb1.2.1 m) (F.add rgb1.2.2 m) none

/-- Modelled from the spec: `rgb_deep_to_grey_deep`, whose body is absent; the
header documents it as "Calculates the average of red, green and blue and
sets it as grey value" and the spec says "grey = average(r,g,b); alpha
passed through".  The result is built by the constructor of
`grey_deepcolor`. -/
def rgb_deep_to_grey_deep (color : color_base) : Option color_base := do
  let r ← rgb_deepcolor.red color
  let g ← rgb_deepcolor.green color
  let b ← rgb_deepcolor.blue color
  let a ← rgb_deepcolor.alpha color
  grey_deepcolor.ctor (F.div (F.add (F.add r g) b) (F.fin 3)) a

/-- Modelled from the spec: the branches of a `from_X` switch whose conversion
function is not modelled.  An unknown target tag is a contract violation,
for which no result is defined; a conversion to Lab takes the reference
white, the others do not. -/
def from_unmodelled (u : unmodelled) (source out_type : color_type) (in_color : color_base)
    (reference : reference_white) : Option color_base :=
  match out_type with
  | color_type.UNDEFINED => none
  | color_type.LAB => u.convert_lab source color_type.LAB in_color reference
  | color_type.RGB_TRUE => u.convert source color_type.RGB_TRUE in_color
  | color_type.RGB_DEEP => u.convert source color_type.RGB_DEEP in_color
  | color_type.GREY_TRUE => u.convert source color_type.GREY_TRUE in_color
  | color_type.GREY_DEEP => u.convert source color_type.GREY_DEEP in_color
  | color_type.CMYK => u.convert source color_type.CMYK in_color
  | color_type.HSV => u.convert source color_type.HSV in_color
  | color_type.HSL => u.convert source color_type.HSL in_color
  | color_type.XYZ => u.convert source color_type.XYZ in_color

/-- Modelled from the spec: `from_rgb_true`, whose body is absent: the switch on
the target "to select the specific function within that family (or identity
if source==target)". -/
def from_rgb_true (u : unmodelled) (in_color : color_base) (out_type : color_type)
    (reference : reference_white) : Option color_base :=
  match out_type with
  | color_type.RGB_TRUE => some in_color
  | color_type.RGB_DEEP => rgb_true_to_rgb_deep in_color
  | color_type.UNDEFINED => from_unmodelled u color_type.RGB_TRUE out_type in_color reference
  | color_type.GREY_TRUE => from_unmodelled u color_type.RGB_TRUE out_type in_color reference
  | color_type.GREY_DEEP => from_unmodelled u color_type.RGB_TRUE out_type in_color reference
  | color_type.CMYK => from_unmodelled u color_type.RGB_TRUE out_type in_color reference
  | color_type.HSV => from_unmodelled u color_type.RGB_TRUE out_type in_color reference
  | color_type.HSL => from_unmodelled u color_type.RGB_TRUE out_type in_color reference
  | color_type.XYZ => from_unmodelled u color_type.RGB_TRUE out_type in_color reference
  | color_type.LAB => from_unmodelled u color_type.RGB_TRUE out_type in_color reference

/-- Modelled from the spec: `from_rgb_deep`, whose body is absent: the switch on
the target, the identity when the target is the source. -/
def from_rgb_deep (u : unmodelled) (in_color : color_base) (out_type : color_type)
    (reference : reference_white) : Option color_base :=
  match out_type with
  | color_type.RGB_DEEP => some in_color
  | color_type.RGB_TRUE => rgb_deep_to_rgb_true in_color
  | color_type.CMYK => rgb_deep_to_cmyk in_color
  | color_type.HSV => rgb_deep_to_hsv u in_color
  | color_type.HSL => rgb_deep_to_hsl u in_color
  | color_type.GREY_DEEP => rgb_deep_to_grey_deep in_color
  | color_type.UNDEFINED => from_unmodelled u color_type.RGB_DEEP out_type in_color reference
  | color_type.GREY_TRUE => from_unmodelled u color_type.RGB_DEEP out_type in_color reference
  | color_type.XYZ => from_unmodelled u color_type.RGB_DEEP out_type in_color reference
  | color_type.LAB => from_unmodelled u color_type.RGB_DEEP out_type in_color reference

/-- Modelled from the spec: `from_grey_true`, whose body is absent: the switch on
the target, the identity when the target is the source. -/
def from_grey_true (u : unmodelled) (in_color : color_base) (out_type : color_type)
    (reference : reference_white) : Option color_base :=
  match out_type with
  | color_type.GREY_TRUE => some in_color
  | color_type.UNDEFINED => from_unmodelled u color_type.GREY_TRUE out_type in_color reference
  | color_type.RGB_TRUE => from_unmodelled u color_type.GREY_TRUE out_type in_color reference
  | color_type.RGB_DEEP => from_unmodelled u color_type.GREY_TRUE out_type in_color reference
  | color_type.GREY_DEEP => from_unmodelled u color_type.GREY_TRUE out_type in_color reference
  | color_type.CMYK => from_unmodelled u color_type.GREY_TRUE out_type in_color reference
  | color_type.HSV => from_unmodelled u color_type.GREY_TRUE out_type in_color reference
  | color_type.HSL => from_unmodelled u color_type.GREY_TRUE out_type in_color reference
  | color_type.XYZ => from_unmodelled u color_type.GREY_TRUE out_type in_color reference
  | color_type.LAB => from_unmodelled u color_type.GREY_TRUE out_type in_color reference

/-- Modelled from the spec: `from_grey_deep`, whose body is absent: the switch on
the target, the identity when the target is the source. -/
def from_grey_deep (u : unmodelled) (in_color : color_base) (out_type : color_type)
    (reference : reference_white) : Option color_base :=
  match out_type with
  | color_type.GREY_DEEP => some in_color
  | color_type.UNDEFINED => from_unmodelled u color_type.GREY_DEEP out_type in_color reference
  | color_type.RGB_TRUE => from_unmodelled u color_type.GREY_DEEP out_type in_color reference
  | color_type.RGB_DEEP => from_unmodelled u color_type.GREY_DEEP out_type in_color reference
  | color_type.GREY_TRUE => from_unmodelled u color_type.GREY_DEEP out_type in_color reference
  | color_type.CMYK => from_unmodelled u color_type.GREY_DEEP out_type in_color reference
  | color_type.HSV => from_unmodelled u color_type.GREY_DEEP out_type in_color reference
  | color_type.HSL => from_unmodelled u color_type.GREY_DEEP out_type in_color reference
  | color_type.XYZ => from_unmodelled u color_type.GREY_DEEP out_type in_color reference
  | color_type.LAB => from_unmodelled u color_type.GREY_DEEP out_type in_color reference

/-- Modelled from the spec: `from_cmyk`, whose body is absent: the switch on the
target, the identity when the target is the source. -/
def from_cmyk (u : unmodelled) (in_color : color_base) (out_type : color_type)
    (reference : reference_white) : Option color_base :=
  match out_type with
  | color_type.CMYK => some in_color
  | color_type.RGB_DEEP => cmyk_to_rgb_deep in_color
  | color_type.HSL => cmyk_to_hsl u in_color
  | color_type.UNDEFINED => from_unmodelled u color_type.CMYK out_type in_color reference
  | color_type.RGB_TRUE => from_unmodelled u color_type.CMYK out_type in_color reference
  | color_type.GREY_TRUE => from_unmodelled u color_type.CMYK out_type in_color reference
  | color_type.GREY_DEEP => from_unmodelled u color_type.CMYK out_type in_color reference
  | color_type.HSV => from_unmodelled u color_type.CMYK out_type in_color reference
  | color_type.XYZ => from_unmodelled u color_type.CMYK out_type in_color reference
  | color_type.LAB => from_unmodelled u color_type.CMYK out_type in_color reference

/-- Modelled from the spec: `from_hsv`, whose body is absent: the switch on the
target, the identity when the target is the source. -/
def from_hsv (u : unmodelled) (in_color : color_base) (out_type : color_type)
    (reference : reference_white) : Option color_base :=
  match out_type with
  | color_type.HSV => some in_color
  | color_type.RGB_DEEP => hsv_to_rgb_deep in_color
  | color_type.HSL => hsv_to_hsl in_color
  | color_type.UNDEFINED => from_unmodelled u color_type.HSV out_type in_color reference
  | color_type.RGB_TRUE => from_unmodelled u color_type.HSV out_type in_color reference
  | color_type.GREY_TRUE => from_unmodelled u color_type.HSV out_type in_color reference
  | color_type.GREY_DEEP => from_unmodelled u color_type.HSV out_type in_color reference
  | color_type.CMYK => from_unmodelled u color_type.HSV out_type in_color reference
  | color_type.XYZ => from_unmodelled u color_type.HSV out_type in_color reference
  | color_type.LAB => from_unmodelled u color_type.HSV out_type in_color reference

/-- Modelled from the spec: `from_hsl`, whose body is absent: the switch on the
target, the identity when the target is the source. -/
def from_hsl (u : unmodelled) (in_color : color_base) (out_type : color_type)
    (reference : reference_white) : Option color_base :=
  match out_type with
  | color_type.HSL => some in_color
  | color_type.UNDEFINED => from_unmodelled u color_type.HSL out_type in_color reference
  | color_type.RGB_TRUE => from_unmodelled u color_type.HSL out_type in_color reference
  | color_type.RGB_DEEP => from_unmodelled u color_type.HSL out_type in_color reference
  | color_type.GREY_TRUE => from_unmodelled u color_type.HSL out_type in_color reference
  | color_type.GREY_DEEP => from_unmodelled u color_type.HSL out_type in_color reference
  | color_type.CMYK => from_unmodelled u color_type.HSL out_type in_color reference
  | color_type.HSV => from_unmodelled u color_type.HSL out_type in_color reference
  | color_type.XYZ => from_unmodelled u color_type.HSL out_type in_color reference
  | color_type.LAB => from_unmodelled u color_type.HSL out_type in_color reference

/-- Modelled from the spec: `from_xyz`, whose body is absent: the switch on the
target, the identity when the target is the source. -/
def from_xyz (u : unmodelled) (in_color : color_base) (out_type : color_type)
    (reference : reference_white) : Option color_base :=
  match out_type with
  | color_type.XYZ => some in_color
  | color_type.UNDEFINED => from_unmodelled u color_type.XYZ out_type in_color reference
  | color_type.RGB_TRUE => from_unmodelled u color_type.XYZ out_type in_color reference
  | color_type.RGB_DEEP => from_unmodelled u color_type.XYZ out_type in_color reference
  | color_type.GREY_TRUE => from_unmodelled u color_type.XYZ out_type in_color reference
  | color_type.GREY_DEEP => from_unmodelled u color_type.XYZ out_type in_color reference
  | color_type.CMYK => from_unmodelled u color_type.XYZ out_type in_color reference
  | color_type.HSV => from_unmodelled u color_type.XYZ out_type in_color reference
  | color_type.HSL => from_unmodelled u color_type.XYZ out_type in_color reference
  | color_type.LAB => from_unmodelled u color_type.XYZ out_type in_color reference

/-- Modelled from the spec: `from_lab`, whose body is absent: the switch on the
target, the identity when the target is the source; every conversion from
Lab takes the reference white. -/
def from_lab (u : unmodelled) (in_color : color_base) (out_type : color_type)
    (reference : reference_white) : Option color_base :=
  match out_type with
  | color_type.LAB => some in_color
  | color_type.UNDEFINED => none
  | color_type.RGB_TRUE => u.convert_lab color_type.LAB out_type in_color reference
  | color_type.RGB_DEEP => u.convert_lab color_type.LAB out_type in_color reference
  | color_type.GREY_TRUE => u.convert_lab color_type.LAB out_type in_color reference
  | color_type.GREY_DEEP => u.convert_lab color_type.LAB out_type in_color reference
  | color_type.CMYK => u.convert_lab color_type.LAB out_type in_color reference
  | color_type.HSV => u.convert_lab color_type.LAB out_type in_color reference
  | color_type.HSL => u.convert_lab color_type.LAB out_type in_color reference
  | color_type.XYZ => u.convert_lab color_type.LAB out_type in_color reference

/-- Modelled from the spec: the router `convertTo(in_color, out_color, reference)`,
whose body is absent: "first switch on value's current variant to select the
correct from_X family, then switch on target".  A colour without a variant
(`UNDEFINED`) has no family, and no result is defined for it. -/
def convertTo (u : unmodelled) (in_color : color_base) (out_color : color_type)
    (reference : reference_white) : Option color_base :=
  match in_color.get_color_type with
  | color_type.UNDEFINED => none
  | color_type.RGB_TRUE => from_rgb_true u in_color out_color reference
  | color_type.RGB_DEEP => from_rgb_deep u in_color out_color reference
  | color_type.GREY_TRUE => from_grey_true u in_color out_color reference
  | color_type.GREY_DEEP => from_grey_deep u in_color out_color reference
  | color_type.CMYK => from_cmyk u in_color out_color reference
  | color_type.HSV => from_hsv u in_color out_color reference
  | color_type.HSL => from_hsl u in_color out_color reference
  | color_type.XYZ => from_xyz u in_color out_color reference
  | color_type.LAB => from_lab u in_color out_color reference

/-- The hue parameter is usable by the constructor of `hsv`: on every valid
colour that is not grey it returns a finite value whose truncation fits an
`int`. -/
def hue_defined (u : unmodelled) : Prop :=
  ∀ r g b : ℚ, (0 ≤ r ∧ r ≤ 1) → (0 ≤ g ∧ g ≤ 1) → (0 ≤ b ∧ b ≤ 1) → ¬ (r = g ∧ g = b) →
    ∃ q : ℚ, u.hue (F.fin r) (F.fin g) (F.fin b) = F.fin q ∧ -2147483649 < q ∧ q < 2147483648

/-- A sample of the parameters: the usual hue formula
(`60 * ((g - b) / delta mod 6)` when red is the largest channel,
`60 * ((b - r) / delta + 2)` when green is, `60 * ((r - g) / delta + 4)`
otherwise) and no conversion beyond the modelled ones. -/
def sample_unmodelled : unmodelled :=
  { hue := fun r g b =>
      let max := fmaxf (fmaxf r g) b
      let delta := F.sub max (fminf (fminf r g) b)
      if F.eq max r then
        F.mul (F.fin 60) (F.fmodf (F.div (F.sub g b) delta) (F.fin 6))
      else if F.eq max g then
        F.mul (F.fin 60) (F.add (F.div (F.sub b r) delta) (F.fin 2))
      else F.mul (F.fin 60) (F.add (F.div (F.sub r g) delta) (F.fin 4))
    convert := fun _ _ _ => none
    convert_lab := fun _ _ _ _ => none }

/-- Modelled from the spec: the function that `rgb_deep_to_linear_srgb_deep`,
whose body is absent, applies to one component: "comp/12.92 if comp <=
0.04045 else ((comp+0.055)/1.055)^2.4"; the header documents the same two
formulas.  The power 2.4 has no value among the rationals, so a component is
a real number here. -/
noncomputable def rgb_deep_to_linear_srgb_deep (comp : ℝ) : ℝ :=
  if comp ≤ 0.04045 then comp / 12.92 else ((comp + 0.055) / 1.055) ^ (2.4 : ℝ)

/-- Modelled from the spec: the function that `linear_srgb_deep_to_rgb_deep`,
whose body is absent, applies to one component.  The spec has the forward
formula "applied as its inverse direction when going the other way", "a pair
of mutually inverse gamma functions": the linear branch is undone by the
factor 12.92 and the power branch by `1.055 * comp^(1/2.4) - 0.055`.  (The
header writes the second branch as `sqrt((comp * 1.055)^2.4) - 0.055`, which
does not undo the forward formula; the words of the spec are followed.)  The
spec gives no threshold for this direction: the header writes 0.003108, the
usual sRGB value is 0.0031308, and the image of 0.04045 under the linear
branch is `0.04045 / 12.92`; the threshold is a parameter. -/
noncomputable def linear_srgb_deep_to_rgb_deep (threshold comp : ℝ) : ℝ :=
  if comp ≤ threshold then comp * 12.92 else 1.055 * comp ^ (1 / 2.4 : ℝ) - 0.055

end color_converter

/-! ## Lemmas on clamping -/

theorem clamp_within (x : F) (lo hi : ℚ) (h : lo ≤ hi) :
    (clamp x (F.fin hi) (F.fin lo)).within lo hi := by
  cases x with
  | nan => exact ⟨hi, by simp [clamp, fminf, fmaxf, F.isnan, F.lt, not_lt.mpr h], h, le_refl _⟩
  | ninf => exact ⟨lo, by simp [clamp, fminf, fmaxf, F.isnan, F.lt], le_refl _, h⟩
  | pinf => exact ⟨hi, by simp [clamp, fminf, fmaxf, F.isnan, F.lt, not_lt.mpr h], h, le_refl _⟩
  | fin q =>
    by_cases h1 : hi < q
    · exact ⟨hi, by simp [clamp, fminf, fmaxf, F.isnan, F.lt, h1, not_lt.mpr h], h, le_refl _⟩
    · by_cases h2 : q < lo
      · exact ⟨lo, by simp [clamp, fminf, fmaxf, F.isnan, F.lt, h1, h2], le_refl _, h⟩
      · exact ⟨q, by simp [clamp, fminf, fmaxf, F.isnan, F.lt, h1, h2],
          not_lt.mp h2, not_lt.mp h1⟩

theorem clamp_of_le (x : F) (lo hi : ℚ) (h1 : F.le (F.fin lo) x = true)
    (h2 : F.le x (F.fin hi) = true) : clamp x (F.fin hi) (F.fin lo) = x := by
  cases x with
  | nan => simp [F.le] at h1
  | ninf => simp [F.le] at h1
  | pinf => simp [F.le] at h2
  | fin q =>
    simp only [F.le, decide_eq_true_eq] at h1 h2
    simp [clamp, fminf, fmaxf, F.isnan, F.lt, not_lt.mpr h1, not_lt.mpr h2]

theorem clamp_of_lt (x : F) (lo hi : ℚ) (h : lo ≤ hi) (h1 : F.lt x (F.fin lo) = true) :
    clamp x (F.fin hi) (F.fin lo) = F.fin lo := by
  cases x with
  | nan => simp [F.lt] at h1
  | ninf => simp [clamp, fminf, fmaxf, F.isnan, F.lt]
  | pinf => simp [F.lt] at h1
  | fin q =>
    simp only [F.lt, decide_eq_true_eq] at h1
    simp [clamp, fminf, fmaxf, F.isnan, F.lt, h1, not_lt.mpr (le_of_lt (lt_of_lt_of_le h1 h))]

theorem clamp_of_gt (x : F) (lo hi : ℚ) (h : lo ≤ hi) (h1 : F.lt (F.fin hi) x = true) :
    clamp x (F.fin hi) (F.fin lo) = F.fin hi := by
  cases x with
  | nan => simp [F.lt] at h1
  | ninf => simp [F.lt] at h1
  | pinf => simp [clamp, fminf, fmaxf, F.isnan, F.lt, not_lt.mpr h]
  | fin q =>
    simp only [F.lt, decide_eq_true_eq] at h1
    simp [clamp, fminf, fmaxf, F.isnan, F.lt, h1, not_lt.mpr h]

/-! ## Lemmas on component access -/

theorem store_some (c : color_base) (i : Nat) (v : F) (h : i < c.m_component_vector.length) :
    store c i v = some { c with m_component_vector := c.m_component_vector.set i v } := by
  simp [store, h]

theorem load_store_same (c : color_base) (i : Nat) (v : F)
    (h : i < c.m_component_vector.length) :
    load { c with m_component_vector := c.m_component_vector.set i v } i = some v := by
  simp [load, h]

theorem set_component_load (c : color_base) (x : F) (i : Nat)
    (h : i < c.m_component_vector.length) :
    ∃ c1, set_component c x i = some c1 ∧ load c1 i = some (clamp x c.m_max c.m_min) :=
  ⟨_, store_some c i _ h, load_store_same c i _ h⟩

/-- The four-argument constructor stores the four clamped arguments. -/
theorem rgb_deepcolor_ctor_eq (r g b a : F) (w : Option reference_white) :
    rgb_deepcolor.ctor r g b a w = some
      { m_type := color_type.RGB_DEEP
        m_component_vector := [clamp r (F.fin 1) (F.fin 0), clamp g (F.fin 1) (F.fin 0),
          clamp b (F.fin 1) (F.fin 0), clamp a (F.fin 1) (F.fin 0)]
        m_max := F.fin 1
        m_min := F.fin 0
        m_reference_white := w } := by
  simp [rgb_deepcolor.ctor, color_base.ctor, push_back_loop, rgb_deepcolor.set_red,
    rgb_deepcolor.set_green, rgb_deepcolor.set_blue, rgb_deepcolor.set_alpha, set_component,
    store, default_component_max, default_component_min]

/-- The invariant kept by the setters: four components in `[0, 1]`, bounds `[0, 1]`. -/
theorem rgb_deepcolor_call_invariant (c : color_base) (s : rgb_deepcolor.setter_call)
    (hmax : c.m_max = F.fin 1) (hmin : c.m_min = F.fin 0)
    (hv : ∃ r g b a : F, c.m_component_vector = [r, g, b, a] ∧ r.within 0 1 ∧ g.within 0 1 ∧
      b.within 0 1 ∧ a.within 0 1) :
    ∃ c1, rgb_deepcolor.call c s = some c1 ∧ c1.m_max = F.fin 1 ∧ c1.m_min = F.fin 0 ∧
      ∃ r g b a : F, c1.m_component_vector = [r, g, b, a] ∧ r.within 0 1 ∧ g.within 0 1 ∧
        b.within 0 1 ∧ a.within 0 1 := by
  obtain ⟨r, g, b, a, hl, hr, hg, hb, ha⟩ := hv
  cases s with
  | red x =>
    refine ⟨_, store_some c 0 _ (by simp [hl]), hmax, hmin, clamp x c.m_max c.m_min, g, b, a,
      ?_, ?_, hg, hb, ha⟩
    · simp [hl]
    · rw [hmax, hmin]; exact clamp_within x 0 1 zero_le_one
  | green x =>
    refine ⟨_, store_some c 1 _ (by simp [hl]), hmax, hmin, r, clamp x c.m_max c.m_min, b, a,
      ?_, hr, ?_, hb, ha⟩
    · simp [hl]
    · rw [hmax, hmin]; exact clamp_within x 0 1 zero_le_one
  | blue x =>
    refine ⟨_, store_some c 2 _ (by simp [hl]), hmax, hmin, r, g, clamp x c.m_max c.m_min, a,
      ?_, hr, hg, ?_, ha⟩
    · simp [hl]
    · rw [hmax, hmin]; exact clamp_within x 0 1 zero_le_one
  | alpha x =>
    refine ⟨_, store_some c 3 _ (by simp [hl]), hmax, hmin, r, g, b, clamp x c.m_max c.m_min,
      ?_, hr, hg, hb, ?_⟩
    · simp [hl]
    · rw [hmax, hmin]; exact clamp_within x 0 1 zero_le_one

theorem rgb_deepcolor_calls_invariant (l : List rgb_deepcolor.setter_call) :
    ∀ c : color_base, c.m_max = F.fin 1 → c.m_min = F.fin 0 →
      (∃ r g b a : F, c.m_component_vector = [r, g, b, a] ∧ r.within 0 1 ∧ g.within 0 1 ∧
        b.within 0 1 ∧ a.within 0 1) →
      ∃ c1, rgb_deepcolor.calls c l = some c1 ∧ rgb_deepcolor.components_within c1 0 1 := by
  induction l with
  | nil =>
    intro c _ _ hv
    obtain ⟨r, g, b, a, hl, hr, hg, hb, ha⟩ := hv
    refine ⟨c, rfl, ⟨r, ?_, hr⟩, ⟨g, ?_, hg⟩, ⟨b, ?_, hb⟩, ⟨a, ?_, ha⟩⟩ <;>
      simp [rgb_deepcolor.red, rgb_deepcolor.green, rgb_deepcolor.blue, rgb_deepcolor.alpha,
        load, hl]
  | cons s rest ih =>
    intro c hmax hmin hv
    obtain ⟨c1, h1, hmax1, hmin1, hv1⟩ := rgb_deepcolor_call_invariant c s hmax hmin hv
    obtain ⟨c2, h2, hw⟩ := ih c1 hmax1 hmin1 hv1
    exact ⟨c2, by simp [rgb_deepcolor.calls, h1, h2], hw⟩

/-! ## Range invariant and clamping setters of `rgb_deepcolor` -/

/-- C1. Range invariant of `rgb_deepcolor`: for all four inputs `r`, `g`, `b`, `a`
(NaN and the infinities included) the constructor `rgb_deepcolor(r, g, b, a)` is
defined, and after any sequence of later calls of the red, green, blue and
alpha setters with any values (the empty sequence included) all four
components are within `[0, 1]`. -/
theorem rgb_deepcolor_range_invariant (r g b a : F) (w : Option reference_white) :
    ∃ c0, rgb_deepcolor.ctor r g b a w = some c0 ∧
      ∀ l : List rgb_deepcolor.setter_call,
        ∃ c, rgb_deepcolor.calls c0 l = some c ∧ rgb_deepcolor.components_within c 0 1 := by
  refine ⟨_, rgb_deepcolor_ctor_eq r g b a w, fun l => ?_⟩
  exact rgb_deepcolor_calls_invariant l _ rfl rfl
    ⟨_, _, _, _, rfl, clamp_within r 0 1 zero_le_one, clamp_within g 0 1 zero_le_one,
      clamp_within b 0 1 zero_le_one, clamp_within a 0 1 zero_le_one⟩

/-! ## Lemmas on the hue setter -/

theorem fminf_fin (a b : ℚ) : fminf (F.fin a) (F.fin b) = F.fin (min a b) := by
  by_cases h : b < a
  · simp [fminf, F.isnan, F.lt, h, min_eq_right (le_of_lt h)]
  · simp [fminf, F.isnan, F.lt, h, min_eq_left (not_lt.mp h)]

theorem fmaxf_fin (a b : ℚ) : fmaxf (F.fin a) (F.fin b) = F.fin (max a b) := by
  by_cases h : a < b
  · simp [fmaxf, F.isnan, F.lt, h, max_eq_right (le_of_lt h)]
  · simp [fmaxf, F.isnan, F.lt, h, max_eq_left (not_lt.mp h)]

theorem clamp_fin (t hi lo : ℚ) :
    clamp (F.fin t) (F.fin hi) (F.fin lo) = F.fin (max (min t hi) lo) := by
  rw [clamp, fminf_fin, fmaxf_fin]

/-- Truncation toward zero is the floor on non-negative rationals. -/
theorem F.trunc_of_nonneg (q : ℚ) (h : 0 ≤ q) : F.trunc q = ⌊q⌋ := by
  rw [F.trunc, Rat.floor_def, Int.tdiv_eq_ediv (Rat.num_nonneg.mpr h) (Int.ofNat_nonneg _)]

/-- Truncation toward zero is odd: `trunc (-q) = -trunc q`. -/
theorem F.trunc_neg (q : ℚ) : F.trunc (-q) = -F.trunc q := by
  rw [F.trunc, F.trunc, Rat.neg_num, Rat.neg_den, Int.neg_tdiv]

/-- A rational strictly between `-2^31 - 1` and `2^31` truncates to an `int`. -/
theorem F.trunc_bounds (q : ℚ) (hlo : -2147483649 < q) (hhi : q < 2147483648) :
    -2147483648 ≤ F.trunc q ∧ F.trunc q ≤ 2147483647 := by
  rcases le_or_lt 0 q with h | h
  · rw [F.trunc_of_nonneg q h]
    have h1 : (0 : Int) ≤ ⌊q⌋ := Int.floor_nonneg.mpr h
    have h2 : ⌊q⌋ < 2147483648 := Int.floor_lt.mpr (by exact_mod_cast hhi)
    omega
  · have h0 : (0 : ℚ) ≤ -q := by linarith
    have h3 : F.trunc q = -⌊-q⌋ := by
      rw [← F.trunc_of_nonneg (-q) h0, F.trunc_neg, neg_neg]
    rw [h3]
    have h1 : (0 : Int) ≤ ⌊-q⌋ := Int.floor_nonneg.mpr h0
    have h2 : ⌊-q⌋ < 2147483649 := Int.floor_lt.mpr (by push_cast; linarith)
    omega

theorem F.toInt_fin (q : ℚ) (hlo : -2147483649 < q) (hhi : q < 2147483648) :
    F.toInt (F.fin q) = some (F.trunc q) := by
  simp only [F.toInt]
  rw [if_pos (F.trunc_bounds q hlo hhi)]

/-- The value stored by the hue setter: the truncating remainder, floored at 0. -/
theorem hue_stored (i : Int) :
    clamp (F.ofInt (Int.tmod i 360)) m_degrees_max m_degrees_min =
      F.fin (max ((Int.tmod i 360 : Int) : ℚ) 0) := by
  have h : Int.tmod i 360 < 360 := Int.tmod_lt_of_pos i (by decide)
  have hq : ((Int.tmod i 360 : Int) : ℚ) ≤ 360 := by exact_mod_cast le_of_lt h
  rw [F.ofInt, m_degrees_max, m_degrees_min, clamp_fin, min_eq_left hq]

theorem hue_stored_range (i : Int) :
    0 ≤ max ((Int.tmod i 360 : Int) : ℚ) 0 ∧ max ((Int.tmod i 360 : Int) : ℚ) 0 ≤ 359 := by
  have h : Int.tmod i 360 < 360 := Int.tmod_lt_of_pos i (by decide)
  have h1 : Int.tmod i 360 ≤ 359 := by omega
  have hq : ((Int.tmod i 360 : Int) : ℚ) ≤ 359 := by exact_mod_cast h1
  exact ⟨le_max_right _ _, max_le hq (by norm_num)⟩

/-- The three-argument constructor of `hsv` stores the normalised hue and the
clamped saturation and value. -/
theorem hsv_ctor_eq (q : ℚ) (s v : F) (hlo : -2147483649 < q) (hhi : q < 2147483648) :
    hsv.ctor (F.fin q) s v = some
      { m_type := color_type.HSV
        m_component_vector := [F.fin (max ((Int.tmod (F.trunc q) 360 : Int) : ℚ) 0),
          clamp s (F.fin 1) (F.fin 0), clamp v (F.fin 1) (F.fin 0)]
        m_max := F.fin 1
        m_min := F.fin 0
        m_reference_white := none } := by
  simp [hsv.ctor, color_base.ctor, push_back_loop, hsv.set_hue, hsv.set_saturation,
    hsv.set_value, set_component, set_component_range, store, default_component_max,
    default_component_min, F.toInt_fin q hlo hhi, hue_stored]

/-- C3. Range of `hsv`: for every hue input whose truncation fits a 32-bit
`int` (any sign; the finite values strictly between `-2^31 - 1` and `2^31`) and
every saturation and value input (NaN and the infinities included), the
constructor `hsv(h, s, v)` is defined and the colour satisfies
`0 <= hue() < 360`, with the upper bound strict, `0 <= saturation() <= 1` and
`0 <= value() <= 1`; the degrees bounds are 0 and 360. -/
theorem hsv_range (q : ℚ) (s v : F) (hlo : -2147483649 < q) (hhi : q < 2147483648) :
    ∃ c, hsv.ctor (F.fin q) s v = some c ∧
      (∃ x : ℚ, hsv.hue c = some (F.fin x) ∧ 0 ≤ x ∧ x < 360) ∧
      (∃ y, hsv.saturation c = some y ∧ y.within 0 1) ∧
      (∃ z, hsv.value c = some z ∧ z.within 0 1) := by
  refine ⟨_, hsv_ctor_eq q s v hlo hhi, ⟨_, rfl, (hue_stored_range _).1, ?_⟩,
    ⟨_, rfl, clamp_within s 0 1 zero_le_one⟩, ⟨_, rfl, clamp_within v 0 1 zero_le_one⟩⟩
  exact lt_of_le_of_lt (hue_stored_range _).2 (by norm_num)

/-- Witness of C3: `hsv(-30, 2, NaN)`. -/
theorem hsv_range_witness :
    (-2147483649 : ℚ) < -30 ∧ (-30 : ℚ) < 2147483648 ∧
      ∃ c, hsv.ctor (F.fin (-30)) (F.fin 2) F.nan = some c ∧
        (∃ x : ℚ, hsv.hue c = some (F.fin x) ∧ 0 ≤ x ∧ x < 360) ∧
        (∃ y, hsv.saturation c = some y ∧ y.within 0 1) ∧
        (∃ z, hsv.value c = some z ∧ z.within 0 1) :=
  ⟨by norm_num, by norm_num, hsv_range (-30) (F.fin 2) F.nan (by norm_num) (by norm_num)⟩

/-- Counterexample to C4 as stated: on the sample colour `hsv(120, 0.5, 0.25)`
the call `hue(359.5)` is followed by `hue() == 359`, although `359.5` lies in
`[0, 360)` and clamping leaves it unchanged; and `hue(400)` is followed by
`hue() == 40`, although clamping `400` gives `360`. -/
theorem hue_setter_clamps_counterexample :
    hsv.declared sample_hsv ∧
      F.le (F.fin 0) (F.fin (719 / 2)) = true ∧ F.lt (F.fin (719 / 2)) (F.fin 360) = true ∧
      clamp (F.fin (719 / 2)) m_degrees_max m_degrees_min = F.fin (719 / 2) ∧
      (hsv.set_hue sample_hsv (F.fin (719 / 2))).bind hsv.hue = some (F.fin 359) ∧
      F.fin 359 ≠ F.fin (719 / 2) ∧
      clamp (F.fin 400) m_degrees_max m_degrees_min = F.fin 360 ∧
      (hsv.set_hue sample_hsv (F.fin 400)).bind hsv.hue = some (F.fin 40) ∧
      F.fin 40 ≠ F.fin 360 := by
  have t1 : F.trunc (719 / 2) = 359 := by
    have hn : ((719 : ℚ) / 2).num = 719 := by norm_num
    have hd : ((719 : ℚ) / 2).den = 2 := by norm_num
    rw [F.trunc, hn, hd]; decide
  have t2 : F.trunc 400 = 400 := by
    have hn : (400 : ℚ).num = 400 := by norm_num
    have hd : (400 : ℚ).den = 1 := by norm_num
    rw [F.trunc, hn, hd]; decide
  have e1 : Int.tmod 359 360 = 359 := by decide
  have e2 : Int.tmod 400 360 = 40 := by decide
  refine ⟨⟨rfl, rfl, rfl, rfl⟩, ?_, ?_, ?_, ?_, ?_, ?_, ?_, ?_⟩
  · simp [F.le]; norm_num
  · simp [F.lt]; norm_num
  · rw [m_degrees_max, m_degrees_min, clamp_fin]; norm_num
  · rw [hsv.set_hue, F.toInt_fin _ (by norm_num) (by norm_num), t1]
    simp [set_component_range, store, sample_hsv, hsv.hue, load, e1, hue_stored]
  · intro h; injection h with h; norm_num at h
  · rw [m_degrees_max, m_degrees_min, clamp_fin]; norm_num
  · rw [hsv.set_hue, F.toInt_fin _ (by norm_num) (by norm_num), t2]
    simp [set_component_range, store, sample_hsv, hsv.hue, load, e2, hue_stored]
  · intro h; injection h with h; norm_num at h

/-- C4, amended. The `hsv` hue setter truncates its argument to an `int` and
takes the remainder by 360 before it clamps: for every `hsv` colour and every
`h` whose truncation fits a 32-bit `int`, the call `hue(h)` is defined and
afterwards `hue()` returns `(int)h % 360` clamped to the hue range; so every
whole number `h` with `0 <= h < 360` is read back unchanged. -/
theorem hue_setter_truncates_then_clamps (c : color_base) (hc : hsv.declared c) :
    (∀ q : ℚ, -2147483649 < q → q < 2147483648 →
      ∃ c1, hsv.set_hue c (F.fin q) = some c1 ∧
        hsv.hue c1 =
          some (clamp (F.ofInt (Int.tmod (F.trunc q) 360)) m_degrees_max m_degrees_min)) ∧
      (∀ n : Int, 0 ≤ n → n < 360 →
        ∃ c1, hsv.set_hue c (F.ofInt n) = some c1 ∧ hsv.hue c1 = some (F.ofInt n)) := by
  obtain ⟨_, hl, _, _⟩ := hc
  have h0 : 0 < c.m_component_vector.length := by omega
  refine ⟨fun q hlo hhi => ⟨_, ?_, load_store_same c 0 _ h0⟩, fun n h1 h2 => ?_⟩
  · rw [hsv.set_hue, F.toInt_fin q hlo hhi]
    exact store_some c 0 _ h0
  · have hq0 : (0 : ℚ) ≤ (n : ℚ) := by exact_mod_cast h1
    have hq1 : (n : ℚ) < 360 := by exact_mod_cast h2
    have ht : F.trunc (n : ℚ) = n := by
      rw [F.trunc, Rat.num_intCast, Rat.den_intCast]
      exact Int.tdiv_one n
    have hm : Int.tmod n 360 = n := by
      rw [Int.tmod_eq_emod h1 (by decide)]
      exact Int.emod_eq_of_lt h1 h2
    refine ⟨_, ?_, load_store_same c 0 _ h0⟩
    rw [hsv.set_hue, F.ofInt, F.toInt_fin (n : ℚ) (by linarith) (by linarith), ht]
    simp only [Option.bind_eq_bind, Option.some_bind, set_component_range]
    rw [hue_stored, hm, max_eq_left hq0]
    exact store_some c 0 _ h0

/-- Witness of C4 amended: the sample colour `hsv(120, 0.5, 0.25)`, with
`hue(359.5)` and `hue(200)`. -/
theorem hue_setter_truncates_then_clamps_witness :
    hsv.declared sample_hsv ∧
      ((-2147483649 : ℚ) < 719 / 2 ∧ (719 / 2 : ℚ) < 2147483648 ∧
        ∃ c1, hsv.set_hue sample_hsv (F.fin (719 / 2)) = some c1 ∧
          hsv.hue c1 = some (clamp (F.ofInt (Int.tmod (F.trunc (719 / 2)) 360))
            m_degrees_max m_degrees_min)) ∧
      ((0 : Int) ≤ 200 ∧ (200 : Int) < 360 ∧
        ∃ c1, hsv.set_hue sample_hsv (F.ofInt 200) = some c1 ∧
          hsv.hue c1 = some (F.ofInt 200)) :=
  ⟨⟨rfl, rfl, rfl, rfl⟩,
    ⟨by norm_num, by norm_num,
      (hue_setter_truncates_then_clamps sample_hsv ⟨rfl, rfl, rfl, rfl⟩).1 (719 / 2)
        (by norm_num) (by norm_num)⟩,
    ⟨by decide, by decide,
      (hue_setter_truncates_then_clamps sample_hsv ⟨rfl, rfl, rfl, rfl⟩).2 200 (by decide)
        (by decide)⟩⟩

/-! ## Lemmas on equality -/

theorem F_eq_fin (a b : ℚ) : F.eq (F.fin a) (F.fin b) = true ↔ a = b := by
  simp [F.eq]

theorem components_equal_iff (l : List F) :
    ∀ r : List F, l.length = r.length →
      (components_equal l r = true ↔
        ∀ (i : Nat) (h1 : i < l.length) (h2 : i < r.length), F.eq l[i] r[i] = true) := by
  induction l with
  | nil =>
    intro r _
    simp [components_equal]
  | cons a l ih =>
    intro r hlen
    cases r with
    | nil => simp at hlen
    | cons b r =>
      have hlen1 : l.length = r.length := by simpa using hlen
      simp only [components_equal, F.ne]
      constructor
      · intro h i h1 h2
        cases hab : F.eq a b with
        | false => simp [hab] at h
        | true =>
          simp only [hab, Bool.not_true, Bool.false_eq_true, if_false] at h
          cases i with
          | zero => simpa using hab
          | succ j =>
            simp only [List.getElem_cons_succ]
            exact (ih r hlen1).mp h j (by simpa using h1) (by simpa using h2)
      · intro h
        have hab : F.eq a b = true := by
          simpa using h 0 (by simp) (by simp)
        simp only [hab, Bool.not_true, Bool.false_eq_true, if_false]
        refine (ih r hlen1).mpr (fun j h1 h2 => ?_)
        simpa using h (j + 1) (by simpa using h1) (by simpa using h2)

/-- C5. Equality is exact and structural: `x == y` is true if and only if the
two colours have the same colour-type tag, the same number of components,
and the components at every index compare equal with the exact C++ float
comparison `==` (on finite values: the very same number, no tolerance);
`x != y` is true exactly when `x == y` is false. -/
theorem equality_exact_structural (x y : color_base) :
    (opEq x y = true ↔
        x.get_color_type = y.get_color_type ∧
          x.m_component_vector.length = y.m_component_vector.length ∧
          ∀ (i : Nat) (h1 : i < x.m_component_vector.length)
            (h2 : i < y.m_component_vector.length),
            F.eq x.m_component_vector[i] y.m_component_vector[i] = true) ∧
      (opNe x y = true ↔ opEq x y = false) ∧
      (∀ a b : ℚ, F.eq (F.fin a) (F.fin b) = true ↔ a = b) := by
  refine ⟨?_, by simp [opNe], F_eq_fin⟩
  by_cases ht : x.get_color_type = y.get_color_type
  · by_cases hl : x.m_component_vector.length = y.m_component_vector.length
    · have hd : decide (x.m_component_vector.length = y.m_component_vector.length) = true :=
        decide_eq_true hl
      simp only [opEq, ht, hd, decide_True, Bool.and_self, Bool.not_true, Bool.false_eq_true,
        if_false, true_and]
      exact ⟨fun h => ⟨hl, (components_equal_iff _ _ hl).mp h⟩,
        fun h => (components_equal_iff _ _ hl).mpr h.2⟩
    · simp [opEq, ht, hl]
  · simp [opEq, ht]

/-- C6. Equality across variants is always false: two colours whose colour-type
tags differ compare unequal under `operator==`, whatever their components. -/
theorem equality_across_variants_false (x y : color_base)
    (h : x.get_color_type ≠ y.get_color_type) : opEq x y = false := by
  simp [opEq, h]

/-- C7. Type mismatch is rejected: the constructor of `rgb_deepcolor` from a base
value throws `invalid_argument` if and only if the tag of `other` is not
`RGB_DEEP` or `other` does not have exactly 4 components; the constructor of
`hsv` from a base value throws if and only if the tag is not `HSV` or `other`
does not have exactly 3 components. -/
theorem type_mismatch_rejected (other : color_base) :
    ((∃ what, rgb_deepcolor.ctor_base other =
          Except.error (cpp_exception.invalid_argument what)) ↔
        (other.get_color_type ≠ color_type.RGB_DEEP ∨ other.m_component_vector.length ≠ 4)) ∧
      ((∃ what, hsv.ctor_base other = Except.error (cpp_exception.invalid_argument what)) ↔
        (other.get_color_type ≠ color_type.HSV ∨ other.m_component_vector.length ≠ 3)) := by
  constructor
  · by_cases h : other.get_color_type = color_type.RGB_DEEP ∧
        other.m_component_vector.length = 4
    · simp [rgb_deepcolor.ctor_base, h]
    · simp only [rgb_deepcolor.ctor_base, h, if_false]
      constructor
      · intro _
        by_cases ht : other.get_color_type = color_type.RGB_DEEP
        · exact Or.inr (fun hl => h ⟨ht, hl⟩)
        · exact Or.inl ht
      · intro _
        exact ⟨_, rfl⟩
  · by_cases h : other.get_color_type = color_type.HSV ∧ other.m_component_vector.length = 3
    · simp [hsv.ctor_base, h]
    · simp only [hsv.ctor_base, h, if_false]
      constructor
      · intro _
        by_cases ht : other.get_color_type = color_type.HSV
        · exact Or.inr (fun hl => h ⟨ht, hl⟩)
        · exact Or.inl ht
      · intro _
        exact ⟨_, rfl⟩

/-! ## Lemmas on the constructors -/

theorem F_eq_self (a : F) (h : a ≠ F.nan) : F.eq a a = true := by
  cases a with
  | nan => exact absurd rfl h
  | ninf => rfl
  | fin q => simp [F.eq]
  | pinf => rfl

theorem within_ne_nan (x : F) (lo hi : ℚ) (h : x.within lo hi) : x ≠ F.nan := by
  obtain ⟨q, hq, _, _⟩ := h
  rw [hq]
  exact fun h => by cases h

/-- A colour without NaN components compares equal to itself. -/
theorem opEq_self (c : color_base) (h : ∀ x ∈ c.m_component_vector, x ≠ F.nan) :
    opEq c c = true := by
  simp only [opEq, decide_True, Bool.and_self, Bool.not_true, Bool.false_eq_true, if_false]
  exact (components_equal_iff _ _ rfl).mpr
    (fun i h1 _ => F_eq_self _ (h _ (List.getElem_mem h1)))

/-- What `operator==` tests, index by index. -/
theorem opEq_true_iff (x y : color_base) :
    opEq x y = true ↔
      x.get_color_type = y.get_color_type ∧
        x.m_component_vector.length = y.m_component_vector.length ∧
        ∀ (i : Nat) (h1 : i < x.m_component_vector.length)
          (h2 : i < y.m_component_vector.length),
          F.eq x.m_component_vector[i] y.m_component_vector[i] = true := by
  by_cases ht : x.get_color_type = y.get_color_type
  · by_cases hl : x.m_component_vector.length = y.m_component_vector.length
    · have hd : decide (x.m_component_vector.length = y.m_component_vector.length) = true :=
        decide_eq_true hl
      simp only [opEq, ht, hd, decide_True, Bool.and_self, Bool.not_true, Bool.false_eq_true,
        if_false, true_and]
      exact ⟨fun h => ⟨hl, (components_equal_iff _ _ hl).mp h⟩,
        fun h => (components_equal_iff _ _ hl).mpr h.2⟩
    · simp [opEq, ht, hl]
  · simp [opEq, ht]

theorem F_eq_self_iff (a : F) : F.eq a a = true ↔ a ≠ F.nan := by
  constructor
  · intro h e
    rw [e] at h
    exact absurd h (by decide)
  · exact F_eq_self a

/-- Two colours with one tag and one component vector compare equal exactly when
the vector holds no NaN. -/
theorem opEq_same_vector_iff (x y : color_base) (ht : x.get_color_type = y.get_color_type)
    (hv : x.m_component_vector = y.m_component_vector) :
    opEq x y = true ↔ ∀ c ∈ y.m_component_vector, c ≠ F.nan := by
  rw [opEq_true_iff]
  constructor
  · rintro ⟨_, _, h⟩ c hc
    obtain ⟨i, hi, e⟩ := List.getElem_of_mem hc
    have hx : i < x.m_component_vector.length := by
      rw [hv]
      exact hi
    have h1 := h i hx hi
    have e1 : x.m_component_vector[i] = y.m_component_vector[i] := by
      simp only [hv]
    rw [e1, e] at h1
    exact (F_eq_self_iff c).mp h1
  · intro h
    refine ⟨ht, by rw [hv], fun i h1 h2 => ?_⟩
    have e1 : x.m_component_vector[i] = y.m_component_vector[i] := by
      simp only [hv]
    rw [e1]
    exact F_eq_self _ (h _ (List.getElem_mem h2))

/-- Nothing compares equal to a colour that holds a NaN component. -/
theorem opEq_nan_false (w v : color_base) (h : F.nan ∈ v.m_component_vector) :
    opEq w v = false := by
  cases hb : opEq w v with
  | false => rfl
  | true =>
    obtain ⟨_, hl, he⟩ := (opEq_true_iff w v).mp hb
    obtain ⟨i, hi, e⟩ := List.getElem_of_mem h
    have h1 := he i (by rw [hl]; exact hi) hi
    rw [e] at h1
    cases hw : w.m_component_vector[i] <;> rw [hw] at h1 <;> simp [F.eq] at h1

/-- The value-and-alpha constructor stores the clamped value three times and
the clamped alpha. -/
theorem rgb_deepcolor_ctor_value_eq (value a : F) (w : Option reference_white) :
    rgb_deepcolor.ctor_value value a w = some
      { m_type := color_type.RGB_DEEP
        m_component_vector := [clamp value (F.fin 1) (F.fin 0), clamp value (F.fin 1) (F.fin 0),
          clamp value (F.fin 1) (F.fin 0), clamp a (F.fin 1) (F.fin 0)]
        m_max := F.fin 1
        m_min := F.fin 0
        m_reference_white := w } := by
  simp [rgb_deepcolor.ctor_value, color_base.ctor, push_back_loop, rgb_deepcolor.set_red,
    rgb_deepcolor.set_green, rgb_deepcolor.set_blue, rgb_deepcolor.set_alpha, set_component,
    store, default_component_max, default_component_min]

/-- A colour built by the four-argument constructor compares equal to itself. -/
theorem rgb_deepcolor_ctor_opEq_self (r g b a : F) (w : Option reference_white) :
    opEq
      { m_type := color_type.RGB_DEEP
        m_component_vector := [clamp r (F.fin 1) (F.fin 0), clamp g (F.fin 1) (F.fin 0),
          clamp b (F.fin 1) (F.fin 0), clamp a (F.fin 1) (F.fin 0)]
        m_max := F.fin 1
        m_min := F.fin 0
        m_reference_white := w }
      { m_type := color_type.RGB_DEEP
        m_component_vector := [clamp r (F.fin 1) (F.fin 0), clamp g (F.fin 1) (F.fin 0),
          clamp b (F.fin 1) (F.fin 0), clamp a (F.fin 1) (F.fin 0)]
        m_max := F.fin 1
        m_min := F.fin 0
        m_reference_white := w } = true := by
  apply opEq_self
  intro x hx
  simp only [List.mem_cons, List.mem_singleton, List.not_mem_nil, or_false] at hx
  rcases hx with h | h | h | h <;> rw [h] <;>
    exact within_ne_nan _ 0 1 (clamp_within _ 0 1 zero_le_one)

/-- C8. Default and single-intensity construction: `rgb_deepcolor(x, a)` builds
the same colour as `rgb_deepcolor(x, x, x, a)`, equal to it under
`operator==`, with red, green and blue equal to `x` clamped to `[0, 1]` and
alpha equal to `a` clamped to `[0, 1]`; with the defaults of the header,
`rgb_deepcolor()` builds the same colour as `rgb_deepcolor(0, 0, 0, 1)`, and
`rgb_deepcolor(r, g, b)` has alpha 1. -/
theorem single_intensity_and_default_construction (x a r g b : F)
    (w : Option reference_white) :
    (∃ c, rgb_deepcolor.ctor_value x a w = some c ∧ rgb_deepcolor.ctor x x x a w = some c ∧
        opEq c c = true ∧
        rgb_deepcolor.red c = some (clamp x (F.fin 1) (F.fin 0)) ∧
        rgb_deepcolor.green c = some (clamp x (F.fin 1) (F.fin 0)) ∧
        rgb_deepcolor.blue c = some (clamp x (F.fin 1) (F.fin 0)) ∧
        rgb_deepcolor.alpha c = some (clamp a (F.fin 1) (F.fin 0))) ∧
      (∃ c, rgb_deepcolor.ctor_default w = some c ∧
        rgb_deepcolor.ctor (F.fin 0) (F.fin 0) (F.fin 0) (F.fin 1) w = some c ∧
        opEq c c = true) ∧
      (∃ c, rgb_deepcolor.ctor_rgb r g b w = some c ∧
        rgb_deepcolor.alpha c = some (F.fin 1)) := by
  refine ⟨⟨_, rgb_deepcolor_ctor_value_eq x a w, rgb_deepcolor_ctor_eq x x x a w,
      rgb_deepcolor_ctor_opEq_self x x x a w, rfl, rfl, rfl, rfl⟩,
    ⟨_, rgb_deepcolor_ctor_value_eq _ _ w, rgb_deepcolor_ctor_eq _ _ _ _ w,
      rgb_deepcolor_ctor_opEq_self _ _ _ _ w⟩,
    ⟨_, rgb_deepcolor_ctor_eq r g b (F.fin 1) w, ?_⟩⟩
  show some (clamp (F.fin 1) (F.fin 1) (F.fin 0)) = some (F.fin 1)
  rw [clamp_fin]
  norm_num

/-! ## Lemmas on the length of the component vector -/

theorem store_length (c c1 : color_base) (i : Nat) (v : F) (h : store c i v = some c1) :
    c1.m_component_vector.length = c.m_component_vector.length := by
  unfold store at h
  split at h
  · injection h with h
    rw [← h]
    simp
  · cases h

theorem set_hue_length (c c1 : color_base) (x : F) (h : hsv.set_hue c x = some c1) :
    c1.m_component_vector.length = c.m_component_vector.length := by
  unfold hsv.set_hue at h
  cases hi : F.toInt x with
  | none => simp [hi] at h
  | some i =>
    simp only [hi, Option.bind_eq_bind, Option.some_bind] at h
    exact store_length c c1 0 _ h

theorem hsv_ctor_length (h s v : F) (c : color_base) (hc : hsv.ctor h s v = some c) :
    c.m_component_vector.length = 3 := by
  simp only [hsv.ctor, Option.bind_eq_bind, Option.pure_def, Option.bind_eq_some,
    Option.some.injEq] at hc
  obtain ⟨c1, h1, c2, h2, c3, h3, h4⟩ := hc
  rw [← h4, store_length _ _ _ _ h3, store_length _ _ _ _ h2, set_hue_length _ _ _ h1]
  rfl

theorem rgb_deepcolor_ctor_base_length (other c : color_base)
    (h : rgb_deepcolor.ctor_base other = Except.ok c) : c.m_component_vector.length = 4 := by
  unfold rgb_deepcolor.ctor_base at h
  by_cases hg : other.get_color_type = color_type.RGB_DEEP ∧
      other.m_component_vector.length = 4
  · simp only [hg, and_self, if_true, Except.ok.injEq] at h
    rw [← h]
    exact hg.2
  · simp [hg] at h

theorem hsv_ctor_base_length (other c : color_base)
    (h : hsv.ctor_base other = Except.ok c) : c.m_component_vector.length = 3 := by
  unfold hsv.ctor_base at h
  by_cases hg : other.get_color_type = color_type.HSV ∧ other.m_component_vector.length = 3
  · simp only [hg, and_self, if_true, Except.ok.injEq] at h
    rw [← h]
    exact hg.2
  · simp [hg] at h

theorem rgb_deepcolor_obtained_length (c : color_base) (h : rgb_deepcolor.obtained c) :
    c.m_component_vector.length = 4 := by
  induction h with
  | by_ctor_value value alpha w c hc =>
    rw [rgb_deepcolor_ctor_value_eq] at hc
    injection hc with hc
    rw [← hc]
    rfl
  | by_ctor r g b a w c hc =>
    rw [rgb_deepcolor_ctor_eq] at hc
    injection hc with hc
    rw [← hc]
    rfl
  | by_ctor_copy other _ ih => exact ih
  | by_ctor_base other c hc => exact rgb_deepcolor_ctor_base_length other c hc
  | by_set_red c c1 x _ hs ih => rw [store_length c c1 0 _ hs]; exact ih
  | by_set_green c c1 x _ hs ih => rw [store_length c c1 1 _ hs]; exact ih
  | by_set_blue c c1 x _ hs ih => rw [store_length c c1 2 _ hs]; exact ih
  | by_set_alpha c c1 x _ hs ih => rw [store_length c c1 3 _ hs]; exact ih
  | by_assign this other _ _ _ ih => exact ih

theorem hsv_obtained_length (c : color_base) (h : hsv.obtained c) :
    c.m_component_vector.length = 3 := by
  induction h with
  | by_ctor h s v c hc => exact hsv_ctor_length h s v c hc
  | by_ctor_copy other _ ih => exact ih
  | by_ctor_base other c hc => exact hsv_ctor_base_length other c hc
  | by_set_hue c c1 x _ hs ih => rw [set_hue_length c c1 x hs]; exact ih
  | by_set_saturation c c1 x _ hs ih => rw [store_length c c1 1 _ hs]; exact ih
  | by_set_value c c1 x _ hs ih => rw [store_length c c1 2 _ hs]; exact ih
  | by_assign this other _ _ _ ih => exact ih

theorem load_isSome (c : color_base) (i : Nat) (h : i < c.m_component_vector.length) :
    (load c i).isSome = true := by
  simp [load, h]

theorem store_isSome (c : color_base) (i : Nat) (v : F) (h : i < c.m_component_vector.length) :
    (store c i v).isSome = true := by
  simp [store, h]

theorem set_hue_isSome (c : color_base) (x : F) (h : 0 < c.m_component_vector.length) :
    (hsv.set_hue c x).isSome = true ↔ (F.toInt x).isSome = true := by
  unfold hsv.set_hue
  cases hi : F.toInt x with
  | none => simp
  | some i =>
    simp only [Option.bind_eq_bind, Option.some_bind, Option.isSome_some, iff_true]
    exact store_isSome c 0 _ h

/-- C9. Fixed length and in-bounds access: every `rgb_deepcolor` obtained from a
constructor that returns normally, followed by any sequence of setter calls
and assignments from other `rgb_deepcolor` values, has exactly 4 components,
and every `hsv` so obtained has exactly 3; hence every named getter and
setter indexes inside the component vector. -/
theorem fixed_length_in_bounds :
    (∀ c, rgb_deepcolor.obtained c →
        c.m_component_vector.length = 4 ∧ rgb_deepcolor.accessors_in_bounds c) ∧
      (∀ c, hsv.obtained c → c.m_component_vector.length = 3 ∧ hsv.accessors_in_bounds c) := by
  constructor
  · intro c hc
    have hl := rgb_deepcolor_obtained_length c hc
    exact ⟨hl, load_isSome c 0 (by omega), load_isSome c 1 (by omega),
      load_isSome c 2 (by omega), load_isSome c 3 (by omega),
      fun x => ⟨store_isSome c 0 _ (by omega), store_isSome c 1 _ (by omega),
        store_isSome c 2 _ (by omega), store_isSome c 3 _ (by omega)⟩⟩
  · intro c hc
    have hl := hsv_obtained_length c hc
    exact ⟨hl, load_isSome c 0 (by omega), load_isSome c 1 (by omega),
      load_isSome c 2 (by omega),
      fun x => ⟨store_isSome c 1 _ (by omega), store_isSome c 2 _ (by omega),
        set_hue_isSome c x (by omega)⟩⟩

/-- The sample colour is what `rgb_deepcolor(0.25, 0.5, 0.75, 1)` builds. -/
theorem sample_rgb_deepcolor_built :
    rgb_deepcolor.ctor (F.fin (1 / 4)) (F.fin (1 / 2)) (F.fin (3 / 4)) (F.fin 1) none =
      some sample_rgb_deepcolor := by
  rw [rgb_deepcolor_ctor_eq, clamp_fin, clamp_fin, clamp_fin, clamp_fin, sample_rgb_deepcolor]
  norm_num

/-- The sample colour is what `hsv(120, 0.5, 0.25)` builds. -/
theorem sample_hsv_built :
    hsv.ctor (F.fin 120) (F.fin (1 / 2)) (F.fin (1 / 4)) = some sample_hsv := by
  have t : F.trunc 120 = 120 := by
    have hn : (120 : ℚ).num = 120 := by norm_num
    have hd : (120 : ℚ).den = 1 := by norm_num
    rw [F.trunc, hn, hd]; decide
  have e : Int.tmod 120 360 = 120 := by decide
  rw [hsv_ctor_eq 120 _ _ (by norm_num) (by norm_num), t, e, clamp_fin, clamp_fin, sample_hsv]
  norm_num

/-- Witness of C9: the sample `rgb_deepcolor`, copied, written and assigned, and
the sample `hsv` assigned to itself. -/
theorem fixed_length_in_bounds_witness :
    rgb_deepcolor.obtained
        (rgb_deepcolor.assign sample_rgb_deepcolor (rgb_deepcolor.ctor_copy sample_rgb_deepcolor)) ∧
      (rgb_deepcolor.assign sample_rgb_deepcolor
        (rgb_deepcolor.ctor_copy sample_rgb_deepcolor)).m_component_vector.length = 4 ∧
      hsv.obtained (hsv.assign sample_hsv sample_hsv) ∧
      (hsv.assign sample_hsv sample_hsv).m_component_vector.length = 3 ∧
      hsv.accessors_in_bounds (hsv.assign sample_hsv sample_hsv) :=
  have h1 : rgb_deepcolor.obtained sample_rgb_deepcolor :=
    rgb_deepcolor.obtained.by_ctor _ _ _ _ _ _ sample_rgb_deepcolor_built
  have h2 : rgb_deepcolor.obtained
      (rgb_deepcolor.assign sample_rgb_deepcolor (rgb_deepcolor.ctor_copy sample_rgb_deepcolor)) :=
    rgb_deepcolor.obtained.by_assign _ _ h1 (rgb_deepcolor.obtained.by_ctor_copy _ h1)
  have h3 : hsv.obtained sample_hsv := hsv.obtained.by_ctor _ _ _ _ sample_hsv_built
  have h4 : hsv.obtained (hsv.assign sample_hsv sample_hsv) :=
    hsv.obtained.by_assign _ _ h3 h3
  ⟨h2, (fixed_length_in_bounds.1 _ h2).1, h4, (fixed_length_in_bounds.2 _ h4).1,
    (fixed_length_in_bounds.2 _ h4).2⟩

/-- Assigning an object to itself stores the values it already holds, so the
guard `this != &other` of `operator=` needs no case of its own. -/
theorem assign_self (c : color_base) :
    rgb_deepcolor.assign c c = c ∧ hsv.assign c c = c := by
  cases c
  exact ⟨rfl, rfl⟩

/-! ## Lemmas on the conversion of `rgb_truecolor` -/

/-- The sample colour is what `rgb_deepcolor(1, 0, 0, 1)` builds. -/
theorem sample_rgb_deep_red_built :
    rgb_deepcolor.ctor (F.fin 1) (F.fin 0) (F.fin 0) (F.fin 1) none =
      some sample_rgb_deep_red := by
  rw [rgb_deepcolor_ctor_eq, clamp_fin, clamp_fin, sample_rgb_deep_red]
  norm_num

/-- The sample colour is what `rgb_truecolor(255, 0, 0, 255)` builds. -/
theorem sample_rgb_true_red_built :
    rgb_truecolor.ctor (F.fin 255) (F.fin 0) (F.fin 0) (F.fin 255) =
      some sample_rgb_true_red := by
  simp [rgb_truecolor.ctor, color_base.ctor, push_back_loop, rgb_truecolor.set_red,
    rgb_truecolor.set_green, rgb_truecolor.set_blue, rgb_truecolor.set_alpha, set_component,
    store, clamp_fin, sample_rgb_true_red]

theorem div_255 (q : ℚ) : F.div (F.fin q) (F.fin 255) = F.fin (q / 255) := by
  simp [F.div]

theorem clamp_div_255 (q : ℚ) (h0 : 0 ≤ q) (h1 : q ≤ 255) :
    clamp (F.fin (q / 255)) (F.fin 1) (F.fin 0) = F.fin (q / 255) := by
  have a0 : 0 ≤ q / 255 := div_nonneg h0 (by norm_num)
  have a1 : q / 255 ≤ 1 := by
    rw [div_le_one (by norm_num)]
    exact h1
  rw [clamp_fin, min_eq_left a1, max_eq_left a0]

/-- Witness of C6: `rgb_deepcolor(1, 0, 0, 1)` against `rgb_truecolor(255, 0, 0, 255)`. -/
theorem equality_across_variants_false_witness :
    rgb_deepcolor.ctor (F.fin 1) (F.fin 0) (F.fin 0) (F.fin 1) none = some sample_rgb_deep_red ∧
      rgb_truecolor.ctor (F.fin 255) (F.fin 0) (F.fin 0) (F.fin 255) =
        some sample_rgb_true_red ∧
      sample_rgb_deep_red.get_color_type ≠ sample_rgb_true_red.get_color_type ∧
      opEq sample_rgb_deep_red sample_rgb_true_red = false :=
  ⟨sample_rgb_deep_red_built, sample_rgb_true_red_built, by decide,
    equality_across_variants_false sample_rgb_deep_red sample_rgb_true_red (by decide)⟩

/-- C10. RGBTrue to RGBDeep divides each of red, green, blue and alpha by 255:
for every valid RGBTrue colour `(r, g, b, a)`, with components in `[0, 255]`,
the conversion is defined and returns the colour that
`rgb_deepcolor(r/255, g/255, b/255, a/255)` builds, equal to it under
`operator==`, whose components are exactly the four quotients. -/
theorem rgb_true_to_rgb_deep_divides (t : color_base) (r g b a : ℚ)
    (_ht : t.get_color_type = color_type.RGB_TRUE)
    (hv : t.m_component_vector = [F.fin r, F.fin g, F.fin b, F.fin a])
    (hr : 0 ≤ r ∧ r ≤ 255) (hg : 0 ≤ g ∧ g ≤ 255) (hb : 0 ≤ b ∧ b ≤ 255)
    (ha : 0 ≤ a ∧ a ≤ 255) :
    ∃ d, color_converter.rgb_true_to_rgb_deep t = some d ∧
      rgb_deepcolor.ctor (F.fin (r / 255)) (F.fin (g / 255)) (F.fin (b / 255))
        (F.fin (a / 255)) none = some d ∧
      opEq d d = true ∧ d.get_color_type = color_type.RGB_DEEP ∧
      rgb_deepcolor.red d = some (F.fin (r / 255)) ∧
      rgb_deepcolor.green d = some (F.fin (g / 255)) ∧
      rgb_deepcolor.blue d = some (F.fin (b / 255)) ∧
      rgb_deepcolor.alpha d = some (F.fin (a / 255)) := by
  have hc : color_converter.rgb_true_to_rgb_deep t =
      rgb_deepcolor.ctor (F.fin (r / 255)) (F.fin (g / 255)) (F.fin (b / 255))
        (F.fin (a / 255)) none := by
    simp [color_converter.rgb_true_to_rgb_deep, rgb_truecolor.red, rgb_truecolor.green,
      rgb_truecolor.blue, rgb_truecolor.alpha, load, hv, div_255]
  have hd := rgb_deepcolor_ctor_eq (F.fin (r / 255)) (F.fin (g / 255)) (F.fin (b / 255))
    (F.fin (a / 255)) none
  have ho := rgb_deepcolor_ctor_opEq_self (F.fin (r / 255)) (F.fin (g / 255))
    (F.fin (b / 255)) (F.fin (a / 255)) none
  rw [clamp_div_255 r hr.1 hr.2, clamp_div_255 g hg.1 hg.2, clamp_div_255 b hb.1 hb.2,
    clamp_div_255 a ha.1 ha.2] at hd ho
  exact ⟨_, hc.trans hd, hd, ho, rfl, rfl, rfl, rfl, rfl⟩

/-- Witness of C10, the scenario of the spec: `rgb_truecolor(255, 0, 0, 255)`
converts to a colour equal to `rgb_deepcolor(1, 0, 0, 1)`. -/
theorem rgb_true_to_rgb_deep_divides_witness :
    rgb_truecolor.ctor (F.fin 255) (F.fin 0) (F.fin 0) (F.fin 255) =
        some sample_rgb_true_red ∧
      rgb_deepcolor.ctor (F.fin 1) (F.fin 0) (F.fin 0) (F.fin 1) none =
        some sample_rgb_deep_red ∧
      ∃ d, color_converter.rgb_true_to_rgb_deep sample_rgb_true_red = some d ∧
        opEq d sample_rgb_deep_red = true := by
  obtain ⟨d, h1, h2, h3, _⟩ :=
    rgb_true_to_rgb_deep_divides sample_rgb_true_red 255 0 0 255 rfl rfl
      ⟨by norm_num, by norm_num⟩ ⟨by norm_num, by norm_num⟩ ⟨by norm_num, by norm_num⟩
      ⟨by norm_num, by norm_num⟩
  have e1 : (255 : ℚ) / 255 = 1 := by norm_num
  have e0 : (0 : ℚ) / 255 = 0 := by norm_num
  rw [e1, e0, sample_rgb_deep_red_built] at h2
  injection h2 with h2
  refine ⟨sample_rgb_true_red_built, sample_rgb_deep_red_built, d, h1, ?_⟩
  rw [h2]
  exact h3

/-! ## Lemmas on float arithmetic -/

theorem F_sub_fin (a b : ℚ) : F.sub (F.fin a) (F.fin b) = F.fin (a - b) := by
  simp [F.sub, F.add, F.neg, sub_eq_add_neg]

theorem F_add_fin (a b : ℚ) : F.add (F.fin a) (F.fin b) = F.fin (a + b) := rfl

theorem F_mul_fin (a b : ℚ) : F.mul (F.fin a) (F.fin b) = F.fin (a * b) := rfl

theorem F_div_fin (a b : ℚ) (h : b ≠ 0) : F.div (F.fin a) (F.fin b) = F.fin (a / b) := by
  simp [F.div, h]

theorem F_eq_fin_decide (a b : ℚ) : F.eq (F.fin a) (F.fin b) = decide (a = b) := rfl

theorem F_le_fin (a b : ℚ) : F.le (F.fin a) (F.fin b) = decide (a ≤ b) := rfl

theorem F_lt_fin (a b : ℚ) : F.lt (F.fin a) (F.fin b) = decide (a < b) := rfl

theorem clamp_unit_of_bounds (q : ℚ) (h0 : 0 ≤ q) (h1 : q ≤ 1) :
    clamp (F.fin q) (F.fin 1) (F.fin 0) = F.fin q := by
  rw [clamp_fin, min_eq_left h1, max_eq_left h0]

theorem clamp_255_of_bounds (q : ℚ) (h0 : 0 ≤ q) (h1 : q ≤ 255) :
    clamp (F.fin q) (F.fin 255) (F.fin 0) = F.fin q := by
  rw [clamp_fin, min_eq_left h1, max_eq_left h0]

/-- The truncation of a whole number is the number itself. -/
theorem F_trunc_intCast (n : Int) : F.trunc (n : ℚ) = n := by
  rw [F.trunc, Rat.num_intCast, Rat.den_intCast]
  exact Int.tdiv_one n

/-- A whole number of degrees in `[0, 360)` is stored unchanged by the hue setters. -/
theorem hue_stored_whole (n : Int) (h0 : 0 ≤ n) (h1 : n < 360) :
    max ((Int.tmod (F.trunc (n : ℚ)) 360 : Int) : ℚ) 0 = (n : ℚ) := by
  have hm : Int.tmod n 360 = n := by
    rw [Int.tmod_eq_emod h0 (by decide)]
    exact Int.emod_eq_of_lt h0 h1
  have hq0 : (0 : ℚ) ≤ (n : ℚ) := by exact_mod_cast h0
  rw [F_trunc_intCast, hm, max_eq_left hq0]

/-! ## Lemmas on the constructors of the modelled classes -/

/-- The constructor of `rgb_truecolor` stores the four arguments clamped to `[0, 255]`. -/
theorem rgb_truecolor_ctor_eq (r g b a : F) :
    rgb_truecolor.ctor r g b a = some
      { m_type := color_type.RGB_TRUE
        m_component_vector := [clamp r (F.fin 255) (F.fin 0), clamp g (F.fin 255) (F.fin 0),
          clamp b (F.fin 255) (F.fin 0), clamp a (F.fin 255) (F.fin 0)]
        m_max := F.fin 255
        m_min := F.fin 0
        m_reference_white := none } := by
  simp [rgb_truecolor.ctor, color_base.ctor, push_back_loop, rgb_truecolor.set_red,
    rgb_truecolor.set_green, rgb_truecolor.set_blue, rgb_truecolor.set_alpha, set_component,
    store]

/-- The constructor of `cmyk` stores the four arguments clamped to `[0, 1]`. -/
theorem cmyk_ctor_eq (c m y k : F) :
    cmyk.ctor c m y k = some
      { m_type := color_type.CMYK
        m_component_vector := [clamp c (F.fin 1) (F.fin 0), clamp m (F.fin 1) (F.fin 0),
          clamp y (F.fin 1) (F.fin 0), clamp k (F.fin 1) (F.fin 0)]
        m_max := F.fin 1
        m_min := F.fin 0
        m_reference_white := none } := by
  simp [cmyk.ctor, color_base.ctor, push_back_loop, cmyk.set_cyan, cmyk.set_magenta,
    cmyk.set_yellow, cmyk.set_black, set_component, store, default_component_max,
    default_component_min]

/-- The constructor of `hsl` stores the hue clamped to the degrees and the clamped
saturation and lightness. -/
theorem hsl_ctor_eq (h s l : F) :
    hsl.ctor h s l = some
      { m_type := color_type.HSL
        m_component_vector := [clamp h (F.fin 360) (F.fin 0),
          clamp s (F.fin 1) (F.fin 0), clamp l (F.fin 1) (F.fin 0)]
        m_max := F.fin 1
        m_min := F.fin 0
        m_reference_white := none } := by
  simp [hsl.ctor, color_base.ctor, push_back_loop, hsl.set_hue, hsl.set_saturation,
    hsl.set_lightness, set_component, set_component_range, store, default_component_max,
    default_component_min, m_degrees_max, m_degrees_min]

/-- The constructor `rgb_deepcolor(r, g, b)` stores the three clamped arguments
and the alpha 1. -/
theorem rgb_deepcolor_ctor_rgb_eq (r g b : F) (w : Option reference_white) :
    rgb_deepcolor.ctor_rgb r g b w = some
      { m_type := color_type.RGB_DEEP
        m_component_vector := [clamp r (F.fin 1) (F.fin 0), clamp g (F.fin 1) (F.fin 0),
          clamp b (F.fin 1) (F.fin 0), F.fin 1]
        m_max := F.fin 1
        m_min := F.fin 0
        m_reference_white := w } := by
  rw [rgb_deepcolor.ctor_rgb, rgb_deepcolor_ctor_eq,
    clamp_unit_of_bounds 1 zero_le_one (le_refl 1)]

/-! ## Lemmas on the conversions between `rgb_truecolor` and `rgb_deepcolor` -/

/-- On a colour with components in `[0, 255]` the conversion to `rgb_deepcolor`
stores the four quotients by 255. -/
theorem rgb_true_to_rgb_deep_eq (t : color_base) (r g b a : ℚ)
    (hv : t.m_component_vector = [F.fin r, F.fin g, F.fin b, F.fin a])
    (hr : 0 ≤ r ∧ r ≤ 255) (hg : 0 ≤ g ∧ g ≤ 255) (hb : 0 ≤ b ∧ b ≤ 255)
    (ha : 0 ≤ a ∧ a ≤ 255) :
    color_converter.rgb_true_to_rgb_deep t = some
      { m_type := color_type.RGB_DEEP
        m_component_vector := [F.fin (r / 255), F.fin (g / 255), F.fin (b / 255),
          F.fin (a / 255)]
        m_max := F.fin 1
        m_min := F.fin 0
        m_reference_white := none } := by
  have hc : color_converter.rgb_true_to_rgb_deep t =
      rgb_deepcolor.ctor (F.fin (r / 255)) (F.fin (g / 255)) (F.fin (b / 255))
        (F.fin (a / 255)) none := by
    simp [color_converter.rgb_true_to_rgb_deep, rgb_truecolor.red, rgb_truecolor.green,
      rgb_truecolor.blue, rgb_truecolor.alpha, load, hv, div_255]
  rw [hc, rgb_deepcolor_ctor_eq, clamp_div_255 r hr.1 hr.2, clamp_div_255 g hg.1 hg.2,
    clamp_div_255 b hb.1 hb.2, clamp_div_255 a ha.1 ha.2]

theorem clamp_mul_255 (q : ℚ) (h0 : 0 ≤ q) (h1 : q ≤ 1) :
    clamp (F.fin (q * 255)) (F.fin 255) (F.fin 0) = F.fin (q * 255) :=
  clamp_255_of_bounds (q * 255) (by linarith) (by linarith)

/-- On a colour with components in `[0, 1]` the conversion to `rgb_truecolor`
stores the four products by 255. -/
theorem rgb_deep_to_rgb_true_eq (c : color_base) (r g b a : ℚ)
    (hv : c.m_component_vector = [F.fin r, F.fin g, F.fin b, F.fin a])
    (hr : 0 ≤ r ∧ r ≤ 1) (hg : 0 ≤ g ∧ g ≤ 1) (hb : 0 ≤ b ∧ b ≤ 1) (ha : 0 ≤ a ∧ a ≤ 1) :
    color_converter.rgb_deep_to_rgb_true c = some
      { m_type := color_type.RGB_TRUE
        m_component_vector := [F.fin (r * 255), F.fin (g * 255), F.fin (b * 255),
          F.fin (a * 255)]
        m_max := F.fin 255
        m_min := F.fin 0
        m_reference_white := none } := by
  have hc : color_converter.rgb_deep_to_rgb_true c =
      rgb_truecolor.ctor (F.fin (r * 255)) (F.fin (g * 255)) (F.fin (b * 255))
        (F.fin (a * 255)) := by
    simp [color_converter.rgb_deep_to_rgb_true, rgb_deepcolor.red, rgb_deepcolor.green,
      rgb_deepcolor.blue, rgb_deepcolor.alpha, load, hv, F_mul_fin]
  rw [hc, rgb_truecolor_ctor_eq, clamp_mul_255 r hr.1 hr.2, clamp_mul_255 g hg.1 hg.2,
    clamp_mul_255 b hb.1 hb.2, clamp_mul_255 a ha.1 ha.2]

theorem close_of_eq (p q eps : ℚ) (h : p = q) (he : 0 ≤ eps) :
    ∃ p1 q1 : ℚ, F.fin p = F.fin p1 ∧ F.fin q = F.fin q1 ∧ |p1 - q1| ≤ eps :=
  ⟨p, q, rfl, rfl, by rw [h, sub_self, abs_zero]; exact he⟩

/-- C11. RGB true/deep round trip: for every valid RGBDeep colour `c`, with
components in `[0, 1]`, both conversions RGBDeep to RGBTrue to RGBDeep are
defined and return a colour each of whose four components differs from the
corresponding component of `c` by at most `1/255`; for every valid RGBTrue
colour `t`, with components in `[0, 255]`, RGBTrue to RGBDeep to RGBTrue
returns a colour each of whose components differs from that of `t` by at
most 1. -/
theorem rgb_true_deep_round_trip (c t : color_base) (r g b a r2 g2 b2 a2 : ℚ)
    (_hct : c.get_color_type = color_type.RGB_DEEP)
    (hc : c.m_component_vector = [F.fin r, F.fin g, F.fin b, F.fin a])
    (hr : 0 ≤ r ∧ r ≤ 1) (hg : 0 ≤ g ∧ g ≤ 1) (hb : 0 ≤ b ∧ b ≤ 1) (ha : 0 ≤ a ∧ a ≤ 1)
    (_htt : t.get_color_type = color_type.RGB_TRUE)
    (ht : t.m_component_vector = [F.fin r2, F.fin g2, F.fin b2, F.fin a2])
    (hr2 : 0 ≤ r2 ∧ r2 ≤ 255) (hg2 : 0 ≤ g2 ∧ g2 ≤ 255) (hb2 : 0 ≤ b2 ∧ b2 ≤ 255)
    (ha2 : 0 ≤ a2 ∧ a2 ≤ 255) :
    (∃ t1 d, color_converter.rgb_deep_to_rgb_true c = some t1 ∧
        color_converter.rgb_true_to_rgb_deep t1 = some d ∧
        d.get_color_type = color_type.RGB_DEEP ∧ components_close d c (1 / 255)) ∧
      (∃ d1 t2, color_converter.rgb_true_to_rgb_deep t = some d1 ∧
        color_converter.rgb_deep_to_rgb_true d1 = some t2 ∧
        t2.get_color_type = color_type.RGB_TRUE ∧ components_close t2 t 1) := by
  constructor
  · refine ⟨_, _, rgb_deep_to_rgb_true_eq c r g b a hc hr hg hb ha,
      rgb_true_to_rgb_deep_eq _ (r * 255) (g * 255) (b * 255) (a * 255) rfl
        ⟨by linarith [hr.1], by linarith [hr.2]⟩ ⟨by linarith [hg.1], by linarith [hg.2]⟩
        ⟨by linarith [hb.1], by linarith [hb.2]⟩ ⟨by linarith [ha.1], by linarith [ha.2]⟩,
      rfl, ?_⟩
    rw [components_close, hc]
    have e : ∀ q : ℚ, q * 255 / 255 = q := fun q => by field_simp
    exact List.Forall₂.cons (close_of_eq _ _ _ (e r) (by norm_num))
      (List.Forall₂.cons (close_of_eq _ _ _ (e g) (by norm_num))
        (List.Forall₂.cons (close_of_eq _ _ _ (e b) (by norm_num))
          (List.Forall₂.cons (close_of_eq _ _ _ (e a) (by norm_num)) List.Forall₂.nil)))
  · refine ⟨_, _, rgb_true_to_rgb_deep_eq t r2 g2 b2 a2 ht hr2 hg2 hb2 ha2,
      rgb_deep_to_rgb_true_eq _ (r2 / 255) (g2 / 255) (b2 / 255) (a2 / 255) rfl
        ⟨div_nonneg hr2.1 (by norm_num), (div_le_one (by norm_num)).mpr hr2.2⟩
        ⟨div_nonneg hg2.1 (by norm_num), (div_le_one (by norm_num)).mpr hg2.2⟩
        ⟨div_nonneg hb2.1 (by norm_num), (div_le_one (by norm_num)).mpr hb2.2⟩
        ⟨div_nonneg ha2.1 (by norm_num), (div_le_one (by norm_num)).mpr ha2.2⟩,
      rfl, ?_⟩
    rw [components_close, ht]
    have e : ∀ q : ℚ, q / 255 * 255 = q := fun q => by field_simp
    exact List.Forall₂.cons (close_of_eq _ _ _ (e r2) (by norm_num))
      (List.Forall₂.cons (close_of_eq _ _ _ (e g2) (by norm_num))
        (List.Forall₂.cons (close_of_eq _ _ _ (e b2) (by norm_num))
          (List.Forall₂.cons (close_of_eq _ _ _ (e a2) (by norm_num)) List.Forall₂.nil)))

/-- Witness of C11: the sample colours `rgb_deepcolor(0.25, 0.5, 0.75, 1)` and
`rgb_truecolor(255, 0, 0, 255)`. -/
theorem rgb_true_deep_round_trip_witness :
    sample_rgb_deepcolor.get_color_type = color_type.RGB_DEEP ∧
      sample_rgb_true_red.get_color_type = color_type.RGB_TRUE ∧
      (∃ t1 d, color_converter.rgb_deep_to_rgb_true sample_rgb_deepcolor = some t1 ∧
        color_converter.rgb_true_to_rgb_deep t1 = some d ∧
        d.get_color_type = color_type.RGB_DEEP ∧
        components_close d sample_rgb_deepcolor (1 / 255)) ∧
      (∃ d1 t2, color_converter.rgb_true_to_rgb_deep sample_rgb_true_red = some d1 ∧
        color_converter.rgb_deep_to_rgb_true d1 = some t2 ∧
        t2.get_color_type = color_type.RGB_TRUE ∧ components_close t2 sample_rgb_true_red 1) :=
  ⟨rfl, rfl,
    rgb_true_deep_round_trip sample_rgb_deepcolor sample_rgb_true_red (1 / 4) (1 / 2) (3 / 4) 1
      255 0 0 255 rfl rfl ⟨by norm_num, by norm_num⟩ ⟨by norm_num, by norm_num⟩
      ⟨by norm_num, by norm_num⟩ ⟨by norm_num, by norm_num⟩ rfl rfl
      ⟨by norm_num, by norm_num⟩ ⟨by norm_num, by norm_num⟩ ⟨by norm_num, by norm_num⟩
      ⟨by norm_num, by norm_num⟩⟩

/-! ## The setters and the bounds of the object -/

theorem clamped_to_clamp (x : F) (lo hi : ℚ) (h : lo ≤ hi) :
    F.clamped_to x (clamp x (F.fin hi) (F.fin lo)) lo hi :=
  ⟨fun h1 h2 => clamp_of_le x lo hi h1 h2, fun h1 => clamp_of_lt x lo hi h h1,
    fun h1 => clamp_of_gt x lo hi h h1⟩

theorem reads_back_to_set_component (c : color_base) (x : F) (i : Nat) (lo hi : ℚ)
    (h : i < c.m_component_vector.length) (hmax : c.m_max = F.fin hi)
    (hmin : c.m_min = F.fin lo) (hlh : lo ≤ hi) :
    reads_back_clamped_to (fun c x => set_component c x i) (fun c => load c i) c x lo hi := by
  obtain ⟨c1, h1, h2⟩ := set_component_load c x i h
  refine ⟨c1, _, h1, h2, ?_⟩
  rw [hmax, hmin]
  exact clamped_to_clamp x lo hi hlh

/-- C2, as stated, fails: the base value tagged `RGB_DEEP` with the bounds
`[0, 255]` is an `rgb_deepcolor` value, built by
`rgb_deepcolor(const color_base&)`, and on it `red(2)` is read back as 2, not
as 1; likewise `saturation(7)` is read back as 7 on the `hsv` value built
from the base value tagged `HSV` with the bounds `[0, 255]`. -/
theorem setters_clamp_unit_counterexample :
    (rgb_deepcolor.obtained sample_base_wide ∧
        (∃ c1, rgb_deepcolor.set_red sample_base_wide (F.fin 2) = some c1 ∧
          rgb_deepcolor.red c1 = some (F.fin 2)) ∧
        ¬ reads_back_clamped rgb_deepcolor.set_red rgb_deepcolor.red sample_base_wide
          (F.fin 2)) ∧
      (hsv.obtained sample_hsv_base_wide ∧
        (∃ d1, hsv.set_saturation sample_hsv_base_wide (F.fin 7) = some d1 ∧
          hsv.saturation d1 = some (F.fin 7)) ∧
        ¬ reads_back_clamped hsv.set_saturation hsv.saturation sample_hsv_base_wide
          (F.fin 7)) := by
  have e2 : clamp (F.fin 2) (F.fin 255) (F.fin 0) = F.fin 2 := by
    rw [clamp_fin]
    norm_num
  have e7 : clamp (F.fin 7) (F.fin 255) (F.fin 0) = F.fin 7 := by
    rw [clamp_fin]
    norm_num
  have hr : rgb_deepcolor.set_red sample_base_wide (F.fin 2) = some
      { sample_base_wide with
        m_component_vector := sample_base_wide.m_component_vector.set 0 (F.fin 2) } := by
    have h := store_some sample_base_wide 0 (clamp (F.fin 2) (F.fin 255) (F.fin 0))
      (by decide)
    rw [e2] at h
    exact h
  have hs : hsv.set_saturation sample_hsv_base_wide (F.fin 7) = some
      { sample_hsv_base_wide with
        m_component_vector := sample_hsv_base_wide.m_component_vector.set 1 (F.fin 7) } := by
    have h := store_some sample_hsv_base_wide 1 (clamp (F.fin 7) (F.fin 255) (F.fin 0))
      (by decide)
    rw [e7] at h
    exact h
  refine ⟨⟨rgb_deepcolor.obtained.by_ctor_base sample_base_wide sample_base_wide rfl,
      ⟨_, hr, rfl⟩, ?_⟩,
    ⟨hsv.obtained.by_ctor_base sample_hsv_base_wide sample_hsv_base_wide rfl,
      ⟨_, hs, rfl⟩, ?_⟩⟩
  · rintro ⟨c1, y, h1, h2, _, _, h5⟩
    rw [hr] at h1
    injection h1 with h1
    rw [← h1] at h2
    have hy : y = F.fin 2 := by
      have h2r : some (F.fin 2) = some y := h2
      injection h2r with h2r
      exact h2r.symm
    have h6 := h5 (by simp [F.lt])
    rw [hy] at h6
    injection h6 with h6
    norm_num at h6
  · rintro ⟨c1, y, h1, h2, _, _, h5⟩
    rw [hs] at h1
    injection h1 with h1
    rw [← h1] at h2
    have hy : y = F.fin 7 := by
      have h2r : some (F.fin 7) = some y := h2
      injection h2r with h2r
      exact h2r.symm
    have h6 := h5 (by simp [F.lt])
    rw [hy] at h6
    injection h6 with h6
    norm_num at h6

/-- C2, amended. Setters clamp silently to the bounds of the object: on every
`rgb_deepcolor` value whose stored bounds are `min <= max` every call `red(x)`
is defined (it never fails, whatever `x` is) and afterwards the getter `red()`
returns `x` when `min <= x <= max`, `min` when `x < min` and `max` when
`x > max`, which is `x`, 0 and 1 with the default bounds `[0, 1]`; the same
holds for green, blue and alpha, and on every `hsv` value for the saturation
and value setters. -/
theorem setters_clamp_to_own_bounds (c d : color_base) (x : F) (lo hi lo2 hi2 : ℚ)
    (hc : rgb_deepcolor.obtained c) (hd : hsv.obtained d)
    (hcmax : c.get_component_max = F.fin hi) (hcmin : c.get_component_min = F.fin lo)
    (hclh : lo ≤ hi)
    (hdmax : d.get_component_max = F.fin hi2) (hdmin : d.get_component_min = F.fin lo2)
    (hdlh : lo2 ≤ hi2) :
    reads_back_clamped_to rgb_deepcolor.set_red rgb_deepcolor.red c x lo hi ∧
      reads_back_clamped_to rgb_deepcolor.set_green rgb_deepcolor.green c x lo hi ∧
      reads_back_clamped_to rgb_deepcolor.set_blue rgb_deepcolor.blue c x lo hi ∧
      reads_back_clamped_to rgb_deepcolor.set_alpha rgb_deepcolor.alpha c x lo hi ∧
      reads_back_clamped_to hsv.set_saturation hsv.saturation d x lo2 hi2 ∧
      reads_back_clamped_to hsv.set_value hsv.value d x lo2 hi2 := by
  have hlc := rgb_deepcolor_obtained_length c hc
  have hld := hsv_obtained_length d hd
  exact ⟨reads_back_to_set_component c x 0 lo hi (by omega) hcmax hcmin hclh,
    reads_back_to_set_component c x 1 lo hi (by omega) hcmax hcmin hclh,
    reads_back_to_set_component c x 2 lo hi (by omega) hcmax hcmin hclh,
    reads_back_to_set_component c x 3 lo hi (by omega) hcmax hcmin hclh,
    reads_back_to_set_component d x 1 lo2 hi2 (by omega) hdmax hdmin hdlh,
    reads_back_to_set_component d x 2 lo2 hi2 (by omega) hdmax hdmin hdlh⟩

/-- Witness of C2, amended: the sample colours `rgb_deepcolor(0.25, 0.5, 0.75, 1)`
and `hsv(120, 0.5, 0.25)`, with the default bounds `[0, 1]`, written with the
value 7; and the values built from the base values with the bounds
`[0, 255]`. -/
theorem setters_clamp_to_own_bounds_witness :
    (reads_back_clamped_to rgb_deepcolor.set_red rgb_deepcolor.red sample_rgb_deepcolor
        (F.fin 7) 0 1 ∧
      reads_back_clamped_to hsv.set_value hsv.value sample_hsv (F.fin 7) 0 1) ∧
      reads_back_clamped_to rgb_deepcolor.set_red rgb_deepcolor.red sample_base_wide
        (F.fin 7) 0 255 ∧
      reads_back_clamped_to hsv.set_value hsv.value sample_hsv_base_wide (F.fin 7) 0 255 := by
  have h1 := setters_clamp_to_own_bounds sample_rgb_deepcolor sample_hsv (F.fin 7) 0 1 0 1
    (rgb_deepcolor.obtained.by_ctor _ _ _ _ none _ sample_rgb_deepcolor_built)
    (hsv.obtained.by_ctor _ _ _ _ sample_hsv_built) rfl rfl zero_le_one rfl rfl zero_le_one
  have h2 := setters_clamp_to_own_bounds sample_base_wide sample_hsv_base_wide (F.fin 7)
    0 255 0 255
    (rgb_deepcolor.obtained.by_ctor_base sample_base_wide sample_base_wide rfl)
    (hsv.obtained.by_ctor_base sample_hsv_base_wide sample_hsv_base_wide rfl)
    rfl rfl (by norm_num) rfl rfl (by norm_num)
  exact ⟨⟨h1.1, h1.2.2.2.2.2⟩, h2.1, h2.2.2.2.2.2⟩

/-! ## Lemmas on the router -/

/-- Converting to the own space of a colour returns the colour itself. -/
theorem convertTo_own (u : color_converter.unmodelled) (v : color_base)
    (reference : reference_white) (ht : v.get_color_type ≠ color_type.UNDEFINED) :
    color_converter.convertTo u v v.get_color_type reference = some v := by
  unfold color_converter.convertTo
  cases h : v.get_color_type with
  | UNDEFINED => exact absurd h ht
  | RGB_TRUE => rfl
  | RGB_DEEP => rfl
  | GREY_TRUE => rfl
  | GREY_DEEP => rfl
  | CMYK => rfl
  | HSV => rfl
  | HSL => rfl
  | XYZ => rfl
  | LAB => rfl

/-- C12, as stated, fails: the colour tagged `RGB_DEEP` with the components
`(NaN, 0, 0, 1)` is a colour of one of the nine spaces, no value at all is
equal to it under `operator==`, and the value that the conversion to its own
space returns is not. -/
theorem convert_to_own_space_counterexample :
    sample_base_nan.get_color_type = color_type.RGB_DEEP ∧
      (∀ w : color_base, opEq w sample_base_nan = false) ∧
      ∃ w, color_converter.convertTo color_converter.sample_unmodelled sample_base_nan
          sample_base_nan.get_color_type sample_reference_white = some w ∧
        opEq w sample_base_nan = false :=
  ⟨rfl, fun w => opEq_nan_false w sample_base_nan (by simp [sample_base_nan]),
    sample_base_nan, rfl, rfl⟩

/-- C12, amended. Converting to the own space of a colour is the identity: for
every colour `v` of one of the nine spaces and for every reference white,
`convertTo(v, type_of(v), reference)` is defined and returns a value with the
tag, the components and the bounds of `v`; the returned value is equal to `v`
under `operator==` exactly when no component of `v` is NaN. -/
theorem convert_to_own_space_identity (u : color_converter.unmodelled) (v : color_base)
    (reference : reference_white) (ht : v.get_color_type ≠ color_type.UNDEFINED) :
    ∃ w, color_converter.convertTo u v v.get_color_type reference = some w ∧
      w.get_color_type = v.get_color_type ∧
      w.m_component_vector = v.m_component_vector ∧
      w.get_component_max = v.get_component_max ∧
      w.get_component_min = v.get_component_min ∧
      (opEq w v = true ↔ ∀ x ∈ v.m_component_vector, x ≠ F.nan) :=
  ⟨v, convertTo_own u v reference ht, rfl, rfl, rfl, rfl, opEq_same_vector_iff v v rfl rfl⟩

/-- Witness of C12, amended: the sample colour `hsv(120, 0.5, 0.25)`, which holds no
NaN and is returned equal to itself. -/
theorem convert_to_own_space_identity_witness :
    sample_hsv.get_color_type ≠ color_type.UNDEFINED ∧
      ∃ w, color_converter.convertTo color_converter.sample_unmodelled sample_hsv
          sample_hsv.get_color_type sample_reference_white = some w ∧
        w.m_component_vector = sample_hsv.m_component_vector ∧ opEq w sample_hsv = true := by
  obtain ⟨w, h1, _, h3, _, _, h6⟩ :=
    convert_to_own_space_identity color_converter.sample_unmodelled sample_hsv
      sample_reference_white (by decide)
  exact ⟨by decide, w, h1, h3, h6.mpr (by simp [sample_hsv])⟩

/-! ## Lemmas on the conversion to `cmyk` -/

theorem max3_bounds (r g b : ℚ) (hr : 0 ≤ r ∧ r ≤ 1) (hg : 0 ≤ g ∧ g ≤ 1)
    (hb : 0 ≤ b ∧ b ≤ 1) :
    r ≤ max (max r g) b ∧ g ≤ max (max r g) b ∧ b ≤ max (max r g) b ∧
      max (max r g) b ≤ 1 :=
  ⟨le_trans (le_max_left r g) (le_max_left _ b), le_trans (le_max_right r g) (le_max_left _ b),
    le_max_right _ b, max_le (max_le hr.2 hg.2) hb.2⟩

/-- With `black = 1 - max` and `max > 0` the component formula is not guarded
and gives a value in `[0, 1]`. -/
theorem cmyk_component_fin (x m : ℚ) (hx0 : 0 ≤ x) (hxm : x ≤ m) (hm : 0 < m) :
    color_converter.cmyk_component (F.fin x) (F.fin (1 - m)) =
        F.fin ((1 - x - (1 - m)) / (1 - (1 - m))) ∧
      0 ≤ (1 - x - (1 - m)) / (1 - (1 - m)) ∧ (1 - x - (1 - m)) / (1 - (1 - m)) ≤ 1 := by
  have h1 : (1 : ℚ) - (1 - m) = m := by ring
  have h2 : (1 : ℚ) - x - (1 - m) = m - x := by ring
  have hne : ¬ ((1 : ℚ) - m = 1) := by
    intro h
    linarith
  refine ⟨?_, ?_, ?_⟩
  · rw [color_converter.cmyk_component, F_eq_fin_decide, decide_eq_false hne, F_sub_fin,
      F_sub_fin, F_sub_fin, F_div_fin _ _ (by rw [h1]; exact ne_of_gt hm)]
    rfl
  · rw [h1, h2]
    exact div_nonneg (by linarith) (le_of_lt hm)
  · rw [h1, h2, div_le_one hm]
    linarith

/-- The conversion to `cmyk` of a colour with finite colour channels, not all
zero, written out. -/
theorem rgb_deep_to_cmyk_eq (c : color_base) (r g b : ℚ) (a : F)
    (hv : c.m_component_vector = [F.fin r, F.fin g, F.fin b, a])
    (hr : 0 ≤ r ∧ r ≤ 1) (hg : 0 ≤ g ∧ g ≤ 1) (hb : 0 ≤ b ∧ b ≤ 1)
    (hmax : 0 < max (max r g) b) :
    color_converter.rgb_deep_to_cmyk c = some
      { m_type := color_type.CMYK
        m_component_vector :=
          [F.fin ((1 - r - (1 - max (max r g) b)) / (1 - (1 - max (max r g) b))),
            F.fin ((1 - g - (1 - max (max r g) b)) / (1 - (1 - max (max r g) b))),
            F.fin ((1 - b - (1 - max (max r g) b)) / (1 - (1 - max (max r g) b))),
            F.fin (1 - max (max r g) b)]
        m_max := F.fin 1
        m_min := F.fin 0
        m_reference_white := none } := by
  obtain ⟨m1, m2, m3, m4⟩ := max3_bounds r g b hr hg hb
  obtain ⟨c1, c2, c3⟩ := cmyk_component_fin r _ hr.1 m1 hmax
  obtain ⟨d1, d2, d3⟩ := cmyk_component_fin g _ hg.1 m2 hmax
  obtain ⟨e1, e2, e3⟩ := cmyk_component_fin b _ hb.1 m3 hmax
  have hc : color_converter.rgb_deep_to_cmyk c =
      cmyk.ctor (color_converter.cmyk_component (F.fin r) (F.fin (1 - max (max r g) b)))
        (color_converter.cmyk_component (F.fin g) (F.fin (1 - max (max r g) b)))
        (color_converter.cmyk_component (F.fin b) (F.fin (1 - max (max r g) b)))
        (F.fin (1 - max (max r g) b)) := by
    simp [color_converter.rgb_deep_to_cmyk, rgb_deepcolor.red, rgb_deepcolor.green,
      rgb_deepcolor.blue, load, hv, fmaxf_fin, F_sub_fin]
  rw [hc, c1, d1, e1, cmyk_ctor_eq, clamp_unit_of_bounds _ c2 c3, clamp_unit_of_bounds _ d2 d3,
    clamp_unit_of_bounds _ e2 e3, clamp_unit_of_bounds _ (by linarith) (by linarith)]

/-- C15. RGBDeep to CMYK formula: for every valid RGBDeep colour `(r, g, b, a)` with
`max(r, g, b) > 0` the conversion is defined and the result has
`black = 1 - max(r, g, b)`, `cyan = (1 - r - black) / (1 - black)`,
`magenta = (1 - g - black) / (1 - black)` and
`yellow = (1 - b - black) / (1 - black)`. -/
theorem rgb_deep_to_cmyk_formula (c : color_base) (r g b black : ℚ) (a : F)
    (_ht : c.get_color_type = color_type.RGB_DEEP)
    (hv : c.m_component_vector = [F.fin r, F.fin g, F.fin b, a])
    (hr : 0 ≤ r ∧ r ≤ 1) (hg : 0 ≤ g ∧ g ≤ 1) (hb : 0 ≤ b ∧ b ≤ 1)
    (hmax : 0 < max (max r g) b) (hk : black = 1 - max (max r g) b) :
    ∃ x, color_converter.rgb_deep_to_cmyk c = some x ∧
      x.get_color_type = color_type.CMYK ∧
      x.m_component_vector =
        [F.fin ((1 - r - black) / (1 - black)), F.fin ((1 - g - black) / (1 - black)),
          F.fin ((1 - b - black) / (1 - black)), F.fin black] ∧
      cmyk.cyan x = some (F.fin ((1 - r - black) / (1 - black))) ∧
      cmyk.magenta x = some (F.fin ((1 - g - black) / (1 - black))) ∧
      cmyk.yellow x = some (F.fin ((1 - b - black) / (1 - black))) ∧
      cmyk.black x = some (F.fin black) := by
  subst hk
  exact ⟨_, rgb_deep_to_cmyk_eq c r g b a hv hr hg hb hmax, rfl, rfl, rfl, rfl, rfl, rfl⟩

/-- The sample colour is what `cmyk(0, 1, 1, 0)` builds. -/
theorem sample_cmyk_red_built :
    cmyk.ctor (F.fin 0) (F.fin 1) (F.fin 1) (F.fin 0) = some sample_cmyk_red := by
  rw [cmyk_ctor_eq, clamp_unit_of_bounds 0 (le_refl 0) zero_le_one,
    clamp_unit_of_bounds 1 zero_le_one (le_refl 1), sample_cmyk_red]

/-- Witness of C15, the scenario of the spec: `rgb_deepcolor(1, 0, 0, 1)` converts
to a colour equal to `cmyk(0, 1, 1, 0)`. -/
theorem rgb_deep_to_cmyk_formula_witness :
    rgb_deepcolor.ctor (F.fin 1) (F.fin 0) (F.fin 0) (F.fin 1) none =
        some sample_rgb_deep_red ∧
      cmyk.ctor (F.fin 0) (F.fin 1) (F.fin 1) (F.fin 0) = some sample_cmyk_red ∧
      ∃ x, color_converter.rgb_deep_to_cmyk sample_rgb_deep_red = some x ∧
        opEq x sample_cmyk_red = true := by
  obtain ⟨x, h1, h2, h3, _⟩ :=
    rgb_deep_to_cmyk_formula sample_rgb_deep_red 1 0 0 0 (F.fin 1) rfl rfl
      ⟨by norm_num, by norm_num⟩ ⟨by norm_num, by norm_num⟩ ⟨by norm_num, by norm_num⟩
      (by norm_num) (by norm_num)
  have h2m : x.m_type = color_type.CMYK := h2
  refine ⟨sample_rgb_deep_red_built, sample_cmyk_red_built, x, h1, ?_⟩
  norm_num [opEq, h2m, h3, color_base.get_color_type, sample_cmyk_red, components_equal, F.ne,
    F.eq]

/-- C16. Division by zero is guarded in RGBDeep to CMYK: for every RGBDeep colour
with `r = g = b = 0` (so that black is 1) and any alpha, the conversion is
defined and returns cyan = magenta = yellow = 0 and black = 1, every
component being a finite number in `[0, 1]`. -/
theorem rgb_deep_to_cmyk_black_guarded (c : color_base) (a : F)
    (_ht : c.get_color_type = color_type.RGB_DEEP)
    (hv : c.m_component_vector = [F.fin 0, F.fin 0, F.fin 0, a]) :
    ∃ x, color_converter.rgb_deep_to_cmyk c = some x ∧
      x.get_color_type = color_type.CMYK ∧
      x.m_component_vector = [F.fin 0, F.fin 0, F.fin 0, F.fin 1] ∧
      cmyk.cyan x = some (F.fin 0) ∧ cmyk.magenta x = some (F.fin 0) ∧
      cmyk.yellow x = some (F.fin 0) ∧ cmyk.black x = some (F.fin 1) ∧
      ∀ y ∈ x.m_component_vector, y.within 0 1 := by
  have hk : fmaxf (fmaxf (F.fin 0) (F.fin 0)) (F.fin 0) = F.fin 0 := by
    rw [fmaxf_fin, fmaxf_fin, max_self, max_self]
  have hb : F.sub (F.fin 1) (F.fin 0) = F.fin 1 := by
    rw [F_sub_fin, sub_zero]
  have hg : color_converter.cmyk_component (F.fin 0) (F.fin 1) = F.fin 0 := by
    simp [color_converter.cmyk_component, F.eq]
  have hc : color_converter.rgb_deep_to_cmyk c =
      cmyk.ctor (F.fin 0) (F.fin 0) (F.fin 0) (F.fin 1) := by
    simp only [color_converter.rgb_deep_to_cmyk, rgb_deepcolor.red, rgb_deepcolor.green,
      rgb_deepcolor.blue, load, hv, List.getElem?_cons_zero, List.getElem?_cons_succ,
      Option.bind_eq_bind, Option.some_bind, hk, hb, hg]
  rw [cmyk_ctor_eq, clamp_unit_of_bounds 0 (le_refl 0) zero_le_one,
    clamp_unit_of_bounds 1 zero_le_one (le_refl 1)] at hc
  refine ⟨_, hc, rfl, rfl, rfl, rfl, rfl, rfl, ?_⟩
  intro y hy
  simp only [List.mem_cons, List.mem_singleton, List.not_mem_nil, or_false] at hy
  rcases hy with h | h | h | h
  · exact ⟨0, h, le_refl 0, zero_le_one⟩
  · exact ⟨0, h, le_refl 0, zero_le_one⟩
  · exact ⟨0, h, le_refl 0, zero_le_one⟩
  · exact ⟨1, h, zero_le_one, le_refl 1⟩

/-- Witness of C16: the sample colour `rgb_deepcolor(0, 0, 0, 1)`. -/
theorem rgb_deep_to_cmyk_black_guarded_witness :
    sample_rgb_deep_black.get_color_type = color_type.RGB_DEEP ∧
      sample_rgb_deep_black.m_component_vector = [F.fin 0, F.fin 0, F.fin 0, F.fin 1] ∧
      ∃ x, color_converter.rgb_deep_to_cmyk sample_rgb_deep_black = some x ∧
        x.get_color_type = color_type.CMYK ∧
        x.m_component_vector = [F.fin 0, F.fin 0, F.fin 0, F.fin 1] ∧
        cmyk.cyan x = some (F.fin 0) ∧ cmyk.magenta x = some (F.fin 0) ∧
        cmyk.yellow x = some (F.fin 0) ∧ cmyk.black x = some (F.fin 1) ∧
        ∀ y ∈ x.m_component_vector, y.within 0 1 :=
  ⟨rfl, rfl, rgb_deep_to_cmyk_black_guarded sample_rgb_deep_black (F.fin 1) rfl rfl⟩

/-! ## Lemmas on the conversion from `hsv` to `hsl` -/

/-- The conversion to `hsl` of a colour with finite saturation and value, written
out. -/
theorem hsv_to_hsl_eq (c : color_base) (h : F) (s v : ℚ)
    (hv : c.m_component_vector = [h, F.fin s, F.fin v]) :
    color_converter.hsv_to_hsl c = some
      { m_type := color_type.HSL
        m_component_vector := [clamp h (F.fin 360) (F.fin 0),
          clamp (color_converter.guarded_div (F.fin (s * v))
            (if s * v ≤ 1 then F.fin ((2 - s) * v) else F.fin (2 - (2 - s) * v)))
            (F.fin 1) (F.fin 0),
          clamp (F.fin ((2 - s) * v / 2)) (F.fin 1) (F.fin 0)]
        m_max := F.fin 1
        m_min := F.fin 0
        m_reference_white := none } := by
  have hc : color_converter.hsv_to_hsl c =
      hsl.ctor h
        (color_converter.guarded_div (F.fin (s * v))
          (if s * v ≤ 1 then F.fin ((2 - s) * v) else F.fin (2 - (2 - s) * v)))
        (F.fin ((2 - s) * v / 2)) := by
    simp only [color_converter.hsv_to_hsl, hsv.hue, hsv.saturation, hsv.value, load, hv,
      List.getElem?_cons_zero, List.getElem?_cons_succ, Option.bind_eq_bind, Option.some_bind,
      F_sub_fin, F_mul_fin, F_le_fin, F_div_fin _ 2 (by norm_num)]
    by_cases h1 : s * v ≤ 1
    · simp [h1]
    · simp [h1, F_sub_fin]
  rw [hc, hsl_ctor_eq]

theorem guarded_div_zero (x : F) : color_converter.guarded_div x (F.fin 0) = F.fin 0 := by
  simp [color_converter.guarded_div, F.eq]

/-- C17. Division by zero is guarded in HSV to HSL: for every HSV colour with
value 0, any hue (NaN and the infinities included) and any finite saturation,
the conversion to HSL is defined and returns lightness 0 and saturation 0,
the fallback of the guarded division. -/
theorem hsv_to_hsl_black_guarded (c : color_base) (h : F) (s : ℚ)
    (_ht : c.get_color_type = color_type.HSV)
    (hv : c.m_component_vector = [h, F.fin s, F.fin 0]) :
    ∃ x, color_converter.hsv_to_hsl c = some x ∧ x.get_color_type = color_type.HSL ∧
      hsl.lightness x = some (F.fin 0) ∧ hsl.saturation x = some (F.fin 0) := by
  have e := hsv_to_hsl_eq c h s 0 hv
  have h1 : s * 0 ≤ (1 : ℚ) := by rw [mul_zero]; exact zero_le_one
  rw [if_pos h1, mul_zero, mul_zero, guarded_div_zero, zero_div,
    clamp_unit_of_bounds 0 (le_refl 0) zero_le_one] at e
  exact ⟨_, e, rfl, rfl, rfl⟩

/-- Witness of C17: the sample colour `hsv(0, 0, 0)`. -/
theorem hsv_to_hsl_black_guarded_witness :
    sample_hsv_black.get_color_type = color_type.HSV ∧
      sample_hsv_black.m_component_vector = [F.fin 0, F.fin 0, F.fin 0] ∧
      ∃ x, color_converter.hsv_to_hsl sample_hsv_black = some x ∧
        x.get_color_type = color_type.HSL ∧
        hsl.lightness x = some (F.fin 0) ∧ hsl.saturation x = some (F.fin 0) :=
  ⟨rfl, rfl, hsv_to_hsl_black_guarded sample_hsv_black (F.fin 0) 0 rfl rfl⟩

/-- C20. HSV to HSL keeps the hue and halves `(2 - s) * v`: for every valid HSV
colour `(h, s, v)`, with `h` in `[0, 360)` and `s`, `v` in `[0, 1]`, the
conversion is defined and the HSL colour has the hue `h` and the lightness
`((2 - s) * v) / 2`. -/
theorem hsv_to_hsl_hue_lightness (c : color_base) (h s v : ℚ)
    (_ht : c.get_color_type = color_type.HSV)
    (hv : c.m_component_vector = [F.fin h, F.fin s, F.fin v])
    (hh : 0 ≤ h ∧ h < 360) (hs : 0 ≤ s ∧ s ≤ 1) (hvv : 0 ≤ v ∧ v ≤ 1) :
    ∃ x, color_converter.hsv_to_hsl c = some x ∧ x.get_color_type = color_type.HSL ∧
      hsl.hue x = some (F.fin h) ∧
      hsl.lightness x = some (F.fin ((2 - s) * v / 2)) := by
  have e := hsv_to_hsl_eq c (F.fin h) s v hv
  have l0 : 0 ≤ (2 - s) * v / 2 :=
    div_nonneg (mul_nonneg (by linarith [hs.2]) hvv.1) (by norm_num)
  have l1 : (2 - s) * v / 2 ≤ 1 := by
    rw [div_le_one (by norm_num)]
    nlinarith [hs.1, hs.2, hvv.1, hvv.2]
  have eh : clamp (F.fin h) (F.fin 360) (F.fin 0) = F.fin h := by
    rw [clamp_fin, min_eq_left (le_of_lt hh.2), max_eq_left hh.1]
  rw [eh, clamp_unit_of_bounds _ l0 l1] at e
  exact ⟨_, e, rfl, rfl, rfl⟩

/-- Witness of C20: the sample colour `hsv(120, 0.5, 0.25)`, and the colour with the
hue 359.5 in its place. -/
theorem hsv_to_hsl_hue_lightness_witness :
    (∃ x, color_converter.hsv_to_hsl sample_hsv = some x ∧
        x.get_color_type = color_type.HSL ∧
        hsl.hue x = some (F.fin 120) ∧
        hsl.lightness x = some (F.fin ((2 - 1 / 2) * (1 / 4) / 2))) ∧
      ∃ x, color_converter.hsv_to_hsl
          { sample_hsv with
            m_component_vector := [F.fin (719 / 2), F.fin (1 / 2), F.fin (1 / 4)] } = some x ∧
        x.get_color_type = color_type.HSL ∧
        hsl.hue x = some (F.fin (719 / 2)) ∧
        hsl.lightness x = some (F.fin ((2 - 1 / 2) * (1 / 4) / 2)) :=
  ⟨hsv_to_hsl_hue_lightness sample_hsv 120 (1 / 2) (1 / 4) rfl rfl
      ⟨by norm_num, by norm_num⟩ ⟨by norm_num, by norm_num⟩ ⟨by norm_num, by norm_num⟩,
    hsv_to_hsl_hue_lightness _ (719 / 2) (1 / 2) (1 / 4) rfl rfl
      ⟨by norm_num, by norm_num⟩ ⟨by norm_num, by norm_num⟩ ⟨by norm_num, by norm_num⟩⟩

/-! ## Lemmas on the conversions between `rgb_deepcolor` and `hsv` -/

/-- The hue 0 is stored as 0 by the hue setters. -/
theorem hue_stored_zero : max ((Int.tmod (F.trunc 0) 360 : Int) : ℚ) 0 = 0 := by
  have h := hue_stored_whole 0 (le_refl 0) (by decide)
  simpa using h

/-- The sample colour is what `hsv(0, 0, 0)` builds. -/
theorem sample_hsv_black_built :
    hsv.ctor (F.fin 0) (F.fin 0) (F.fin 0) = some sample_hsv_black := by
  rw [hsv_ctor_eq 0 _ _ (by norm_num) (by norm_num), hue_stored_zero,
    clamp_unit_of_bounds 0 (le_refl 0) zero_le_one, sample_hsv_black]

/-- The conversion to `hsv` of a grey colour, written out. -/
theorem rgb_deep_to_hsv_grey_eq (u : color_converter.unmodelled) (c : color_base) (x : ℚ)
    (a : F) (hv : c.m_component_vector = [F.fin x, F.fin x, F.fin x, a])
    (hx : 0 ≤ x ∧ x ≤ 1) :
    color_converter.rgb_deep_to_hsv u c = some
      { m_type := color_type.HSV
        m_component_vector := [F.fin 0, F.fin 0, F.fin x]
        m_max := F.fin 1
        m_min := F.fin 0
        m_reference_white := none } := by
  have hmax : fmaxf (fmaxf (F.fin x) (F.fin x)) (F.fin x) = F.fin x := by
    rw [fmaxf_fin, fmaxf_fin, max_self, max_self]
  have hmin : fminf (fminf (F.fin x) (F.fin x)) (F.fin x) = F.fin x := by
    rw [fminf_fin, fminf_fin, min_self, min_self]
  have he : F.eq (F.fin x) (F.fin x) = true := F_eq_self _ (fun h => by cases h)
  have hc : color_converter.rgb_deep_to_hsv u c = hsv.ctor (F.fin 0) (F.fin 0) (F.fin x) := by
    simp only [color_converter.rgb_deep_to_hsv, rgb_deepcolor.red, rgb_deepcolor.green,
      rgb_deepcolor.blue, load, hv, List.getElem?_cons_zero, List.getElem?_cons_succ,
      Option.bind_eq_bind, Option.some_bind, hmax, hmin, he, if_true]
  rw [hc, hsv_ctor_eq 0 _ _ (by norm_num) (by norm_num), hue_stored_zero,
    clamp_unit_of_bounds 0 (le_refl 0) zero_le_one, clamp_unit_of_bounds x hx.1 hx.2]

/-- C18. RGBDeep to HSV on greys: for every valid RGBDeep colour with
`r = g = b` (so that max equals min) the conversion is defined and returns
the HSV colour with hue 0, saturation 0 and value equal to the common
component. -/
theorem rgb_deep_to_hsv_on_greys (u : color_converter.unmodelled) (c : color_base) (x : ℚ)
    (a : F) (_ht : c.get_color_type = color_type.RGB_DEEP)
    (hv : c.m_component_vector = [F.fin x, F.fin x, F.fin x, a]) (hx : 0 ≤ x ∧ x ≤ 1) :
    ∃ h, color_converter.rgb_deep_to_hsv u c = some h ∧ h.get_color_type = color_type.HSV ∧
      h.m_component_vector = [F.fin 0, F.fin 0, F.fin x] ∧
      hsv.hue h = some (F.fin 0) ∧ hsv.saturation h = some (F.fin 0) ∧
      hsv.value h = some (F.fin x) :=
  ⟨_, rgb_deep_to_hsv_grey_eq u c x a hv hx, rfl, rfl, rfl, rfl, rfl⟩

/-- Witness of C18, the scenario of the spec: `rgb_deepcolor(0, 0, 0, 1)` converts
to a colour equal to `hsv(0, 0, 0)`. -/
theorem rgb_deep_to_hsv_on_greys_witness :
    hsv.ctor (F.fin 0) (F.fin 0) (F.fin 0) = some sample_hsv_black ∧
      ∃ h, color_converter.rgb_deep_to_hsv color_converter.sample_unmodelled
          sample_rgb_deep_black = some h ∧
        opEq h sample_hsv_black = true := by
  obtain ⟨h, h1, h2, h3, _⟩ :=
    rgb_deep_to_hsv_on_greys color_converter.sample_unmodelled sample_rgb_deep_black 0
      (F.fin 1) rfl rfl ⟨le_refl 0, zero_le_one⟩
  have h2m : h.m_type = color_type.HSV := h2
  refine ⟨sample_hsv_black_built, h, h1, ?_⟩
  norm_num [opEq, h2m, h3, color_base.get_color_type, sample_hsv_black, components_equal, F.ne,
    F.eq]

/-- With chroma 0 every sector of the table is `(0, 0, 0)`. -/
theorem hsv_sector_zero (h1 : F) :
    color_converter.hsv_sector (F.fin 0) (F.fin 0) h1 = (F.fin 0, F.fin 0, F.fin 0) := by
  unfold color_converter.hsv_sector
  split_ifs <;> rfl

theorem F_fmodf_fin (a b : ℚ) (h : b ≠ 0) :
    F.fmodf (F.fin a) (F.fin b) = F.fin (a - b * (F.trunc (a / b) : ℚ)) := by
  simp [F.fmodf, h]

/-- The conversion to `rgb_deepcolor` of an unsaturated colour, written out. -/
theorem hsv_to_rgb_deep_unsaturated_eq (c : color_base) (h v : ℚ)
    (hv : c.m_component_vector = [F.fin h, F.fin 0, F.fin v]) (hvv : 0 ≤ v ∧ v ≤ 1) :
    color_converter.hsv_to_rgb_deep c = some
      { m_type := color_type.RGB_DEEP
        m_component_vector := [F.fin v, F.fin v, F.fin v, F.fin 1]
        m_max := F.fin 1
        m_min := F.fin 0
        m_reference_white := none } := by
  have hc : color_converter.hsv_to_rgb_deep c =
      rgb_deepcolor.ctor_rgb (F.fin v) (F.fin v) (F.fin v) none := by
    simp only [color_converter.hsv_to_rgb_deep, hsv.hue, hsv.saturation, hsv.value, load, hv,
      List.getElem?_cons_zero, List.getElem?_cons_succ, Option.bind_eq_bind, Option.some_bind,
      F_mul_fin, mul_zero, F_div_fin h 60 (by norm_num), F_fmodf_fin _ 2 (by norm_num),
      F_sub_fin, F.fabsf, zero_mul, hsv_sector_zero, F_add_fin, sub_zero, zero_add]
  rw [hc, rgb_deepcolor_ctor_rgb_eq, clamp_unit_of_bounds v hvv.1 hvv.2]

/-- C19. HSV to RGBDeep on unsaturated colours: for every HSV colour with
saturation 0, any finite hue `h` and a value `v` in `[0, 1]`, the conversion
is defined and returns the colour `(v, v, v, 1)`, which is what
`rgb_deepcolor(v, v, v, 1)` builds; the alpha is the default 1. -/
theorem hsv_to_rgb_deep_unsaturated (c : color_base) (h v : ℚ)
    (_ht : c.get_color_type = color_type.HSV)
    (hv : c.m_component_vector = [F.fin h, F.fin 0, F.fin v]) (hvv : 0 ≤ v ∧ v ≤ 1) :
    ∃ d, color_converter.hsv_to_rgb_deep c = some d ∧
      rgb_deepcolor.ctor (F.fin v) (F.fin v) (F.fin v) (F.fin 1) none = some d ∧
      opEq d d = true ∧ d.get_color_type = color_type.RGB_DEEP ∧
      d.m_component_vector = [F.fin v, F.fin v, F.fin v, F.fin 1] := by
  have e := hsv_to_rgb_deep_unsaturated_eq c h v hv hvv
  have hd := rgb_deepcolor_ctor_eq (F.fin v) (F.fin v) (F.fin v) (F.fin 1) none
  have ho := rgb_deepcolor_ctor_opEq_self (F.fin v) (F.fin v) (F.fin v) (F.fin 1) none
  rw [clamp_unit_of_bounds v hvv.1 hvv.2, clamp_unit_of_bounds 1 zero_le_one (le_refl 1)]
    at hd ho
  exact ⟨_, e, hd, ho, rfl, rfl⟩

/-- The sample colour is what `rgb_deepcolor(0.5, 0.5, 0.5, 1)` builds. -/
theorem sample_rgb_deep_grey_built :
    rgb_deepcolor.ctor (F.fin (1 / 2)) (F.fin (1 / 2)) (F.fin (1 / 2)) (F.fin 1) none =
      some sample_rgb_deep_grey := by
  rw [rgb_deepcolor_ctor_eq, clamp_unit_of_bounds (1 / 2) (by norm_num) (by norm_num),
    clamp_unit_of_bounds 1 zero_le_one (le_refl 1), sample_rgb_deep_grey]

/-- The sample colour is what `hsv(0, 0, 0.5)` builds. -/
theorem sample_hsv_grey_built :
    hsv.ctor (F.fin 0) (F.fin 0) (F.fin (1 / 2)) = some sample_hsv_grey := by
  rw [hsv_ctor_eq 0 _ _ (by norm_num) (by norm_num), hue_stored_zero,
    clamp_unit_of_bounds 0 (le_refl 0) zero_le_one,
    clamp_unit_of_bounds (1 / 2) (by norm_num) (by norm_num), sample_hsv_grey]

/-- Witness of C19, the scenario of the spec: `hsv(0, 0, 0.5)` converts to a
colour equal to `rgb_deepcolor(0.5, 0.5, 0.5, 1)`. -/
theorem hsv_to_rgb_deep_unsaturated_witness :
    hsv.ctor (F.fin 0) (F.fin 0) (F.fin (1 / 2)) = some sample_hsv_grey ∧
      sample_hsv_grey.get_color_type = color_type.HSV ∧
      rgb_deepcolor.ctor (F.fin (1 / 2)) (F.fin (1 / 2)) (F.fin (1 / 2)) (F.fin 1) none =
        some sample_rgb_deep_grey ∧
      ∃ d, color_converter.hsv_to_rgb_deep sample_hsv_grey = some d ∧
        opEq d sample_rgb_deep_grey = true := by
  obtain ⟨d, h1, h2, h3, _⟩ :=
    hsv_to_rgb_deep_unsaturated sample_hsv_grey 0 (1 / 2) rfl rfl
      ⟨by norm_num, by norm_num⟩
  rw [sample_rgb_deep_grey_built] at h2
  injection h2 with h2
  refine ⟨sample_hsv_grey_built, rfl, sample_rgb_deep_grey_built, d, h1, ?_⟩
  rw [h2]
  exact h3

/-! ## Lemmas on the chain from `cmyk` to `hsl` -/

/-- Truncation toward zero does not increase the magnitude. -/
theorem F_trunc_abs_le (t : ℚ) : |(F.trunc t : ℚ)| ≤ |t| := by
  rcases le_or_lt 0 t with h | h
  · rw [F.trunc_of_nonneg t h, abs_of_nonneg h,
      abs_of_nonneg (by exact_mod_cast Int.floor_nonneg.mpr h)]
    exact Int.floor_le t
  · have h0 : (0 : ℚ) ≤ -t := by linarith
    have e : F.trunc t = -⌊-t⌋ := by
      rw [← F.trunc_of_nonneg (-t) h0, F.trunc_neg, neg_neg]
    have hf : (0 : ℚ) ≤ ((⌊-t⌋ : Int) : ℚ) := by exact_mod_cast Int.floor_nonneg.mpr h0
    rw [e, Int.cast_neg, abs_neg, abs_of_nonneg hf, abs_of_neg h]
    exact Int.floor_le (-t)

/-- Three numbers whose largest equals their smallest are equal. -/
theorem max3_eq_min3 (r g b : ℚ) (h : max (max r g) b = min (min r g) b) : r = g ∧ g = b := by
  have h1 : r ≤ max (max r g) b := le_trans (le_max_left r g) (le_max_left _ b)
  have h2 : g ≤ max (max r g) b := le_trans (le_max_right r g) (le_max_left _ b)
  have h3 : b ≤ max (max r g) b := le_max_right _ b
  have h4 : min (min r g) b ≤ r := le_trans (min_le_left _ b) (min_le_left r g)
  have h5 : min (min r g) b ≤ g := le_trans (min_le_left _ b) (min_le_right r g)
  have h6 : min (min r g) b ≤ b := min_le_right _ b
  constructor <;> linarith

/-- A quotient of a difference of two channels by the spread of the three. -/
theorem channel_quotient_abs_le (p q lo hi : ℚ) (hp : lo ≤ p ∧ p ≤ hi) (hq : lo ≤ q ∧ q ≤ hi)
    (hd : 0 < hi - lo) : |(p - q) / (hi - lo)| ≤ 1 := by
  rw [abs_div, abs_of_pos hd, div_le_one hd, abs_le]
  constructor <;> linarith [hp.1, hp.2, hq.1, hq.2]

/-- The usual hue formula is usable by the constructor of `hsv`. -/
theorem sample_hue_defined : color_converter.hue_defined color_converter.sample_unmodelled := by
  intro r g b _ _ _ hne
  have h1 : r ≤ max (max r g) b := le_trans (le_max_left r g) (le_max_left _ b)
  have h2 : g ≤ max (max r g) b := le_trans (le_max_right r g) (le_max_left _ b)
  have h3 : b ≤ max (max r g) b := le_max_right _ b
  have h4 : min (min r g) b ≤ r := le_trans (min_le_left _ b) (min_le_left r g)
  have h5 : min (min r g) b ≤ g := le_trans (min_le_left _ b) (min_le_right r g)
  have h6 : min (min r g) b ≤ b := min_le_right _ b
  have hd : 0 < max (max r g) b - min (min r g) b := by
    rcases lt_or_eq_of_le (le_trans h4 h1) with h | h
    · linarith
    · exact absurd (max3_eq_min3 r g b h.symm) hne
  have hdne : max (max r g) b - min (min r g) b ≠ 0 := ne_of_gt hd
  simp only [color_converter.sample_unmodelled, fmaxf_fin, fminf_fin, F_sub_fin,
    F_eq_fin_decide, F_div_fin _ _ hdne, F_fmodf_fin _ 6 (by norm_num), F_mul_fin, F_add_fin]
  by_cases e1 : max (max r g) b = r
  · rw [decide_eq_true e1, if_pos rfl]
    have q1 := channel_quotient_abs_le g b _ _ ⟨h5, h2⟩ ⟨h6, h3⟩ hd
    have q2 := F_trunc_abs_le ((g - b) / (max (max r g) b - min (min r g) b) / 6)
    rw [abs_div, abs_of_pos (by norm_num : (0 : ℚ) < 6)] at q2
    have q3 := abs_le.mp q1
    have q4 := abs_le.mp q2
    refine ⟨_, rfl, ?_, ?_⟩ <;> linarith [q1, q3.1, q3.2, q4.1, q4.2]
  · rw [decide_eq_false e1, if_neg (by simp)]
    by_cases e2 : max (max r g) b = g
    · rw [decide_eq_true e2, if_pos rfl]
      have q1 := channel_quotient_abs_le b r _ _ ⟨h6, h3⟩ ⟨h4, h1⟩ hd
      rw [abs_le] at q1
      refine ⟨_, rfl, ?_, ?_⟩ <;> linarith [q1.1, q1.2]
    · rw [decide_eq_false e2, if_neg (by simp)]
      have q1 := channel_quotient_abs_le r g _ _ ⟨h4, h1⟩ ⟨h5, h2⟩ hd
      rw [abs_le] at q1
      refine ⟨_, rfl, ?_, ?_⟩ <;> linarith [q1.1, q1.2]

/-- The conversion to `rgb_deepcolor` of a valid CMYK colour, written out. -/
theorem cmyk_to_rgb_deep_eq (c : color_base) (cy m y k : ℚ)
    (hv : c.m_component_vector = [F.fin cy, F.fin m, F.fin y, F.fin k])
    (hcy : 0 ≤ cy ∧ cy ≤ 1) (hm : 0 ≤ m ∧ m ≤ 1) (hy : 0 ≤ y ∧ y ≤ 1) (hk : 0 ≤ k ∧ k ≤ 1) :
    color_converter.cmyk_to_rgb_deep c = some
      { m_type := color_type.RGB_DEEP
        m_component_vector := [F.fin ((1 - cy) * (1 - k)), F.fin ((1 - m) * (1 - k)),
          F.fin ((1 - y) * (1 - k)), F.fin 1]
        m_max := F.fin 1
        m_min := F.fin 0
        m_reference_white := none } := by
  have hc : color_converter.cmyk_to_rgb_deep c =
      rgb_deepcolor.ctor_rgb (F.fin ((1 - cy) * (1 - k))) (F.fin ((1 - m) * (1 - k)))
        (F.fin ((1 - y) * (1 - k))) none := by
    simp only [color_converter.cmyk_to_rgb_deep, cmyk.cyan, cmyk.magenta, cmyk.yellow,
      cmyk.black, load, hv, List.getElem?_cons_zero, List.getElem?_cons_succ,
      Option.bind_eq_bind, Option.some_bind, F_sub_fin, F_mul_fin]
  have b : ∀ p : ℚ, 0 ≤ p ∧ p ≤ 1 → 0 ≤ (1 - p) * (1 - k) ∧ (1 - p) * (1 - k) ≤ 1 := by
    intro p hp
    constructor
    · exact mul_nonneg (by linarith [hp.2]) (by linarith [hk.2])
    · nlinarith [hp.1, hp.2, hk.1, hk.2]
  rw [hc, rgb_deepcolor_ctor_rgb_eq, clamp_unit_of_bounds _ (b cy hcy).1 (b cy hcy).2,
    clamp_unit_of_bounds _ (b m hm).1 (b m hm).2, clamp_unit_of_bounds _ (b y hy).1 (b y hy).2]

theorem clamp_unit_fin (x : F) : ∃ q : ℚ, clamp x (F.fin 1) (F.fin 0) = F.fin q := by
  obtain ⟨q, hq, _, _⟩ := clamp_within x 0 1 zero_le_one
  exact ⟨q, hq⟩

/-- The conversion to `hsv` is defined on every valid RGBDeep colour when the hue
parameter is usable; the hue of the result is a finite number in `[0, 359]`. -/
theorem rgb_deep_to_hsv_defined (u : color_converter.unmodelled)
    (hu : color_converter.hue_defined u) (d : color_base) (r g b : ℚ) (a : F)
    (hv : d.m_component_vector = [F.fin r, F.fin g, F.fin b, a])
    (hr : 0 ≤ r ∧ r ≤ 1) (hg : 0 ≤ g ∧ g ≤ 1) (hb : 0 ≤ b ∧ b ≤ 1) :
    ∃ q s v : ℚ, color_converter.rgb_deep_to_hsv u d = some
        { m_type := color_type.HSV
          m_component_vector := [F.fin q, F.fin s, F.fin v]
          m_max := F.fin 1
          m_min := F.fin 0
          m_reference_white := none } ∧ 0 ≤ q ∧ q ≤ 359 := by
  by_cases hgrey : r = g ∧ g = b
  · obtain ⟨e1, e2⟩ := hgrey
    subst e1
    subst e2
    exact ⟨0, 0, r, rgb_deep_to_hsv_grey_eq u d r a hv hr, le_refl 0, by norm_num⟩
  · obtain ⟨q, hq, hlo, hhi⟩ := hu r g b hr hg hb hgrey
    have hne : ¬ (max (max r g) b = min (min r g) b) := fun h => hgrey (max3_eq_min3 r g b h)
    have hc : color_converter.rgb_deep_to_hsv u d =
        hsv.ctor (F.fin q)
          (F.div (F.fin (max (max r g) b - min (min r g) b)) (F.fin (max (max r g) b)))
          (F.fin (max (max r g) b)) := by
      simp only [color_converter.rgb_deep_to_hsv, rgb_deepcolor.red, rgb_deepcolor.green,
        rgb_deepcolor.blue, load, hv, List.getElem?_cons_zero, List.getElem?_cons_succ,
        Option.bind_eq_bind, Option.some_bind, fmaxf_fin, fminf_fin, F_sub_fin,
        F_eq_fin_decide, decide_eq_false hne, hq]
      rfl
    obtain ⟨s, hs⟩ := clamp_unit_fin
      (F.div (F.fin (max (max r g) b - min (min r g) b)) (F.fin (max (max r g) b)))
    obtain ⟨v, hvv⟩ := clamp_unit_fin (F.fin (max (max r g) b))
    refine ⟨_, s, v, ?_, (hue_stored_range (F.trunc q)).1, (hue_stored_range (F.trunc q)).2⟩
    rw [hc, hsv_ctor_eq q _ _ hlo hhi, hs, hvv]

/-- The conversion to `hsl` is defined on every `hsv` colour with finite
components and a hue in `[0, 359]`, and its result has no NaN component. -/
theorem hsv_to_hsl_defined (h : color_base) (q s v : ℚ)
    (hv : h.m_component_vector = [F.fin q, F.fin s, F.fin v]) (hq : 0 ≤ q ∧ q ≤ 359) :
    ∃ x, color_converter.hsv_to_hsl h = some x ∧ x.get_color_type = color_type.HSL ∧
      ∀ y ∈ x.m_component_vector, y ≠ F.nan := by
  have _hq := hq
  refine ⟨_, hsv_to_hsl_eq h (F.fin q) s v hv, rfl, ?_⟩
  intro y hy
  simp only [List.mem_cons, List.mem_singleton, List.not_mem_nil, or_false] at hy
  rcases hy with e | e | e
  · rw [e]
    exact within_ne_nan _ 0 360 (clamp_within _ 0 360 (by norm_num))
  · rw [e]
    exact within_ne_nan _ 0 1 (clamp_within _ 0 1 zero_le_one)
  · rw [e]
    exact within_ne_nan _ 0 1 (clamp_within _ 0 1 zero_le_one)

/-- The conversion to `hsl` is defined on every valid RGBDeep colour when the hue
parameter is usable, and its result has no NaN component. -/
theorem rgb_deep_to_hsl_defined (u : color_converter.unmodelled)
    (hu : color_converter.hue_defined u) (d : color_base) (r g b : ℚ) (a : F)
    (hv : d.m_component_vector = [F.fin r, F.fin g, F.fin b, a])
    (hr : 0 ≤ r ∧ r ≤ 1) (hg : 0 ≤ g ∧ g ≤ 1) (hb : 0 ≤ b ∧ b ≤ 1) :
    ∃ x, color_converter.rgb_deep_to_hsl u d = some x ∧ x.get_color_type = color_type.HSL ∧
      ∀ y ∈ x.m_component_vector, y ≠ F.nan := by
  obtain ⟨q, s, v, hh, hq0, hq1⟩ := rgb_deep_to_hsv_defined u hu d r g b a hv hr hg hb
  obtain ⟨x, hx, hxt, hxn⟩ :=
    hsv_to_hsl_defined ⟨color_type.HSV, [F.fin q, F.fin s, F.fin v], F.fin 1, F.fin 0, none⟩
      q s v rfl ⟨hq0, hq1⟩
  exact ⟨x, by rw [color_converter.rgb_deep_to_hsl, hh, Option.some_bind, hx], hxt, hxn⟩

/-- C14. Chain consistency: for every valid CMYK colour `c`, with components in
`[0, 1]`, and every usable hue formula, the one dispatched call that converts
`c` to HSL and the two calls that convert `c` to RGBDeep and the RGBDeep
result to HSL are all defined, and their results are equal under
`operator==`. -/
theorem chain_consistency_cmyk_hsl (u : color_converter.unmodelled)
    (hu : color_converter.hue_defined u) (c : color_base) (cy m y k : ℚ)
    (reference : reference_white) (ht : c.get_color_type = color_type.CMYK)
    (hv : c.m_component_vector = [F.fin cy, F.fin m, F.fin y, F.fin k])
    (hcy : 0 ≤ cy ∧ cy ≤ 1) (hm : 0 ≤ m ∧ m ≤ 1) (hy : 0 ≤ y ∧ y ≤ 1) (hk : 0 ≤ k ∧ k ≤ 1) :
    ∃ x d x2, color_converter.convertTo u c color_type.HSL reference = some x ∧
      color_converter.convertTo u c color_type.RGB_DEEP reference = some d ∧
      color_converter.convertTo u d color_type.HSL reference = some x2 ∧
      x.get_color_type = color_type.HSL ∧ opEq x x2 = true := by
  have e1 : color_converter.convertTo u c color_type.HSL reference =
      color_converter.cmyk_to_hsl u c := by
    simp only [color_converter.convertTo, ht, color_converter.from_cmyk]
  have e2 : color_converter.convertTo u c color_type.RGB_DEEP reference =
      color_converter.cmyk_to_rgb_deep c := by
    simp only [color_converter.convertTo, ht, color_converter.from_cmyk]
  have hd := cmyk_to_rgb_deep_eq c cy m y k hv hcy hm hy hk
  have b : ∀ p : ℚ, 0 ≤ p ∧ p ≤ 1 → 0 ≤ (1 - p) * (1 - k) ∧ (1 - p) * (1 - k) ≤ 1 := by
    intro p hp
    constructor
    · exact mul_nonneg (by linarith [hp.2]) (by linarith [hk.2])
    · nlinarith [hp.1, hp.2, hk.1, hk.2]
  obtain ⟨x, hx, hxt, hxn⟩ :=
    rgb_deep_to_hsl_defined u hu
      ⟨color_type.RGB_DEEP, [F.fin ((1 - cy) * (1 - k)), F.fin ((1 - m) * (1 - k)),
        F.fin ((1 - y) * (1 - k)), F.fin 1], F.fin 1, F.fin 0, none⟩
      _ _ _ (F.fin 1) rfl (b cy hcy) (b m hm) (b y hy)
  have e3 : color_converter.convertTo u
      ⟨color_type.RGB_DEEP, [F.fin ((1 - cy) * (1 - k)), F.fin ((1 - m) * (1 - k)),
        F.fin ((1 - y) * (1 - k)), F.fin 1], F.fin 1, F.fin 0, none⟩
      color_type.HSL reference = some x := by
    simp only [color_converter.convertTo, color_base.get_color_type,
      color_converter.from_rgb_deep, hx]
  refine ⟨x, _, x, ?_, e2.trans hd, e3, hxt, opEq_self x hxn⟩
  rw [e1, color_converter.cmyk_to_hsl, hd, Option.some_bind, hx]

/-- Witness of C14: the sample colour `cmyk(0, 1, 1, 0)` with the usual hue formula. -/
theorem chain_consistency_cmyk_hsl_witness :
    color_converter.hue_defined color_converter.sample_unmodelled ∧
      sample_cmyk_red.get_color_type = color_type.CMYK ∧
      ∃ x d x2, color_converter.convertTo color_converter.sample_unmodelled sample_cmyk_red
          color_type.HSL sample_reference_white = some x ∧
        color_converter.convertTo color_converter.sample_unmodelled sample_cmyk_red
          color_type.RGB_DEEP sample_reference_white = some d ∧
        color_converter.convertTo color_converter.sample_unmodelled d color_type.HSL
          sample_reference_white = some x2 ∧
        x.get_color_type = color_type.HSL ∧ opEq x x2 = true :=
  ⟨sample_hue_defined, rfl,
    chain_consistency_cmyk_hsl color_converter.sample_unmodelled sample_hue_defined
      sample_cmyk_red 0 1 1 0 sample_reference_white rfl rfl ⟨by norm_num, by norm_num⟩
      ⟨by norm_num, by norm_num⟩ ⟨by norm_num, by norm_num⟩ ⟨by norm_num, by norm_num⟩⟩

/-! ## The reference white and the conversion to `grey_deepcolor` -/

/-- A conversion that neither starts from Lab nor goes to Lab does not read the
reference white. -/
theorem convertTo_reference_free (u : color_converter.unmodelled) (v : color_base)
    (target : color_type) (w1 w2 : reference_white)
    (hs : v.get_color_type ≠ color_type.LAB) (ht : target ≠ color_type.LAB) :
    color_converter.convertTo u v target w1 = color_converter.convertTo u v target w2 := by
  unfold color_converter.convertTo
  cases hv : v.get_color_type <;> cases target <;>
    first
      | rfl
      | exact absurd hv hs
      | exact absurd rfl ht

/-- C21. The reference white does not influence conversions that do not involve
Lab: for every source colour whose space is not Lab, every target space other
than Lab and every two reference whites `w1` and `w2`, `convertTo(v, target, w1)`
and `convertTo(v, target, w2)` are the same result, defined or not; when
they are defined and no component is NaN, the two results are equal under
`operator==`. -/
theorem reference_white_ignored_without_lab (u : color_converter.unmodelled) (v : color_base)
    (target : color_type) (w1 w2 : reference_white)
    (hs : v.get_color_type ≠ color_type.LAB) (ht : target ≠ color_type.LAB) :
    color_converter.convertTo u v target w1 = color_converter.convertTo u v target w2 ∧
      ∀ x y, color_converter.convertTo u v target w1 = some x →
        color_converter.convertTo u v target w2 = some y →
        (∀ c ∈ x.m_component_vector, c ≠ F.nan) → opEq x y = true := by
  have e := convertTo_reference_free u v target w1 w2 hs ht
  refine ⟨e, fun x y hx hy hn => ?_⟩
  rw [e, hy] at hx
  injection hx with hx
  rw [hx]
  exact opEq_self x hn

/-- Witness of C21: the sample colour `cmyk(0, 1, 1, 0)` converted to HSL under two
reference whites. -/
theorem reference_white_ignored_without_lab_witness :
    sample_cmyk_red.get_color_type ≠ color_type.LAB ∧ color_type.HSL ≠ color_type.LAB ∧
      color_converter.convertTo color_converter.sample_unmodelled sample_cmyk_red
          color_type.HSL sample_reference_white =
        color_converter.convertTo color_converter.sample_unmodelled sample_cmyk_red
          color_type.HSL ⟨F.fin 1, F.fin 2, F.fin 3⟩ :=
  ⟨by decide, by decide,
    (reference_white_ignored_without_lab color_converter.sample_unmodelled sample_cmyk_red
      color_type.HSL sample_reference_white ⟨F.fin 1, F.fin 2, F.fin 3⟩ (by decide)
      (by decide)).1⟩

/-- The constructor of `grey_deepcolor` stores the two arguments clamped to `[0, 1]`. -/
theorem grey_deepcolor_ctor_eq (value alpha : F) :
    grey_deepcolor.ctor value alpha = some
      { m_type := color_type.GREY_DEEP
        m_component_vector := [clamp value (F.fin 1) (F.fin 0), clamp alpha (F.fin 1) (F.fin 0)]
        m_max := F.fin 1
        m_min := F.fin 0
        m_reference_white := none } := by
  simp [grey_deepcolor.ctor, color_base.ctor, push_back_loop, grey_deepcolor.set_grey,
    grey_deepcolor.set_alpha, set_component, store, default_component_max,
    default_component_min]

/-- The conversion to `grey_deepcolor` of a valid colour, written out. -/
theorem rgb_deep_to_grey_deep_eq (c : color_base) (r g b a : ℚ)
    (hv : c.m_component_vector = [F.fin r, F.fin g, F.fin b, F.fin a])
    (hr : 0 ≤ r ∧ r ≤ 1) (hg : 0 ≤ g ∧ g ≤ 1) (hb : 0 ≤ b ∧ b ≤ 1) (ha : 0 ≤ a ∧ a ≤ 1) :
    color_converter.rgb_deep_to_grey_deep c = some
      { m_type := color_type.GREY_DEEP
        m_component_vector := [F.fin ((r + g + b) / 3), F.fin a]
        m_max := F.fin 1
        m_min := F.fin 0
        m_reference_white := none } := by
  have hc : color_converter.rgb_deep_to_grey_deep c =
      grey_deepcolor.ctor (F.fin ((r + g + b) / 3)) (F.fin a) := by
    simp only [color_converter.rgb_deep_to_grey_deep, rgb_deepcolor.red, rgb_deepcolor.green,
      rgb_deepcolor.blue, rgb_deepcolor.alpha, load, hv, List.getElem?_cons_zero,
      List.getElem?_cons_succ, Option.bind_eq_bind, Option.some_bind, F_add_fin,
      F_div_fin _ 3 (by norm_num)]
  have g0 : 0 ≤ (r + g + b) / 3 := div_nonneg (by linarith [hr.1, hg.1, hb.1]) (by norm_num)
  have g1 : (r + g + b) / 3 ≤ 1 := by
    rw [div_le_one (by norm_num)]
    linarith [hr.2, hg.2, hb.2]
  rw [hc, grey_deepcolor_ctor_eq, clamp_unit_of_bounds _ g0 g1,
    clamp_unit_of_bounds a ha.1 ha.2]

/-- C22. RGBDeep to GreyDeep averages the colour channels and passes alpha
through: for every valid RGBDeep colour `(r, g, b, a)` the conversion is
defined and the GreyDeep colour has `grey = (r + g + b) / 3` and `alpha = a`. -/
theorem rgb_deep_to_grey_deep_average (c : color_base) (r g b a : ℚ)
    (_ht : c.get_color_type = color_type.RGB_DEEP)
    (hv : c.m_component_vector = [F.fin r, F.fin g, F.fin b, F.fin a])
    (hr : 0 ≤ r ∧ r ≤ 1) (hg : 0 ≤ g ∧ g ≤ 1) (hb : 0 ≤ b ∧ b ≤ 1) (ha : 0 ≤ a ∧ a ≤ 1) :
    ∃ x, color_converter.rgb_deep_to_grey_deep c = some x ∧
      x.get_color_type = color_type.GREY_DEEP ∧
      grey_deepcolor.grey x = some (F.fin ((r + g + b) / 3)) ∧
      grey_deepcolor.alpha x = some (F.fin a) ∧ x.m_component_vector.length = 2 :=
  ⟨_, rgb_deep_to_grey_deep_eq c r g b a hv hr hg hb ha, rfl, rfl, rfl, rfl⟩

/-- Witness of C22: the sample colour `rgb_deepcolor(0.25, 0.5, 0.75, 1)`, whose
grey value is `0.5`. -/
theorem rgb_deep_to_grey_deep_average_witness :
    sample_rgb_deepcolor.get_color_type = color_type.RGB_DEEP ∧
      ∃ x, color_converter.rgb_deep_to_grey_deep sample_rgb_deepcolor = some x ∧
        x.get_color_type = color_type.GREY_DEEP ∧
        grey_deepcolor.grey x = some (F.fin ((1 / 4 + 1 / 2 + 3 / 4) / 3)) ∧
        grey_deepcolor.alpha x = some (F.fin 1) ∧ x.m_component_vector.length = 2 :=
  ⟨rfl,
    rgb_deep_to_grey_deep_average sample_rgb_deepcolor (1 / 4) (1 / 2) (3 / 4) 1 rfl rfl
      ⟨by norm_num, by norm_num⟩ ⟨by norm_num, by norm_num⟩ ⟨by norm_num, by norm_num⟩
      ⟨by norm_num, by norm_num⟩⟩

/-! ## Assignment -/

/-- C25, as stated, fails: the colour tagged `RGB_DEEP` with the components
`(NaN, 0, 0, 1)` is an `rgb_deepcolor` value, built by
`rgb_deepcolor(const color_base&)`, and after `a = b` with this `b` the colour
`a = rgb_deepcolor(0.25, 0.5, 0.75, 1)` does not compare equal to `b`. -/
theorem assignment_equal_counterexample :
    rgb_deepcolor.obtained sample_rgb_deepcolor ∧ rgb_deepcolor.obtained sample_base_nan ∧
      opEq (rgb_deepcolor.assign sample_rgb_deepcolor sample_base_nan) sample_base_nan
        = false :=
  ⟨rgb_deepcolor.obtained.by_ctor _ _ _ _ none _ sample_rgb_deepcolor_built,
    rgb_deepcolor.obtained.by_ctor_base sample_base_nan sample_base_nan rfl, rfl⟩

/-- C25, amended. Assignment copies the right-hand colour: for every two
`rgb_deepcolor` (or two `hsv`) values `a` and `b`, after `a = b` the colour `a`
has the tag and the components of `b` and the component max and min of `b`,
and it compares equal to `b` under `operator==` exactly when no component of
`b` is NaN; the right-hand side is a constant reference, which the assignment
cannot change; assigning a colour to itself leaves it unchanged. -/
theorem assignment_copies (a b : color_base) :
    ((opEq (rgb_deepcolor.assign a b) b = true ↔ ∀ x ∈ b.m_component_vector, x ≠ F.nan) ∧
        (rgb_deepcolor.assign a b).get_color_type = b.get_color_type ∧
        (rgb_deepcolor.assign a b).m_component_vector = b.m_component_vector ∧
        (rgb_deepcolor.assign a b).get_component_max = b.get_component_max ∧
        (rgb_deepcolor.assign a b).get_component_min = b.get_component_min ∧
        rgb_deepcolor.assign b b = b) ∧
      ((opEq (hsv.assign a b) b = true ↔ ∀ x ∈ b.m_component_vector, x ≠ F.nan) ∧
        (hsv.assign a b).get_color_type = b.get_color_type ∧
        (hsv.assign a b).m_component_vector = b.m_component_vector ∧
        (hsv.assign a b).get_component_max = b.get_component_max ∧
        (hsv.assign a b).get_component_min = b.get_component_min ∧
        hsv.assign b b = b) :=
  ⟨⟨opEq_same_vector_iff _ b rfl rfl, rfl, rfl, rfl, rfl, (assign_self b).1⟩,
    ⟨opEq_same_vector_iff _ b rfl rfl, rfl, rfl, rfl, rfl, (assign_self b).2⟩⟩

/-- Witness of C25, amended: the sample colours `rgb_deepcolor(0.25, 0.5, 0.75, 1)`
and `rgb_deepcolor(1, 0, 0, 1)`. -/
theorem assignment_copies_witness :
    opEq (rgb_deepcolor.assign sample_rgb_deepcolor sample_rgb_deep_red)
        sample_rgb_deep_red = true ∧
      (rgb_deepcolor.assign sample_rgb_deepcolor sample_rgb_deep_red).m_component_vector =
        [F.fin 1, F.fin 0, F.fin 0, F.fin 1] ∧
      rgb_deepcolor.assign sample_rgb_deep_red sample_rgb_deep_red = sample_rgb_deep_red :=
  ⟨(assignment_copies sample_rgb_deepcolor sample_rgb_deep_red).1.1.mpr
      (by simp [sample_rgb_deep_red]),
    (assignment_copies sample_rgb_deepcolor sample_rgb_deep_red).1.2.2.1,
    (assignment_copies sample_rgb_deepcolor sample_rgb_deep_red).1.2.2.2.2.2⟩

/-! ## The hue setter on non-negative and on negative arguments -/

/-- The hue setter on an `hsv` colour stores the truncating remainder floored at 0. -/
theorem set_hue_eq (c : color_base) (q : ℚ) (hc : hsv.declared c)
    (hlo : -2147483649 < q) (hhi : q < 2147483648) :
    ∃ c1, hsv.set_hue c (F.fin q) = some c1 ∧
      hsv.hue c1 = some (F.fin (max ((Int.tmod (F.trunc q) 360 : Int) : ℚ) 0)) := by
  obtain ⟨_, hl, _, _⟩ := hc
  have h0 : 0 < c.m_component_vector.length := by omega
  refine ⟨_, ?_, load_store_same c 0 _ h0⟩
  rw [hsv.set_hue, F.toInt_fin q hlo hhi]
  simp only [Option.bind_eq_bind, Option.some_bind, set_component_range]
  rw [hue_stored]
  exact store_some c 0 _ h0

/-- The truncating remainder of a number that is not positive is not positive. -/
theorem tmod_nonpos (n : Int) (h : n ≤ 0) : Int.tmod n 360 ≤ 0 := by
  have e : Int.tmod n 360 = -Int.tmod (-n) 360 := by
    rw [Int.tmod_def, Int.tmod_def, Int.neg_tdiv]
    ring
  have h1 : 0 ≤ Int.tmod (-n) 360 := Int.tmod_nonneg 360 (by omega)
  omega

/-- The truncation of a negative rational is not positive. -/
theorem F_trunc_nonpos (q : ℚ) (h : q < 0) : F.trunc q ≤ 0 := by
  have h0 : (0 : ℚ) ≤ -q := by linarith
  have e : F.trunc q = -⌊-q⌋ := by
    rw [← F.trunc_of_nonneg (-q) h0, F.trunc_neg, neg_neg]
  have h1 : (0 : Int) ≤ ⌊-q⌋ := Int.floor_nonneg.mpr h0
  omega

/-- C26. Hue normalisation for non-negative input: for every `hsv` colour and
every `h` with `0 <= h < 2^31`, the call `hue(h)` is defined and afterwards
the getter returns `floor(h) mod 360`: the fractional part is discarded and
whole turns are removed; the degrees bounds are 0 and 360. -/
theorem hue_normalisation_nonneg (c : color_base) (q : ℚ) (hc : hsv.declared c)
    (h0 : 0 ≤ q) (h1 : q < 2147483648) :
    ∃ c1, hsv.set_hue c (F.fin q) = some c1 ∧
      hsv.hue c1 = some (F.fin ((⌊q⌋ % 360 : Int) : ℚ)) := by
  obtain ⟨c1, e1, e2⟩ := set_hue_eq c q hc (by linarith) h1
  refine ⟨c1, e1, ?_⟩
  have hf : (0 : Int) ≤ ⌊q⌋ := Int.floor_nonneg.mpr h0
  have hm : (0 : Int) ≤ ⌊q⌋ % 360 := Int.emod_nonneg _ (by decide)
  have hq : (0 : ℚ) ≤ ((⌊q⌋ % 360 : Int) : ℚ) := by exact_mod_cast hm
  rw [e2, F.trunc_of_nonneg q h0, Int.tmod_eq_emod hf (by decide), max_eq_left hq]

/-- Witness of C26: on the sample colour `hsv(120, 0.5, 0.25)`, `359.9` is stored
as `359`, `360` as `0` and `400` as `40`. -/
theorem hue_normalisation_nonneg_witness :
    hsv.declared sample_hsv ∧
      (∃ c1, hsv.set_hue sample_hsv (F.fin (3599 / 10)) = some c1 ∧
        hsv.hue c1 = some (F.fin 359)) ∧
      (∃ c1, hsv.set_hue sample_hsv (F.fin 360) = some c1 ∧ hsv.hue c1 = some (F.fin 0)) ∧
      (∃ c1, hsv.set_hue sample_hsv (F.fin 400) = some c1 ∧ hsv.hue c1 = some (F.fin 40)) := by
  have f1 : ⌊(3599 / 10 : ℚ)⌋ = 359 := by norm_num
  have f2 : ⌊(360 : ℚ)⌋ = 360 := by norm_num
  have f3 : ⌊(400 : ℚ)⌋ = 400 := by norm_num
  have w1 := hue_normalisation_nonneg sample_hsv (3599 / 10) ⟨rfl, rfl, rfl, rfl⟩
    (by norm_num) (by norm_num)
  have w2 := hue_normalisation_nonneg sample_hsv 360 ⟨rfl, rfl, rfl, rfl⟩
    (by norm_num) (by norm_num)
  have w3 := hue_normalisation_nonneg sample_hsv 400 ⟨rfl, rfl, rfl, rfl⟩
    (by norm_num) (by norm_num)
  rw [f1] at w1
  rw [f2] at w2
  rw [f3] at w3
  norm_num at w1 w2 w3
  exact ⟨⟨rfl, rfl, rfl, rfl⟩, w1, w2, w3⟩

/-- C27. Negative hues collapse to the minimum instead of wrapping: for every
`hsv` colour and every `h` with `-2^31 < h < 0`, the call `hue(h)` is defined
and afterwards the getter returns 0, the degrees minimum: the truncating
remainder keeps the sign of `h` and is then clamped. -/
theorem negative_hue_collapses (c : color_base) (q : ℚ) (hc : hsv.declared c)
    (h0 : -2147483648 < q) (h1 : q < 0) :
    ∃ c1, hsv.set_hue c (F.fin q) = some c1 ∧ hsv.hue c1 = some (F.fin 0) := by
  obtain ⟨c1, e1, e2⟩ := set_hue_eq c q hc (by linarith) (by linarith)
  refine ⟨c1, e1, ?_⟩
  have hm : Int.tmod (F.trunc q) 360 ≤ 0 := tmod_nonpos _ (F_trunc_nonpos q h1)
  have hq : ((Int.tmod (F.trunc q) 360 : Int) : ℚ) ≤ 0 := by exact_mod_cast hm
  rw [e2, max_eq_right hq]

/-- Witness of C27: on the sample colour `hsv(120, 0.5, 0.25)`, `-30` is stored
as `0`. -/
theorem negative_hue_collapses_witness :
    hsv.declared sample_hsv ∧ (-2147483648 : ℚ) < -30 ∧ (-30 : ℚ) < 0 ∧
      ∃ c1, hsv.set_hue sample_hsv (F.fin (-30)) = some c1 ∧ hsv.hue c1 = some (F.fin 0) :=
  ⟨⟨rfl, rfl, rfl, rfl⟩, by norm_num, by norm_num,
    negative_hue_collapses sample_hsv (-30) ⟨rfl, rfl, rfl, rfl⟩ (by norm_num)
      (by norm_num)⟩

/-! ## Writing the components back -/

/-- Clamping to `[0, 1]` twice is clamping once. -/
theorem clamp_unit_idem (x : F) :
    clamp (clamp x (F.fin 1) (F.fin 0)) (F.fin 1) (F.fin 0) = clamp x (F.fin 1) (F.fin 0) := by
  obtain ⟨q, hq, h0, h1⟩ := clamp_within x 0 1 zero_le_one
  rw [hq, clamp_unit_of_bounds q h0 h1]

/-- The hue that the setters store is stored unchanged when written again. -/
theorem hue_stored_idem (i : Int) :
    max ((Int.tmod (F.trunc (max ((Int.tmod i 360 : Int) : ℚ) 0)) 360 : Int) : ℚ) 0 =
      max ((Int.tmod i 360 : Int) : ℚ) 0 := by
  have h : Int.tmod i 360 < 360 := Int.tmod_lt_of_pos i (by decide)
  have hk : max ((Int.tmod i 360 : Int) : ℚ) 0 = ((max (Int.tmod i 360) 0 : Int) : ℚ) := by
    rw [Int.cast_max, Int.cast_zero]
  rw [hk]
  exact hue_stored_whole (max (Int.tmod i 360) 0) (le_max_right _ _) (max_lt h (by decide))

/-- C28. Hue normalisation is idempotent: for every `hsv` colour `c` built by
`hsv(h, s, v)`, with any `h` whose truncation fits an `int` and any `s` and
`v`, writing a component back through its own setter (`c.hue(c.hue())`,
`c.saturation(c.saturation())`, `c.value(c.value())`) is defined and leaves
`c` what it was; `c` is equal to itself under `operator==`. -/
theorem hue_normalisation_idempotent (q : ℚ) (s v : F) (hlo : -2147483649 < q)
    (hhi : q < 2147483648) :
    ∃ c, hsv.ctor (F.fin q) s v = some c ∧
      (∃ h, hsv.hue c = some h ∧ hsv.set_hue c h = some c) ∧
      (∃ x, hsv.saturation c = some x ∧ hsv.set_saturation c x = some c) ∧
      (∃ x, hsv.value c = some x ∧ hsv.set_value c x = some c) ∧
      (∃ h x y c1 c2, hsv.hue c = some h ∧ hsv.saturation c = some x ∧
        hsv.value c = some y ∧ hsv.set_hue c h = some c1 ∧
        hsv.set_saturation c1 x = some c2 ∧ hsv.set_value c2 y = some c) ∧
      opEq c c = true := by
  have hr := hue_stored_range (F.trunc q)
  have e1 : hsv.set_hue
      { m_type := color_type.HSV
        m_component_vector := [F.fin (max ((Int.tmod (F.trunc q) 360 : Int) : ℚ) 0),
          clamp s (F.fin 1) (F.fin 0), clamp v (F.fin 1) (F.fin 0)]
        m_max := F.fin 1
        m_min := F.fin 0
        m_reference_white := none }
      (F.fin (max ((Int.tmod (F.trunc q) 360 : Int) : ℚ) 0)) = some
      { m_type := color_type.HSV
        m_component_vector := [F.fin (max ((Int.tmod (F.trunc q) 360 : Int) : ℚ) 0),
          clamp s (F.fin 1) (F.fin 0), clamp v (F.fin 1) (F.fin 0)]
        m_max := F.fin 1
        m_min := F.fin 0
        m_reference_white := none } := by
    rw [hsv.set_hue, F.toInt_fin _ (by linarith [hr.1]) (by linarith [hr.2])]
    simp only [Option.bind_eq_bind, Option.some_bind, set_component_range]
    rw [hue_stored, hue_stored_idem]
    rfl
  have e2 : hsv.set_saturation
      { m_type := color_type.HSV
        m_component_vector := [F.fin (max ((Int.tmod (F.trunc q) 360 : Int) : ℚ) 0),
          clamp s (F.fin 1) (F.fin 0), clamp v (F.fin 1) (F.fin 0)]
        m_max := F.fin 1
        m_min := F.fin 0
        m_reference_white := none }
      (clamp s (F.fin 1) (F.fin 0)) = some
      { m_type := color_type.HSV
        m_component_vector := [F.fin (max ((Int.tmod (F.trunc q) 360 : Int) : ℚ) 0),
          clamp s (F.fin 1) (F.fin 0), clamp v (F.fin 1) (F.fin 0)]
        m_max := F.fin 1
        m_min := F.fin 0
        m_reference_white := none } := by
    rw [hsv.set_saturation, set_component]
    simp only [clamp_unit_idem]
    rfl
  have e3 : hsv.set_value
      { m_type := color_type.HSV
        m_component_vector := [F.fin (max ((Int.tmod (F.trunc q) 360 : Int) : ℚ) 0),
          clamp s (F.fin 1) (F.fin 0), clamp v (F.fin 1) (F.fin 0)]
        m_max := F.fin 1
        m_min := F.fin 0
        m_reference_white := none }
      (clamp v (F.fin 1) (F.fin 0)) = some
      { m_type := color_type.HSV
        m_component_vector := [F.fin (max ((Int.tmod (F.trunc q) 360 : Int) : ℚ) 0),
          clamp s (F.fin 1) (F.fin 0), clamp v (F.fin 1) (F.fin 0)]
        m_max := F.fin 1
        m_min := F.fin 0
        m_reference_white := none } := by
    rw [hsv.set_value, set_component]
    simp only [clamp_unit_idem]
    rfl
  refine ⟨_, hsv_ctor_eq q s v hlo hhi, ⟨_, rfl, e1⟩, ⟨_, rfl, e2⟩, ⟨_, rfl, e3⟩,
    ⟨_, _, _, _, _, rfl, rfl, rfl, e1, e2, e3⟩, ?_⟩
  apply opEq_self
  intro x hx
  simp only [List.mem_cons, List.mem_singleton, List.not_mem_nil, or_false] at hx
  rcases hx with h | h | h
  · rw [h]
    exact fun h => by cases h
  · rw [h]
    exact within_ne_nan _ 0 1 (clamp_within _ 0 1 zero_le_one)
  · rw [h]
    exact within_ne_nan _ 0 1 (clamp_within _ 0 1 zero_le_one)

/-- Witness of C28: the colour `hsv(-30, 2, NaN)`. -/
theorem hue_normalisation_idempotent_witness :
    (-2147483649 : ℚ) < -30 ∧ (-30 : ℚ) < 2147483648 ∧
      ∃ c, hsv.ctor (F.fin (-30)) (F.fin 2) F.nan = some c ∧
        (∃ h, hsv.hue c = some h ∧ hsv.set_hue c h = some c) ∧
        (∃ x, hsv.saturation c = some x ∧ hsv.set_saturation c x = some c) ∧
        (∃ x, hsv.value c = some x ∧ hsv.set_value c x = some c) ∧
        (∃ h x y c1 c2, hsv.hue c = some h ∧ hsv.saturation c = some x ∧
          hsv.value c = some y ∧ hsv.set_hue c h = some c1 ∧
          hsv.set_saturation c1 x = some c2 ∧ hsv.set_value c2 y = some c) ∧
        opEq c c = true :=
  ⟨by norm_num, by norm_num,
    hue_normalisation_idempotent (-30) (F.fin 2) F.nan (by norm_num) (by norm_num)⟩

/-! ## The frame of a setter -/

/-- An element write changes the component of its index only. -/
theorem store_frame (c c1 : color_base) (i : Nat) (v : F) (h : store c i v = some c1) :
    frame_except c c1 i := by
  unfold store at h
  split at h
  · injection h with h
    rw [← h]
    refine ⟨rfl, by simp, rfl, rfl, fun j hj => ?_⟩
    simp only [load]
    rw [List.getElem?_set_ne (Ne.symm hj)]
  · cases h

theorem set_hue_frame (c c1 : color_base) (x : F) (h : hsv.set_hue c x = some c1) :
    frame_except c c1 0 := by
  unfold hsv.set_hue at h
  cases hi : F.toInt x with
  | none => simp [hi] at h
  | some i =>
    simp only [hi, Option.bind_eq_bind, Option.some_bind] at h
    exact store_frame c c1 0 _ h

/-- C29. A setter changes only its own component: for every colour `c` and value
`x`, after a call `c.red(x)` that is defined, the green, blue and alpha
components, the colour-type tag, the number of components and the max and
min bounds are what they were before; likewise for the green, blue and
alpha setters of `rgb_deepcolor` and for the hue, saturation and value
setters of `hsv`, each with respect to the components it does not name. -/
theorem setter_changes_own_component_only (c c1 : color_base) (x : F) :
    (rgb_deepcolor.set_red c x = some c1 →
        frame_except c c1 0 ∧ rgb_deepcolor.green c1 = rgb_deepcolor.green c ∧
          rgb_deepcolor.blue c1 = rgb_deepcolor.blue c ∧
          rgb_deepcolor.alpha c1 = rgb_deepcolor.alpha c) ∧
      (rgb_deepcolor.set_green c x = some c1 →
        frame_except c c1 1 ∧ rgb_deepcolor.red c1 = rgb_deepcolor.red c ∧
          rgb_deepcolor.blue c1 = rgb_deepcolor.blue c ∧
          rgb_deepcolor.alpha c1 = rgb_deepcolor.alpha c) ∧
      (rgb_deepcolor.set_blue c x = some c1 →
        frame_except c c1 2 ∧ rgb_deepcolor.red c1 = rgb_deepcolor.red c ∧
          rgb_deepcolor.green c1 = rgb_deepcolor.green c ∧
          rgb_deepcolor.alpha c1 = rgb_deepcolor.alpha c) ∧
      (rgb_deepcolor.set_alpha c x = some c1 →
        frame_except c c1 3 ∧ rgb_deepcolor.red c1 = rgb_deepcolor.red c ∧
          rgb_deepcolor.green c1 = rgb_deepcolor.green c ∧
          rgb_deepcolor.blue c1 = rgb_deepcolor.blue c) ∧
      (hsv.set_hue c x = some c1 →
        frame_except c c1 0 ∧ hsv.saturation c1 = hsv.saturation c ∧
          hsv.value c1 = hsv.value c) ∧
      (hsv.set_saturation c x = some c1 →
        frame_except c c1 1 ∧ hsv.hue c1 = hsv.hue c ∧ hsv.value c1 = hsv.value c) ∧
      (hsv.set_value c x = some c1 →
        frame_except c c1 2 ∧ hsv.hue c1 = hsv.hue c ∧
          hsv.saturation c1 = hsv.saturation c) := by
  refine ⟨fun h => ?_, fun h => ?_, fun h => ?_, fun h => ?_, fun h => ?_, fun h => ?_,
    fun h => ?_⟩
  · have f := store_frame c c1 0 _ h
    exact ⟨f, f.2.2.2.2 1 (by decide), f.2.2.2.2 2 (by decide), f.2.2.2.2 3 (by decide)⟩
  · have f := store_frame c c1 1 _ h
    exact ⟨f, f.2.2.2.2 0 (by decide), f.2.2.2.2 2 (by decide), f.2.2.2.2 3 (by decide)⟩
  · have f := store_frame c c1 2 _ h
    exact ⟨f, f.2.2.2.2 0 (by decide), f.2.2.2.2 1 (by decide), f.2.2.2.2 3 (by decide)⟩
  · have f := store_frame c c1 3 _ h
    exact ⟨f, f.2.2.2.2 0 (by decide), f.2.2.2.2 1 (by decide), f.2.2.2.2 2 (by decide)⟩
  · have f := set_hue_frame c c1 x h
    exact ⟨f, f.2.2.2.2 1 (by decide), f.2.2.2.2 2 (by decide)⟩
  · have f := store_frame c c1 1 _ h
    exact ⟨f, f.2.2.2.2 0 (by decide), f.2.2.2.2 2 (by decide)⟩
  · have f := store_frame c c1 2 _ h
    exact ⟨f, f.2.2.2.2 0 (by decide), f.2.2.2.2 1 (by decide)⟩

/-- Witness of C29: the call `red(7)` on the sample colour
`rgb_deepcolor(0.25, 0.5, 0.75, 1)`. -/
theorem setter_changes_own_component_only_witness :
    ∃ c1, rgb_deepcolor.set_red sample_rgb_deepcolor (F.fin 7) = some c1 ∧
      frame_except sample_rgb_deepcolor c1 0 ∧
      rgb_deepcolor.green c1 = some (F.fin (1 / 2)) ∧
      rgb_deepcolor.blue c1 = some (F.fin (3 / 4)) ∧
      rgb_deepcolor.alpha c1 = some (F.fin 1) :=
  have h0 : 0 < sample_rgb_deepcolor.m_component_vector.length := by decide
  have hs := store_some sample_rgb_deepcolor 0
    (clamp (F.fin 7) sample_rgb_deepcolor.m_max sample_rgb_deepcolor.m_min) h0
  have f := (setter_changes_own_component_only sample_rgb_deepcolor _ (F.fin 7)).1 hs
  ⟨_, hs, f.1, f.2.1, f.2.2.1, f.2.2.2⟩

/-! ## Equality as an equivalence relation -/

theorem F_eq_symm (a b : F) (h : F.eq a b = true) : F.eq b a = true := by
  cases a <;> cases b <;> simp_all [F.eq, eq_comm]

theorem F_eq_trans (a b c : F) (h1 : F.eq a b = true) (h2 : F.eq b c = true) :
    F.eq a c = true := by
  cases a <;> cases b <;> cases c <;> simp_all [F.eq]

/-- C30. Equality is an equivalence relation on colours: `x == x` holds for every
colour without a NaN component, `x == y` implies `y == x`, and `x == y`
together with `y == z` implies `x == z`. -/
theorem equality_is_equivalence :
    (∀ x : color_base, (∀ c ∈ x.m_component_vector, c ≠ F.nan) → opEq x x = true) ∧
      (∀ x y : color_base, opEq x y = true → opEq y x = true) ∧
      (∀ x y z : color_base, opEq x y = true → opEq y z = true → opEq x z = true) := by
  refine ⟨fun x hn => opEq_self x hn, fun x y h => ?_, fun x y z h1 h2 => ?_⟩
  · obtain ⟨ht, hl, hc⟩ := (opEq_true_iff x y).mp h
    exact (opEq_true_iff y x).mpr
      ⟨ht.symm, hl.symm, fun i h1 h2 => F_eq_symm _ _ (hc i h2 h1)⟩
  · obtain ⟨ht1, hl1, hc1⟩ := (opEq_true_iff x y).mp h1
    obtain ⟨ht2, hl2, hc2⟩ := (opEq_true_iff y z).mp h2
    exact (opEq_true_iff x z).mpr
      ⟨ht1.trans ht2, hl1.trans hl2,
        fun i h1 h2 => F_eq_trans _ _ _ (hc1 i h1 (hl1 ▸ h1)) (hc2 i (hl1 ▸ h1) h2)⟩

/-- Witness of C30: the sample colour `rgb_deepcolor(1, 0, 0, 1)` and its copy. -/
theorem equality_is_equivalence_witness :
    (∀ c ∈ sample_rgb_deep_red.m_component_vector, c ≠ F.nan) ∧
      opEq sample_rgb_deep_red sample_rgb_deep_red = true ∧
      opEq (rgb_deepcolor.ctor_copy sample_rgb_deep_red) sample_rgb_deep_red = true ∧
      opEq sample_rgb_deep_red (rgb_deepcolor.ctor_copy sample_rgb_deep_red) = true :=
  have hn : ∀ c ∈ sample_rgb_deep_red.m_component_vector, c ≠ F.nan := by
    simp [sample_rgb_deep_red]
  have h1 := equality_is_equivalence.1 sample_rgb_deep_red hn
  have h2 : opEq (rgb_deepcolor.ctor_copy sample_rgb_deep_red) sample_rgb_deep_red = true := h1
  ⟨hn, h1, h2, equality_is_equivalence.2.1 _ _ h2⟩

/-- The sample colour is what `hsv(-30, 2, NaN)` builds: the negative hue is
stored as 0, the saturation 2 as 1, and the NaN value as the maximum 1. -/
theorem sample_hsv_red_built :
    hsv.ctor (F.fin (-30)) (F.fin 2) F.nan = some sample_hsv_red := by
  have t : F.trunc (-30) = -30 := by
    have hn : (-30 : ℚ).num = -30 := by norm_num
    have hd : (-30 : ℚ).den = 1 := by norm_num
    rw [F.trunc, hn, hd]
    decide
  have e : Int.tmod (-30) 360 = -30 := by decide
  have c1 : clamp (F.fin 2) (F.fin 1) (F.fin 0) = F.fin 1 := by
    rw [clamp_fin]
    norm_num
  have c2 : clamp F.nan (F.fin 1) (F.fin 0) = F.fin 1 := by
    simp [clamp, fminf, fmaxf, F.isnan, F.lt]
  rw [hsv_ctor_eq (-30) _ _ (by norm_num) (by norm_num), t, e, c1, c2, sample_hsv_red]
  norm_num

/-! ## Equality and the component bounds -/

/-- The result of `operator==` does not depend on the bounds of either side. -/
theorem opEq_bounds_free (x y : color_base) (mx mn : F) :
    opEq { x with m_max := mx, m_min := mn } y = opEq x y ∧
      opEq x { y with m_max := mx, m_min := mn } = opEq x y :=
  ⟨rfl, rfl⟩

/-- C31, as stated, fails: the colour tagged `RGB_DEEP` with the components
`(NaN, 0, 0, 1)` and the same colour with the max 255 in place of 1 have the
same tag and the same component sequence, and do not compare equal. -/
theorem equality_same_components_counterexample :
    sample_base_nan.get_color_type =
        ({ sample_base_nan with m_max := F.fin 255 } : color_base).get_color_type ∧
      sample_base_nan.m_component_vector =
        ({ sample_base_nan with m_max := F.fin 255 } : color_base).m_component_vector ∧
      opEq sample_base_nan { sample_base_nan with m_max := F.fin 255 } = false :=
  ⟨rfl, rfl, rfl⟩

/-- C31, amended. Equality ignores the component bounds: the result of
`operator==` is the same whatever max and min are stored in either colour,
and two colours with the same colour-type tag and the same component sequence
compare equal under `operator==` exactly when no component is NaN, whatever
their max and min are. -/
theorem equality_ignores_bounds (x y : color_base) (mx mn : F) :
    (opEq { x with m_max := mx, m_min := mn } y = opEq x y ∧
        opEq x { y with m_max := mx, m_min := mn } = opEq x y) ∧
      (x.get_color_type = y.get_color_type → x.m_component_vector = y.m_component_vector →
        (opEq x y = true ↔ ∀ c ∈ x.m_component_vector, c ≠ F.nan)) := by
  refine ⟨opEq_bounds_free x y mx mn, fun ht hv => ?_⟩
  rw [hv]
  exact opEq_same_vector_iff x y ht hv

/-- Witness of C31, amended: the sample colour `rgb_deepcolor(1, 0, 0, 1)` and the same
components with the bounds `[0, 255]`; and the base values `icolor(4)` and
`icolor(4, 255, 0)`, which hold the same four placeholders. -/
theorem equality_ignores_bounds_witness :
    (({ sample_rgb_deep_red with m_max := F.fin 255 } : color_base).get_component_max ≠
          sample_rgb_deep_red.get_component_max ∧
        opEq sample_rgb_deep_red { sample_rgb_deep_red with m_max := F.fin 255 } = true) ∧
      (color_base.ctor none 4 (F.fin 255) (F.fin 0)).get_component_max ≠
          (color_base.ctor none 4 default_component_max
            default_component_min).get_component_max ∧
        opEq (color_base.ctor none 4 default_component_max default_component_min)
          (color_base.ctor none 4 (F.fin 255) (F.fin 0)) = true :=
  ⟨⟨by
      intro h
      simp [color_base.get_component_max, sample_rgb_deep_red] at h,
    ((equality_ignores_bounds sample_rgb_deep_red
      { sample_rgb_deep_red with m_max := F.fin 255 } (F.fin 1) (F.fin 0)).2 rfl rfl).mpr
      (by simp [sample_rgb_deep_red])⟩,
    by
      intro h
      simp [color_base.get_component_max, color_base.ctor, default_component_max] at h,
    ((equality_ignores_bounds
      (color_base.ctor none 4 default_component_max default_component_min)
      (color_base.ctor none 4 (F.fin 255) (F.fin 0)) (F.fin 1) (F.fin 0)).2 rfl rfl).mpr
      (by simp [color_base.ctor, push_back_loop])⟩

/-! ## The base constructor -/

theorem push_back_loop_eq (n : Int) (fuel : Nat) :
    ∀ (i : Int) (v : List F), (n - i).toNat ≤ fuel →
      push_back_loop n fuel i v = v ++ List.replicate (n - i).toNat (F.fin (-1)) := by
  induction fuel with
  | zero =>
    intro i v h
    have h0 : (n - i).toNat = 0 := Nat.le_zero.mp h
    simp [push_back_loop, h0]
  | succ fuel ih =>
    intro i v h
    unfold push_back_loop
    by_cases hi : i < n
    · rw [if_pos hi]
      have e : (n - i).toNat = (n - (i + 1)).toNat + 1 := by omega
      rw [ih (i + 1) (v ++ [F.fin (-1)]) (by omega), e, List.replicate_succ]
      simp
    · rw [if_neg hi]
      have h0 : (n - i).toNat = 0 := by omega
      simp [h0]

theorem color_base_ctor_vector (ref : Option reference_white) (n : Int) (max min : F) :
    (color_base.ctor ref n max min).m_component_vector =
      List.replicate n.toNat (F.fin (-1)) := by
  show push_back_loop n n.toNat 0 [] = _
  rw [push_back_loop_eq n n.toNat 0 [] (by simp)]
  simp

theorem color_base_ctor_length (ref : Option reference_white) (n : Int) (max min : F) :
    (color_base.ctor ref n max min).m_component_vector.length = n.toNat := by
  rw [color_base_ctor_vector]
  simp

theorem placeholder_outside_unit : ¬ (F.fin (-1)).within 0 1 := by
  rintro ⟨q, hq, h0, _⟩
  injection hq with hq
  rw [← hq] at h0
  norm_num at h0

/-- C33. The base constructor fills placeholders: `icolor(n, max, min)` creates a
colour whose component vector is `n` copies of -1 (so its length is `n` when
`n >= 0` and it is empty when `n <= 0`), with the tag `UNDEFINED` and with the
given max and min stored as bounds; with the default bounds `[0, 1]` every
placeholder lies outside the declared range, and a setter call on a position
below `n` replaces the placeholder there by a value inside `[0, 1]`. -/
theorem base_constructor_fills_placeholders (ref : Option reference_white) (n : Int)
    (max min : F) :
    (color_base.ctor ref n max min).m_component_vector = List.replicate n.toNat (F.fin (-1)) ∧
      (0 ≤ n → ((color_base.ctor ref n max min).m_component_vector.length : Int) = n) ∧
      (n ≤ 0 → (color_base.ctor ref n max min).m_component_vector = []) ∧
      (∀ x ∈ (color_base.ctor ref n max min).m_component_vector, x = F.fin (-1)) ∧
      (color_base.ctor ref n max min).get_color_type = color_type.UNDEFINED ∧
      (color_base.ctor ref n max min).get_component_max = max ∧
      (color_base.ctor ref n max min).get_component_min = min ∧
      (∀ x ∈ (color_base.ctor ref n default_component_max
          default_component_min).m_component_vector, ¬ x.within 0 1) ∧
      (∀ (i : Nat) (x : F), (i : Int) < n →
        ∃ c1 y, set_component
            (color_base.ctor ref n default_component_max default_component_min) x i = some c1 ∧
          load c1 i = some y ∧ y.within 0 1) := by
  refine ⟨color_base_ctor_vector ref n max min, fun h => ?_, fun h => ?_, fun x hx => ?_,
    rfl, rfl, rfl, fun x hx => ?_, fun i x hi => ?_⟩
  · rw [color_base_ctor_length]
    exact Int.toNat_of_nonneg h
  · rw [color_base_ctor_vector, Int.toNat_eq_zero.mpr h]
    rfl
  · rw [color_base_ctor_vector] at hx
    exact List.eq_of_mem_replicate hx
  · rw [color_base_ctor_vector] at hx
    rw [List.eq_of_mem_replicate hx]
    exact placeholder_outside_unit
  · have hl : i < (color_base.ctor ref n default_component_max
        default_component_min).m_component_vector.length := by
      rw [color_base_ctor_length]
      omega
    obtain ⟨c1, h1, h2⟩ := set_component_load _ x i hl
    exact ⟨c1, _, h1, h2, clamp_within x 0 1 zero_le_one⟩

/-- Witness of C33: `icolor(4)` with the default bounds holds four placeholders -1,
and a setter call writing 5 at position 2 leaves a value inside `[0, 1]`
there. -/
theorem base_constructor_fills_placeholders_witness :
    (color_base.ctor none 4 default_component_max default_component_min).m_component_vector =
        [F.fin (-1), F.fin (-1), F.fin (-1), F.fin (-1)] ∧
      ((color_base.ctor none 4 default_component_max
          default_component_min).m_component_vector.length : Int) = 4 ∧
      (color_base.ctor none 0 default_component_max default_component_min).m_component_vector
        = [] ∧
      ∃ c1 y, set_component
          (color_base.ctor none 4 default_component_max default_component_min) (F.fin 5) 2
            = some c1 ∧
        load c1 2 = some y ∧ y.within 0 1 :=
  ⟨(base_constructor_fills_placeholders none 4 default_component_max
      default_component_min).1,
    (base_constructor_fills_placeholders none 4 default_component_max
      default_component_min).2.1 (by decide),
    (base_constructor_fills_placeholders none 0 default_component_max
      default_component_min).2.2.1 (by decide),
    (base_constructor_fills_placeholders none 4 default_component_max
      default_component_min).2.2.2.2.2.2.2.2 2 (F.fin 5) (by decide)⟩

/-! ## Clamping with inverted bounds -/

theorem clamp_inverted (x max min : F) (h : F.lt max min = true) :
    clamp x max min = min := by
  cases max with
  | nan => simp [F.lt] at h
  | pinf => simp [F.lt] at h
  | ninf =>
    cases min with
    | nan => simp [F.lt] at h
    | ninf => simp [F.lt] at h
    | fin b => cases x <;> simp [clamp, fminf, fmaxf, F.isnan, F.lt]
    | pinf => cases x <;> simp [clamp, fminf, fmaxf, F.isnan, F.lt]
  | fin a =>
    cases min with
    | nan => simp [F.lt] at h
    | ninf => simp [F.lt] at h
    | pinf =>
      cases x with
      | nan => simp [clamp, fminf, fmaxf, F.isnan, F.lt]
      | ninf => simp [clamp, fminf, fmaxf, F.isnan, F.lt]
      | pinf => simp [clamp, fminf, fmaxf, F.isnan, F.lt]
      | fin q => by_cases hq : a < q <;> simp [clamp, fminf, fmaxf, F.isnan, F.lt, hq]
    | fin b =>
      simp only [F.lt, decide_eq_true_eq] at h
      cases x with
      | nan => simp [clamp, fminf, fmaxf, F.isnan, F.lt, h]
      | ninf => simp [clamp, fminf, fmaxf, F.isnan, F.lt]
      | pinf => simp [clamp, fminf, fmaxf, F.isnan, F.lt, h]
      | fin q =>
        by_cases hq : a < q
        · simp [clamp, fminf, fmaxf, F.isnan, F.lt, hq, h]
        · have hqb : q < b := lt_of_le_of_lt (not_lt.mp hq) h
          simp [clamp, fminf, fmaxf, F.isnan, F.lt, hq, hqb]

/-- C35. Clamping with inverted bounds returns the minimum: for every value `x`
(NaN and the infinities included) and every pair of bounds with `max < min`,
`icolor::clamp(x, max, min)` returns `min`; so on a colour built by
`icolor(n, max, min)` with such bounds, and on every colour that stores such
bounds, a setter call on a position inside the vector stores `min` there,
whatever value is written. -/
theorem clamp_inverted_bounds_returns_min (x max min : F) (h : F.lt max min = true) :
    clamp x max min = min ∧
      (∀ (ref : Option reference_white) (n : Int) (i : Nat), (i : Int) < n →
        ∃ c1, set_component (color_base.ctor ref n max min) x i = some c1 ∧
          load c1 i = some min) ∧
      (∀ (c : color_base) (i : Nat), c.m_max = max → c.m_min = min →
        i < c.m_component_vector.length →
        ∃ c1, set_component c x i = some c1 ∧ load c1 i = some min) := by
  have key : ∀ (c : color_base) (i : Nat), c.m_max = max → c.m_min = min →
      i < c.m_component_vector.length →
      ∃ c1, set_component c x i = some c1 ∧ load c1 i = some min := by
    intro c i hmax hmin hi
    obtain ⟨c1, h1, h2⟩ := set_component_load c x i hi
    rw [hmax, hmin, clamp_inverted x max min h] at h2
    exact ⟨c1, h1, h2⟩
  refine ⟨clamp_inverted x max min h, fun ref n i hi => ?_, key⟩
  refine key _ i rfl rfl ?_
  rw [color_base_ctor_length]
  omega

/-- Witness of C35: with the bounds swapped (max 0, min 1) the value 1/2 is clamped
to 1, and written at position 0 of `icolor(4, 0, 1)` it is stored as 1. -/
theorem clamp_inverted_bounds_returns_min_witness :
    F.lt (F.fin 0) (F.fin 1) = true ∧
      clamp (F.fin (1 / 2)) (F.fin 0) (F.fin 1) = F.fin 1 ∧
      ∃ c1, set_component (color_base.ctor none 4 (F.fin 0) (F.fin 1)) (F.fin (1 / 2)) 0
          = some c1 ∧
        load c1 0 = some (F.fin 1) :=
  ⟨by simp [F.lt],
    (clamp_inverted_bounds_returns_min (F.fin (1 / 2)) (F.fin 0) (F.fin 1)
      (by simp [F.lt])).1,
    (clamp_inverted_bounds_returns_min (F.fin (1 / 2)) (F.fin 0) (F.fin 1)
      (by simp [F.lt])).2.1 none 4 0 (by decide)⟩

/-! ## Construction from a base value -/

theorem rgb_deepcolor_ctor_base_ok (other c : color_base)
    (h : rgb_deepcolor.ctor_base other = Except.ok c) :
    other.get_color_type = color_type.RGB_DEEP ∧
      c = { other with m_type := color_type.RGB_DEEP } := by
  unfold rgb_deepcolor.ctor_base at h
  by_cases hg : other.get_color_type = color_type.RGB_DEEP ∧
      other.m_component_vector.length = 4
  · simp only [hg, and_self, if_true, Except.ok.injEq] at h
    exact ⟨hg.1, h.symm⟩
  · simp [hg] at h

theorem hsv_ctor_base_ok (other c : color_base)
    (h : hsv.ctor_base other = Except.ok c) :
    other.get_color_type = color_type.HSV ∧
      c.m_type = color_type.HSV ∧ c.m_component_vector = other.m_component_vector ∧
      c.m_max = other.m_max ∧ c.m_min = other.m_min := by
  unfold hsv.ctor_base at h
  by_cases hg : other.get_color_type = color_type.HSV ∧ other.m_component_vector.length = 3
  · simp only [hg, and_self, if_true, Except.ok.injEq] at h
    rw [← h]
    exact ⟨hg.1, rfl, rfl, rfl, rfl⟩
  · simp [hg] at h

/-- C32, as stated, fails: `rgb_deepcolor(const color_base& other)` returns
normally on the base value tagged `RGB_DEEP` with the components
`(NaN, 0, 0, 1)`, and the new colour does not compare equal to `other`. -/
theorem base_copy_equal_counterexample :
    ∃ c, rgb_deepcolor.ctor_base sample_base_nan = Except.ok c ∧
      opEq c sample_base_nan = false :=
  ⟨sample_base_nan, rfl, rfl⟩

/-- C32, amended. Constructing from a matching base value copies without
re-clamping: whenever `rgb_deepcolor(const color_base& other)` (or
`hsv(const color_base& other)`) returns normally, the new colour has the tag
`RGB_DEEP` (resp. `HSV`), its components are exactly the components of `other`
in the same order, its max and min are those of `other`, and it compares equal
to `other` exactly when no component of `other` is NaN; no clamping is
applied, so a component of `other` outside `[0, 1]` is read back unchanged,
still outside `[0, 1]`, from the result. -/
theorem base_copy_without_clamping (other c : color_base) :
    (rgb_deepcolor.ctor_base other = Except.ok c →
        c.get_color_type = color_type.RGB_DEEP ∧
          c.m_component_vector = other.m_component_vector ∧
          c.get_component_max = other.get_component_max ∧
          c.get_component_min = other.get_component_min ∧
          (opEq c other = true ↔ ∀ x ∈ other.m_component_vector, x ≠ F.nan) ∧
          (∀ (i : Nat) (x : F), load other i = some x → ¬ x.within 0 1 →
            load c i = some x ∧ ¬ x.within 0 1)) ∧
      (hsv.ctor_base other = Except.ok c →
        c.get_color_type = color_type.HSV ∧
          c.m_component_vector = other.m_component_vector ∧
          c.get_component_max = other.get_component_max ∧
          c.get_component_min = other.get_component_min ∧
          (opEq c other = true ↔ ∀ x ∈ other.m_component_vector, x ≠ F.nan) ∧
          (∀ (i : Nat) (x : F), load other i = some x → ¬ x.within 0 1 →
            load c i = some x ∧ ¬ x.within 0 1)) := by
  constructor
  · intro h
    obtain ⟨ht, hc⟩ := rgb_deepcolor_ctor_base_ok other c h
    subst hc
    exact ⟨rfl, rfl, rfl, rfl, opEq_same_vector_iff _ other ht.symm rfl,
      fun i x hx hw => ⟨hx, hw⟩⟩
  · intro h
    obtain ⟨ht, h1, h2, h3, h4⟩ := hsv_ctor_base_ok other c h
    refine ⟨h1, h2, h3, h4, opEq_same_vector_iff c other (h1.trans ht.symm) h2,
      fun i x hx hw => ⟨?_, hw⟩⟩
    unfold load at hx ⊢
    rw [h2]
    exact hx

/-- Witness of C32, amended: the base value tagged `RGB_DEEP` with the components
`(5, 0, 0, 1)` is copied as it is, the 5 is read back from the new colour,
and the new colour compares equal to the base value. -/
theorem base_copy_without_clamping_witness :
    rgb_deepcolor.ctor_base sample_base_out_of_range = Except.ok sample_base_out_of_range ∧
      (load sample_base_out_of_range 0 = some (F.fin 5) ∧ ¬ (F.fin 5).within 0 1) ∧
      opEq sample_base_out_of_range sample_base_out_of_range = true :=
  ⟨rfl,
    ((base_copy_without_clamping sample_base_out_of_range sample_base_out_of_range).1
      rfl).2.2.2.2.2 0 (F.fin 5) rfl (by
        rintro ⟨q, hq, _, h1⟩
        injection hq with hq
        rw [← hq] at h1
        norm_num at h1),
    ((base_copy_without_clamping sample_base_out_of_range sample_base_out_of_range).1
      rfl).2.2.2.2.1.mpr (by simp [sample_base_out_of_range])⟩

/-! ## The round trip from `rgb_deepcolor` through `cmyk` -/

/-- The conversion to `cmyk` of a colour with the colour channels `(0, 0, 0)`,
written out. -/
theorem rgb_deep_to_cmyk_black_eq (c : color_base) (a : F)
    (hv : c.m_component_vector = [F.fin 0, F.fin 0, F.fin 0, a]) :
    color_converter.rgb_deep_to_cmyk c = some
      { m_type := color_type.CMYK
        m_component_vector := [F.fin 0, F.fin 0, F.fin 0, F.fin 1]
        m_max := F.fin 1
        m_min := F.fin 0
        m_reference_white := none } := by
  have hk : fmaxf (fmaxf (F.fin 0) (F.fin 0)) (F.fin 0) = F.fin 0 := by
    rw [fmaxf_fin, fmaxf_fin, max_self, max_self]
  have hb : F.sub (F.fin 1) (F.fin 0) = F.fin 1 := by
    rw [F_sub_fin, sub_zero]
  have hg : color_converter.cmyk_component (F.fin 0) (F.fin 1) = F.fin 0 := by
    simp [color_converter.cmyk_component, F.eq]
  have hc : color_converter.rgb_deep_to_cmyk c =
      cmyk.ctor (F.fin 0) (F.fin 0) (F.fin 0) (F.fin 1) := by
    simp only [color_converter.rgb_deep_to_cmyk, rgb_deepcolor.red, rgb_deepcolor.green,
      rgb_deepcolor.blue, load, hv, List.getElem?_cons_zero, List.getElem?_cons_succ,
      Option.bind_eq_bind, Option.some_bind, hk, hb, hg]
  rw [hc, cmyk_ctor_eq, clamp_unit_of_bounds 0 (le_refl 0) zero_le_one,
    clamp_unit_of_bounds 1 zero_le_one (le_refl 1)]

/-- The formula of the way back undoes the formula of the way there. -/
theorem round_trip_channel (x m : ℚ) (hm : 0 < m) :
    (1 - (1 - x - (1 - m)) / (1 - (1 - m))) * (1 - (1 - m)) = x := by
  have h1 : (1 : ℚ) - (1 - m) = m := by ring
  rw [h1]
  field_simp

/-- C34. RGBDeep to CMYK to RGBDeep recovers the colour channels: for every valid
RGBDeep colour `(r, g, b, a)` the conversion to CMYK is defined, with
`black = 1 - max(r, g, b)`, the conversion of its result back to RGBDeep is
defined, and the colour obtained has red = `r`, green = `g` and blue = `b`
exactly, in exact arithmetic, the all-zero case (black = 1) included. -/
theorem rgb_deep_cmyk_round_trip (c : color_base) (r g b : ℚ) (a : F)
    (_ht : c.get_color_type = color_type.RGB_DEEP)
    (hv : c.m_component_vector = [F.fin r, F.fin g, F.fin b, a])
    (hr : 0 ≤ r ∧ r ≤ 1) (hg : 0 ≤ g ∧ g ≤ 1) (hb : 0 ≤ b ∧ b ≤ 1) :
    ∃ x d, color_converter.rgb_deep_to_cmyk c = some x ∧
      x.get_color_type = color_type.CMYK ∧
      cmyk.black x = some (F.fin (1 - max (max r g) b)) ∧
      color_converter.cmyk_to_rgb_deep x = some d ∧
      d.get_color_type = color_type.RGB_DEEP ∧
      rgb_deepcolor.red d = some (F.fin r) ∧
      rgb_deepcolor.green d = some (F.fin g) ∧
      rgb_deepcolor.blue d = some (F.fin b) := by
  obtain ⟨m1, m2, m3, m4⟩ := max3_bounds r g b hr hg hb
  by_cases hmax : 0 < max (max r g) b
  · obtain ⟨_, c2, c3⟩ := cmyk_component_fin r _ hr.1 m1 hmax
    obtain ⟨_, d2, d3⟩ := cmyk_component_fin g _ hg.1 m2 hmax
    obtain ⟨_, e2, e3⟩ := cmyk_component_fin b _ hb.1 m3 hmax
    have hk : (0 : ℚ) ≤ 1 - max (max r g) b ∧ 1 - max (max r g) b ≤ 1 :=
      ⟨by linarith, by linarith⟩
    refine ⟨_, _, rgb_deep_to_cmyk_eq c r g b a hv hr hg hb hmax, rfl, rfl,
      cmyk_to_rgb_deep_eq _ _ _ _ _ rfl ⟨c2, c3⟩ ⟨d2, d3⟩ ⟨e2, e3⟩ hk, rfl, ?_, ?_, ?_⟩
    · show some (F.fin _) = some (F.fin r)
      rw [round_trip_channel r _ hmax]
    · show some (F.fin _) = some (F.fin g)
      rw [round_trip_channel g _ hmax]
    · show some (F.fin _) = some (F.fin b)
      rw [round_trip_channel b _ hmax]
  · have hm0 : max (max r g) b = 0 :=
      le_antisymm (not_lt.mp hmax) (le_trans hr.1 m1)
    have er : r = 0 := le_antisymm (by linarith) hr.1
    have eg : g = 0 := le_antisymm (by linarith) hg.1
    have eb : b = 0 := le_antisymm (by linarith) hb.1
    subst er
    subst eg
    subst eb
    refine ⟨_, _, rgb_deep_to_cmyk_black_eq c a hv, rfl, ?_,
      cmyk_to_rgb_deep_eq _ 0 0 0 1 rfl ⟨le_refl 0, zero_le_one⟩ ⟨le_refl 0, zero_le_one⟩
        ⟨le_refl 0, zero_le_one⟩ ⟨zero_le_one, le_refl 1⟩, rfl, ?_, ?_, ?_⟩
    · show some (F.fin 1) = some (F.fin _)
      norm_num
    · show some (F.fin _) = some (F.fin 0)
      norm_num
    · show some (F.fin _) = some (F.fin 0)
      norm_num
    · show some (F.fin _) = some (F.fin 0)
      norm_num

/-- Witness of C34: the sample colours `rgb_deepcolor(1/4, 1/2, 3/4, 1)` and
`rgb_deepcolor(0, 0, 0, 1)`, the second being the all-zero case. -/
theorem rgb_deep_cmyk_round_trip_witness :
    (∃ x d, color_converter.rgb_deep_to_cmyk sample_rgb_deepcolor = some x ∧
        x.get_color_type = color_type.CMYK ∧
        cmyk.black x = some (F.fin (1 - max (max (1 / 4) (1 / 2)) (3 / 4))) ∧
        color_converter.cmyk_to_rgb_deep x = some d ∧
        d.get_color_type = color_type.RGB_DEEP ∧
        rgb_deepcolor.red d = some (F.fin (1 / 4)) ∧
        rgb_deepcolor.green d = some (F.fin (1 / 2)) ∧
        rgb_deepcolor.blue d = some (F.fin (3 / 4))) ∧
      ∃ x d, color_converter.rgb_deep_to_cmyk sample_rgb_deep_black = some x ∧
        x.get_color_type = color_type.CMYK ∧
        cmyk.black x = some (F.fin (1 - max (max 0 0) 0)) ∧
        color_converter.cmyk_to_rgb_deep x = some d ∧
        d.get_color_type = color_type.RGB_DEEP ∧
        rgb_deepcolor.red d = some (F.fin 0) ∧
        rgb_deepcolor.green d = some (F.fin 0) ∧
        rgb_deepcolor.blue d = some (F.fin 0) :=
  ⟨rgb_deep_cmyk_round_trip sample_rgb_deepcolor (1 / 4) (1 / 2) (3 / 4) (F.fin 1) rfl rfl
      ⟨by norm_num, by norm_num⟩ ⟨by norm_num, by norm_num⟩ ⟨by norm_num, by norm_num⟩,
    rgb_deep_cmyk_round_trip sample_rgb_deep_black 0 0 0 (F.fin 1) rfl rfl
      ⟨le_refl 0, zero_le_one⟩ ⟨le_refl 0, zero_le_one⟩ ⟨le_refl 0, zero_le_one⟩⟩

/-! ## The gamma helpers -/

theorem rpow_inv_gamma_eq (l : ℝ) (hl : 0 ≤ l) :
    l ^ (1 / 2.4 : ℝ) = (l ^ 5) ^ (((12 : ℕ) : ℝ)⁻¹) := by
  rw [← Real.rpow_natCast l 5, ← Real.rpow_mul hl]
  congr 1
  norm_num

theorem rpow_gamma_eq (x : ℝ) (hx : 0 ≤ x) :
    x ^ (2.4 : ℝ) = (x ^ 12) ^ (((5 : ℕ) : ℝ)⁻¹) := by
  rw [← Real.rpow_natCast x 12, ← Real.rpow_mul hx]
  congr 1
  norm_num

theorem le_rpow_inv_gamma (a l : ℝ) (ha : 0 ≤ a) (hl : 0 ≤ l) (h : a ^ 12 ≤ l ^ 5) :
    a ≤ l ^ (1 / 2.4 : ℝ) := by
  rw [rpow_inv_gamma_eq l hl]
  calc a = (a ^ 12) ^ (((12 : ℕ) : ℝ)⁻¹) :=
        (Real.pow_rpow_inv_natCast ha (by norm_num)).symm
    _ ≤ (l ^ 5) ^ (((12 : ℕ) : ℝ)⁻¹) :=
        Real.rpow_le_rpow (pow_nonneg ha 12) h (by positivity)

theorem rpow_inv_gamma_le (l b : ℝ) (hl : 0 ≤ l) (hb : 0 ≤ b) (h : l ^ 5 ≤ b ^ 12) :
    l ^ (1 / 2.4 : ℝ) ≤ b := by
  rw [rpow_inv_gamma_eq l hl]
  calc (l ^ 5) ^ (((12 : ℕ) : ℝ)⁻¹) ≤ (b ^ 12) ^ (((12 : ℕ) : ℝ)⁻¹) :=
        Real.rpow_le_rpow (pow_nonneg hl 5) h (by positivity)
    _ = b := Real.pow_rpow_inv_natCast hb (by norm_num)

theorem lt_rpow_gamma (a x : ℝ) (ha : 0 ≤ a) (hx : 0 ≤ x) (h : a ^ 5 < x ^ 12) :
    a < x ^ (2.4 : ℝ) := by
  rw [rpow_gamma_eq x hx]
  calc a = (a ^ 5) ^ (((5 : ℕ) : ℝ)⁻¹) :=
        (Real.pow_rpow_inv_natCast ha (by norm_num)).symm
    _ < (x ^ 12) ^ (((5 : ℕ) : ℝ)⁻¹) :=
        Real.rpow_lt_rpow (pow_nonneg ha 5) h (by positivity)

theorem rpow_gamma_le (x b : ℝ) (hx : 0 ≤ x) (hb : 0 ≤ b) (h : x ^ 12 ≤ b ^ 5) :
    x ^ (2.4 : ℝ) ≤ b := by
  rw [rpow_gamma_eq x hx]
  calc (x ^ 12) ^ (((5 : ℕ) : ℝ)⁻¹) ≤ (b ^ 5) ^ (((5 : ℕ) : ℝ)⁻¹) :=
        Real.rpow_le_rpow (pow_nonneg hx 12) h (by positivity)
    _ = b := Real.pow_rpow_inv_natCast hb (by norm_num)

theorem rpow_gamma_inv (x : ℝ) (hx : 0 ≤ x) : (x ^ (2.4 : ℝ)) ^ (1 / 2.4 : ℝ) = x := by
  rw [← Real.rpow_mul hx]
  norm_num

theorem rpow_inv_gamma (l : ℝ) (hl : 0 ≤ l) : (l ^ (1 / 2.4 : ℝ)) ^ (2.4 : ℝ) = l := by
  rw [← Real.rpow_mul hl]
  norm_num

/-- Near the junction of the two branches the power branch of the inverse and
the linear branch differ by less than `1 / 100000`. -/
theorem gamma_junction (l : ℝ) (hA : 3108 / 1000000 ≤ l) (hB : l ≤ 313081 / 100000000) :
    |1.055 * l ^ (1 / 2.4 : ℝ) - 0.055 - 12.92 * l| ≤ 1 / 100000 := by
  have hl : 0 ≤ l := le_trans (by norm_num) hA
  have hp0 : (0 : ℝ) ≤ 1 / 2.4 := by norm_num
  have hp1 : (1 / 2.4 : ℝ) ≤ 1 := by norm_num
  -- lower bound by the chord
  have ya : (901987 / 10000000 : ℝ) ≤ (3108 / 1000000 : ℝ) ^ (1 / 2.4 : ℝ) :=
    le_rpow_inv_gamma _ _ (by norm_num) (by norm_num) (by norm_num)
  have yb : (904739 / 10000000 : ℝ) ≤ (313081 / 100000000 : ℝ) ^ (1 / 2.4 : ℝ) :=
    le_rpow_inv_gamma _ _ (by norm_num) (by norm_num) (by norm_num)
  have yh : (3108 / 1000000 : ℝ) ^ (1 / 2.4 : ℝ) ≤ 225497 / 2500000 :=
    rpow_inv_gamma_le _ _ (by norm_num) (by norm_num) (by norm_num)
  have hw : (0 : ℝ) < 313081 / 100000000 - 3108 / 1000000 := by norm_num
  have ht0 : 0 ≤ (l - 3108 / 1000000) / (313081 / 100000000 - 3108 / 1000000) :=
    div_nonneg (by linarith) (le_of_lt hw)
  have ht1 : (l - 3108 / 1000000) / (313081 / 100000000 - 3108 / 1000000) ≤ 1 := by
    rw [div_le_one hw]
    linarith
  have hconc := (Real.concaveOn_rpow hp0 hp1).2
    (show (3108 / 1000000 : ℝ) ∈ Set.Ici 0 by simp; norm_num)
    (show (313081 / 100000000 : ℝ) ∈ Set.Ici 0 by simp; norm_num)
    (sub_nonneg.mpr ht1) ht0 (by ring)
  simp only [smul_eq_mul] at hconc
  have el : (1 - (l - 3108 / 1000000) / (313081 / 100000000 - 3108 / 1000000)) *
      (3108 / 1000000) + (l - 3108 / 1000000) / (313081 / 100000000 - 3108 / 1000000) *
      (313081 / 100000000) = l := by
    field_simp
    ring
  rw [el] at hconc
  have h1 := mul_le_mul_of_nonneg_left ya (sub_nonneg.mpr ht1)
  have h2 := mul_le_mul_of_nonneg_left yb ht0
  have et : (l - 3108 / 1000000) / (313081 / 100000000 - 3108 / 1000000) =
      (l - 3108 / 1000000) * (100000000 / 2281) := by
    norm_num
    ring
  rw [et] at h1 h2 hconc
  -- upper bound by the tangent at the left end
  have hs : (-1 : ℝ) ≤ l / (3108 / 1000000) - 1 := by
    have : 0 ≤ l / (3108 / 1000000) := div_nonneg hl (by norm_num)
    linarith
  have hbern := rpow_one_add_le_one_add_mul_self hs hp0 hp1
  have e1 : (1 : ℝ) + (l / (3108 / 1000000) - 1) = l / (3108 / 1000000) := by ring
  rw [e1] at hbern
  have esplit : l ^ (1 / 2.4 : ℝ) =
      (3108 / 1000000 : ℝ) ^ (1 / 2.4 : ℝ) * (l / (3108 / 1000000)) ^ (1 / 2.4 : ℝ) := by
    rw [← Real.mul_rpow (by norm_num) (div_nonneg hl (by norm_num))]
    congr 1
    field_simp
    ring
  have hq0 : 0 ≤ (l / (3108 / 1000000)) ^ (1 / 2.4 : ℝ) := Real.rpow_nonneg
    (div_nonneg hl (by norm_num)) _
  have hf0 : (0 : ℝ) ≤ 1 + 1 / 2.4 * (l / (3108 / 1000000) - 1) := le_trans hq0 hbern
  have hup : l ^ (1 / 2.4 : ℝ) ≤
      225497 / 2500000 * (1 + 1 / 2.4 * (l / (3108 / 1000000) - 1)) := by
    rw [esplit]
    exact mul_le_mul yh hbern hq0 (by norm_num)
  have eu : (225497 / 2500000 : ℝ) * (1 + 1 / 2.4 * (l / (3108 / 1000000) - 1)) =
      225497 / 2500000 * (7 / 12) + 225497 / 2500000 * (5 / 12) * (1000000 / 3108) * l := by
    norm_num
    ring
  rw [eu] at hup
  rw [abs_le]
  constructor
  · norm_num at h1 h2 hconc ⊢
    linarith
  · norm_num at hup ⊢
    linarith

/-- Above the threshold 0.04045 the forward helper lands above the image
`0.04045 / 12.92` of the threshold under the linear branch. -/
theorem gamma_power_branch_above (c : ℝ) (h : ¬ c ≤ 0.04045) :
    (0 : ℝ) ≤ (c + 0.055) / 1.055 ∧
      (0.04045 / 12.92 : ℝ) < ((c + 0.055) / 1.055) ^ (2.4 : ℝ) := by
  have h0 : (9545 / 105500 : ℝ) ≤ (c + 0.055) / 1.055 := by
    rw [le_div_iff₀ (by norm_num)]
    norm_num at h ⊢
    linarith
  have hx : (0 : ℝ) ≤ (c + 0.055) / 1.055 := le_trans (by norm_num) h0
  refine ⟨hx, lt_rpow_gamma _ _ (by norm_num) hx ?_⟩
  calc (0.04045 / 12.92 : ℝ) ^ 5 < (9545 / 105500 : ℝ) ^ 12 := by norm_num
    _ ≤ ((c + 0.055) / 1.055) ^ 12 := pow_le_pow_left₀ (by norm_num) h0 12

/-- The forward helper followed by the inverse helper, on a component that the
forward helper sends through its power branch. -/
theorem gamma_round_trip_power (threshold c : ℝ) (hT : threshold ≤ 0.04045 / 12.92)
    (h : ¬ c ≤ 0.04045) :
    color_converter.linear_srgb_deep_to_rgb_deep threshold
      (color_converter.rgb_deep_to_linear_srgb_deep c) = c := by
  obtain ⟨hx, hl⟩ := gamma_power_branch_above c h
  have hn : ¬ ((c + 0.055) / 1.055) ^ (2.4 : ℝ) ≤ threshold := by
    intro h1
    linarith
  rw [color_converter.rgb_deep_to_linear_srgb_deep, if_neg h,
    color_converter.linear_srgb_deep_to_rgb_deep, if_neg hn, rpow_gamma_inv _ hx]
  field_simp

/-- The forward helper followed by the inverse helper, with a threshold between
0.003108 and `0.04045 / 12.92`. -/
theorem gamma_round_trip (threshold c : ℝ) (hT0 : 3108 / 1000000 ≤ threshold)
    (hT : threshold ≤ 0.04045 / 12.92) :
    |color_converter.linear_srgb_deep_to_rgb_deep threshold
      (color_converter.rgb_deep_to_linear_srgb_deep c) - c| ≤ 1 / 100000 := by
  by_cases h : c ≤ 0.04045
  · rw [color_converter.rgb_deep_to_linear_srgb_deep, if_pos h,
      color_converter.linear_srgb_deep_to_rgb_deep]
    by_cases h2 : c / 12.92 ≤ threshold
    · rw [if_pos h2]
      have e : c / 12.92 * 12.92 - c = 0 := by
        field_simp
      rw [e, abs_zero]
      norm_num
    · rw [if_neg h2]
      have hA : (3108 / 1000000 : ℝ) ≤ c / 12.92 := by linarith
      have hB : c / 12.92 ≤ (313081 / 100000000 : ℝ) := by
        rw [div_le_iff₀ (by norm_num)]
        norm_num at h ⊢
        linarith
      have hj := gamma_junction (c / 12.92) hA hB
      have e : (12.92 : ℝ) * (c / 12.92) = c := by
        field_simp
      rw [e] at hj
      exact hj
  · rw [gamma_round_trip_power threshold c hT h, sub_self, abs_zero]
    norm_num

/-- The inverse helper followed by the forward helper, with a threshold between
0.003108 and `0.04045 / 12.92`. -/
theorem gamma_round_trip_back (threshold l : ℝ) (hl : 0 ≤ l)
    (hT0 : 3108 / 1000000 ≤ threshold) (hT : threshold ≤ 0.04045 / 12.92) :
    |color_converter.rgb_deep_to_linear_srgb_deep
      (color_converter.linear_srgb_deep_to_rgb_deep threshold l) - l| ≤ 1 / 100000 := by
  rw [color_converter.linear_srgb_deep_to_rgb_deep]
  by_cases h : l ≤ threshold
  · have h1 : l * 12.92 ≤ 0.04045 := by
      have h2 : l ≤ 0.04045 / 12.92 := le_trans h hT
      rw [le_div_iff₀ (by norm_num)] at h2
      exact h2
    rw [if_pos h, color_converter.rgb_deep_to_linear_srgb_deep, if_pos h1]
    have e : l * 12.92 / 12.92 - l = 0 := by
      field_simp
    rw [e, abs_zero]
    norm_num
  · rw [if_neg h, color_converter.rgb_deep_to_linear_srgb_deep]
    have hy : 0 ≤ l ^ (1 / 2.4 : ℝ) := Real.rpow_nonneg hl _
    by_cases h2 : 1.055 * l ^ (1 / 2.4 : ℝ) - 0.055 ≤ 0.04045
    · rw [if_pos h2]
      have hy1 : l ^ (1 / 2.4 : ℝ) ≤ 9545 / 105500 := by
        norm_num at h2 ⊢
        linarith
      have hB : l ≤ (313081 / 100000000 : ℝ) := by
        rw [← rpow_inv_gamma l hl]
        refine rpow_gamma_le _ _ hy (by norm_num) ?_
        calc (l ^ (1 / 2.4 : ℝ)) ^ 12 ≤ (9545 / 105500 : ℝ) ^ 12 := pow_le_pow_left₀ hy hy1 12
          _ ≤ (313081 / 100000000 : ℝ) ^ 5 := by norm_num
      have hA : (3108 / 1000000 : ℝ) ≤ l := by linarith
      have hj := abs_le.mp (gamma_junction l hA hB)
      rw [abs_le]
      constructor
      · rw [le_sub_iff_add_le, le_div_iff₀ (by norm_num)]
        norm_num at hj ⊢
        linarith [hj.1]
      · rw [sub_le_iff_le_add, div_le_iff₀ (by norm_num)]
        norm_num at hj ⊢
        linarith [hj.2]
    · rw [if_neg h2]
      have e : (1.055 * l ^ (1 / 2.4 : ℝ) - 0.055 + 0.055) / 1.055 = l ^ (1 / 2.4 : ℝ) := by
        field_simp
      rw [e, rpow_inv_gamma l hl, sub_self, abs_zero]
      norm_num

/-- The forward helper followed by the inverse helper whose threshold is the
image `0.04045 / 12.92` of the threshold of the forward helper. -/
theorem gamma_round_trip_exact (c : ℝ) :
    color_converter.linear_srgb_deep_to_rgb_deep (0.04045 / 12.92)
      (color_converter.rgb_deep_to_linear_srgb_deep c) = c := by
  by_cases h : c ≤ 0.04045
  · have h2 : c / 12.92 ≤ (0.04045 / 12.92 : ℝ) :=
      div_le_div_of_nonneg_right h (by norm_num)
    rw [color_converter.rgb_deep_to_linear_srgb_deep, if_pos h,
      color_converter.linear_srgb_deep_to_rgb_deep, if_pos h2]
    field_simp
  · exact gamma_round_trip_power _ c (le_refl _) h

/-- C23. Gamma symmetry: for every component value `c` in `[0, 1]`, and every
threshold of the inverse helper between 0.003108 and `0.04045 / 12.92`,
applying `rgb_deep_to_linear_srgb_deep` and then `linear_srgb_deep_to_rgb_deep`
returns `c` up to `1 / 100000`, and so does applying the two helpers in the
other order; with the threshold `0.04045 / 12.92` the first round trip
returns `c` exactly. -/
theorem gamma_symmetry (threshold c : ℝ)
    (hT : 3108 / 1000000 ≤ threshold ∧ threshold ≤ 0.04045 / 12.92)
    (hc : 0 ≤ c ∧ c ≤ 1) :
    |color_converter.linear_srgb_deep_to_rgb_deep threshold
        (color_converter.rgb_deep_to_linear_srgb_deep c) - c| ≤ 1 / 100000 ∧
      |color_converter.rgb_deep_to_linear_srgb_deep
        (color_converter.linear_srgb_deep_to_rgb_deep threshold c) - c| ≤ 1 / 100000 ∧
      color_converter.linear_srgb_deep_to_rgb_deep (0.04045 / 12.92)
        (color_converter.rgb_deep_to_linear_srgb_deep c) = c :=
  ⟨gamma_round_trip threshold c hT.1 hT.2, gamma_round_trip_back threshold c hc.1 hT.1 hT.2,
    gamma_round_trip_exact c⟩

/-- Witness of C23: the component 1/2 and the threshold 0.0031308. -/
theorem gamma_symmetry_witness :
    |color_converter.linear_srgb_deep_to_rgb_deep 0.0031308
        (color_converter.rgb_deep_to_linear_srgb_deep (1 / 2)) - 1 / 2| ≤ 1 / 100000 ∧
      |color_converter.rgb_deep_to_linear_srgb_deep
        (color_converter.linear_srgb_deep_to_rgb_deep 0.0031308 (1 / 2)) - 1 / 2|
          ≤ 1 / 100000 ∧
      color_converter.linear_srgb_deep_to_rgb_deep (0.04045 / 12.92)
        (color_converter.rgb_deep_to_linear_srgb_deep (1 / 2)) = 1 / 2 :=
  gamma_symmetry 0.0031308 (1 / 2) ⟨by norm_num, by norm_num⟩ ⟨by norm_num, by norm_num⟩

end ColorMagic
